import Mathlib

/-!
# realphysics4d: narrow-phase contact generation

A shallow embedding of `rpContactGeneration.cpp` (and the buffer it inherits from
`rpGenerationContactManiflodSet.h`).  The C++ `scalar` type is read as an arbitrary
linearly ordered field `K` (exact arithmetic); the object state of the generator is passed
explicitly.
-/

namespace real_physics

/-! ## Geometry primitives -/

/-- Modelled from the spec: the class `real_physics::Vector3` is not under src/ ("geometry
primitives ... assumed available"); a vector is its three scalar components, as in the
sibling `utility_engine::Vector2`. -/
structure Vector3 (K : Type) where
  x : K
  y : K
  z : K
deriving DecidableEq

namespace Vector3

variable {K : Type} [LinearOrderedField K]

/-- Modelled from the spec: default construction `Vector3()`; every component is zero, as
for `Vector2(float x=0, float y=0)` and `Matrix3()` of this repository. -/
def zero : Vector3 K := ⟨0, 0, 0⟩

/-- Modelled from the spec: `operator+` of the absent `Vector3`, component-wise as in
`Vector2.h`. -/
def add (a b : Vector3 K) : Vector3 K := ⟨a.x + b.x, a.y + b.y, a.z + b.z⟩

/-- Modelled from the spec: binary `operator-` of the absent `Vector3`, component-wise as in
`Vector2.h`. -/
def sub (a b : Vector3 K) : Vector3 K := ⟨a.x - b.x, a.y - b.y, a.z - b.z⟩

/-- Modelled from the spec: unary `operator-` of the absent `Vector3`. -/
def neg (a : Vector3 K) : Vector3 K := ⟨-a.x, -a.y, -a.z⟩

/-- Modelled from the spec: `operator*(const Vector3&, scalar)` of the absent `Vector3`. -/
def mulScalar (v : Vector3 K) (k : K) : Vector3 K := ⟨v.x * k, v.y * k, v.z * k⟩

/-- Modelled from the spec: `operator*(scalar, const Vector3&)` of the absent `Vector3`. -/
def scalarMul (k : K) (v : Vector3 K) : Vector3 K := ⟨k * v.x, k * v.y, k * v.z⟩

/-- Modelled from the spec: `Vector3::dot` of the absent `Vector3` ("signed distance via dot
product"), as `Vector2::dot`. -/
def dot (a b : Vector3 K) : K := a.x * b.x + a.y * b.y + a.z * b.z

/-- Modelled from the spec: squared length, as `Vector2::lengthSquared`. -/
def lengthSquare (v : Vector3 K) : K := v.x * v.x + v.y * v.y + v.z * v.z

/-- Modelled from the spec: `Vector3::length` of the absent `Vector3`, the square root of the
squared length as `Vector2::length`; the library square root is the parameter `sqrt`. -/
def length (sqrt : K → K) (v : Vector3 K) : K := sqrt (lengthSquare v)

/-- Modelled from the spec: `Vector3::getUnit` of the absent `Vector3`: the vector scaled by
the inverse of its length, as `Vector2::normalize` divides by `length()`. -/
def getUnit (sqrt : K → K) (v : Vector3 K) : Vector3 K :=
  let lengthInv := 1 / length sqrt v
  ⟨v.x * lengthInv, v.y * lengthInv, v.z * lengthInv⟩

/-- Modelled from the spec: `Vector3::normalize` of the absent `Vector3` ("normalize the
separating axis"; a zero-length vector is "a precondition violation (undefined/asserted)"),
as `Vector2::normalize`: `l = length(); assert(l > 0); x /= l; ...`.  The result is the
vector after the call, `none` when the assertion fails. -/
def normalize (sqrt : K → K) (v : Vector3 K) : Option (Vector3 K) :=
  let l := length sqrt v
  if l > 0 then some ⟨v.x / l, v.y / l, v.z / l⟩ else none

instance : Add (Vector3 K) := ⟨add⟩
instance : Sub (Vector3 K) := ⟨sub⟩
instance : Neg (Vector3 K) := ⟨neg⟩

end Vector3

/-- Modelled from the spec: the `Transform` class is not under src/; the generator only
applies a transform, or its inverse, to a point ("transformed from world space into each
shape's respective body-local space via the inverse of that body's current world
transform"). -/
structure Transform (K : Type) where
  /-- `transform * point`. -/
  apply : Vector3 K → Vector3 K
  /-- `transform.getInverse() * point`. -/
  applyInverse : Vector3 K → Vector3 K

/-- Modelled from the spec: `rpProxyShape` is not under src/; a shape "owns a world transform;
exposes support-point query".  The query returns the support vertices; their number is the
length of the list. -/
structure rpProxyShape (K : Type) where
  getAxisPeturberationPoints : Vector3 K → List (Vector3 K)
  getWorldTransform : Transform K

/-- Modelled from the spec: `rpContactPointInfo` is not under src/: "{ normal, penetration,
localPoint1, localPoint2 }", built by the generator as
`rpContactPointInfo(normal, penetration, localPoint1, localPoint2)`. -/
structure rpContactPointInfo (K : Type) where
  normal : Vector3 K
  penetration : K
  localPoint1 : Vector3 K
  localPoint2 : Vector3 K
deriving DecidableEq

/-- The result of the absent `rpQuickClippingPolygons`: `isComputeClippingToPoly()` and the
output vertices (`getSizeClipVertices()` is their number, `getOutClippingPoint(i)` the
i-th). -/
structure ClipResult (K : Type) where
  isComputeClippingToPoly : Bool
  outClippingPoints : List (Vector3 K)

/-- The functions the generator calls whose code is not under src/, taken as parameters. -/
structure Externals (K : Type) where
  /-- The library `sqrt` behind `Vector3::length`. -/
  sqrt : K → K
  /-- `Vector3::planeNormal(a, b, c)`. -/
  planeNormal : Vector3 K → Vector3 K → Vector3 K → Vector3 K
  /-- `u.AngleBetweenVectors(v)`. -/
  AngleBetweenVectors : Vector3 K → Vector3 K → K
  /-- `rpQuickClippingPolygons(Poly, iPolySize, Clipper, iClipperSize)`. -/
  rpQuickClippingPolygons : List (Vector3 K) → List (Vector3 K) → ClipResult K

/-- The square root is exact: non-negative, and squaring it gives the argument back. -/
def IsSqrt {K : Type} [LinearOrderedField K] (sqrt : K → K) : Prop :=
  ∀ x : K, 0 ≤ x → 0 ≤ sqrt x ∧ sqrt x * sqrt x = x

section Generator

variable {K : Type} [LinearOrderedField K]

/-- `#define EPS 0.00001f`. -/
def EPS : K := 1 / 100000

/-- `enum { eMaxContacts = 32 }`. -/
def eMaxContacts : Nat := 32

/-- Array read `verts[i]` of a support-vertex array held as a list (an index past the end
reads as the zero vector). -/
def vertexAt (verts : List (Vector3 K)) (i : Nat) : Vector3 K :=
  verts.getD i Vector3.zero

/-- `ClosestPointOnLine(vA, vB, vPoint)`. -/
def ClosestPointOnLine (sqrt : K → K) (vA vB vPoint : Vector3 K) : Vector3 K :=
  let vVector1 := vPoint - vA
  let vVector2 := Vector3.getUnit sqrt (vB - vA)
  let d := Vector3.length sqrt (vA - vB)
  let t := Vector3.dot vVector2 vVector1
  if t < 0 then vA
  else if t > d then vB
  else
    let vVector3 := Vector3.mulScalar vVector2 t
    let vClosestPoint := vA + vVector3
    vClosestPoint

/-- `LineLineIntersect(p1, p2, p3, p4, pa, pb)`: the returned triple is the boolean result
and the contents of `*pa` and `*pb` after the call (`pa`, `pb` are their contents before). -/
def LineLineIntersect (p1 p2 p3 p4 pa pb : Vector3 K) : Bool × Vector3 K × Vector3 K :=
  let p13 := p1 - p3
  let p43 := p4 - p3
  let p21 := p2 - p1
  if |p43.x| < EPS ∧ |p43.y| < EPS ∧ |p43.z| < EPS then (false, pa, pb)
  else if |p21.x| < EPS ∧ |p21.y| < EPS ∧ |p21.z| < EPS then (false, pa, pb)
  else
    let d1343 := p13.x * p43.x + p13.y * p43.y + p13.z * p43.z
    let d4321 := p43.x * p21.x + p43.y * p21.y + p43.z * p21.z
    let d1321 := p13.x * p21.x + p13.y * p21.y + p13.z * p21.z
    let d4343 := p43.x * p43.x + p43.y * p43.y + p43.z * p43.z
    let d2121 := p21.x * p21.x + p21.y * p21.y + p21.z * p21.z
    let denom := d2121 * d4343 - d4321 * d4321
    if |denom| < EPS then (false, pa, pb)
    else
      let numer := d1343 * d4321 - d1321 * d4343
      let mua := numer / denom
      let mub := (d1343 + d4321 * mua) / d4343
      let pa1 := p1 + Vector3.scalarMul mua p21
      let pb1 := p3 + Vector3.scalarMul mub p43
      (true, pb1, pa1)

/-- The state of an `rpContactGeneration` object.  The buffer `mInfoContacts` is indexed by
every natural number, so that a write past `eMaxContacts` stays visible instead of being
undefined. -/
structure rpContactGeneration (K : Type) where
  mShape1 : rpProxyShape K
  mShape2 : rpProxyShape K
  mSeparatonAxis : Vector3 K
  mInfoContacts : Nat → rpContactPointInfo K
  mNbContacts : Nat

/-- The constructor `rpContactGeneration(shape1, shape2, Axis)`: the members are
initialised (`mNbContacts(0)`), then `mSeparatonAxis.normalize()` runs; `buffer` is what the
not yet written array `mInfoContacts` holds.  The two `assert(mShape != NULL)` hold, the
shapes being values here. -/
def rpContactGeneration.new (sqrt : K → K) (shape1 shape2 : rpProxyShape K)
    (Axis : Vector3 K) (buffer : Nat → rpContactPointInfo K) :
    Option (rpContactGeneration K) :=
  match Vector3.normalize sqrt Axis with
  | some axis => some ⟨shape1, shape2, axis, buffer, 0⟩
  | none => none

/-- `addInfoContact(info)`: `mInfoContacts[mNbContacts++] = info`. -/
def addInfoContact (g : rpContactGeneration K) (info : rpContactPointInfo K) :
    rpContactGeneration K :=
  { g with
    mInfoContacts := Function.update g.mInfoContacts g.mNbContacts info
    mNbContacts := g.mNbContacts + 1 }

/-- `CollidePointPointContacts(A, B)`. -/
def CollidePointPointContacts (ext : Externals K) (g : rpContactGeneration K)
    (A B : Vector3 K) : rpContactGeneration K :=
  let penetration := Vector3.length ext.sqrt (A - B)
  addInfoContact g ⟨g.mSeparatonAxis, penetration, A, B⟩

/-- `CollidePointFaceContacts(A, xAxis, bd)`. -/
def CollidePointFaceContacts (ext : Externals K) (g : rpContactGeneration K)
    (A xAxis : Vector3 K) (bd : K) : rpContactGeneration K :=
  let dist := Vector3.dot A xAxis - bd
  let B := A - Vector3.scalarMul dist xAxis
  let penetration := Vector3.length ext.sqrt (A - B)
  addInfoContact g ⟨g.mSeparatonAxis, penetration, A, B⟩

/-- `CollidePointEdgeContacts(A, B0, B1)`. -/
def CollidePointEdgeContacts (ext : Externals K) (g : rpContactGeneration K)
    (A B0 B1 : Vector3 K) : rpContactGeneration K :=
  let B := ClosestPointOnLine ext.sqrt B0 B1 A
  let penetration := Vector3.length ext.sqrt (A - B)
  addInfoContact g ⟨g.mSeparatonAxis, penetration, A, B⟩

/-- `CollideEdgeEdgeContacts(A0, A1, B0, B1)`: the boolean result of `LineLineIntersect` is
not used; `AA` and `BB` start default-constructed. -/
def CollideEdgeEdgeContacts (ext : Externals K) (g : rpContactGeneration K)
    (A0 A1 B0 B1 : Vector3 K) : rpContactGeneration K :=
  let r := LineLineIntersect A0 A1 B0 B1 Vector3.zero Vector3.zero
  let AA := r.2.1
  let BB := r.2.2
  let penetration := Vector3.length ext.sqrt (AA - BB)
  addInfoContact g ⟨g.mSeparatonAxis, penetration, AA, BB⟩

/-- The body of the loop of `CollidePolygonContacts` for one clipped vertex `PB`. -/
def polygonContactStep (ClipperNormal : Vector3 K) (clipper_d : K)
    (g : rpContactGeneration K) (PB : Vector3 K) : rpContactGeneration K :=
  let dist := Vector3.dot PB ClipperNormal - clipper_d
  if dist ≤ 0 then
    let A := PB
    let B := PB - Vector3.mulScalar ClipperNormal dist
    let penetration := Vector3.dot (A - B) ClipperNormal
    addInfoContact g ⟨g.mSeparatonAxis, penetration, A, B⟩
  else g

/-- `CollidePolygonContacts(Poly, iPolySize, Clipper, iClipperSize)`; the sizes are the
lengths of the lists. -/
def CollidePolygonContacts (ext : Externals K) (g : rpContactGeneration K)
    (Poly Clipper : List (Vector3 K)) : rpContactGeneration K :=
  let polyClipping := ext.rpQuickClippingPolygons Poly Clipper
  if polyClipping.isComputeClippingToPoly then
    let ClipperNormal := ext.planeNormal (vertexAt Poly 0) (vertexAt Poly 1) (vertexAt Poly 2)
    let clipper_d := Vector3.dot (vertexAt Poly 0) ClipperNormal
    polyClipping.outClippingPoints.foldl (polygonContactStep ClipperNormal clipper_d) g
  else g

/-- `Swap(mInfoContacts[i].localPoint1, mInfoContacts[i].localPoint2)`. -/
def swapLocalPoints (c : rpContactPointInfo K) : rpContactPointInfo K :=
  { c with localPoint1 := c.localPoint2, localPoint2 := c.localPoint1 }

/-- The loop `for (uint i = 0; i < mNbContacts; ++i) Swap(localPoint1, localPoint2)`. -/
def swapAllLocalPoints (g : rpContactGeneration K) : rpContactGeneration K :=
  (List.range g.mNbContacts).foldl
    (fun h i => { h with
      mInfoContacts := Function.update h.mInfoContacts i (swapLocalPoints (h.mInfoContacts i)) })
    g

/-- `ConvertSupportPointsToContacts(SupportVertA, iNumVertsA, SupportVertB, iNumVertsB)`;
the counts are the lengths of the lists.  Returns the new state and the boolean result. -/
def ConvertSupportPointsToContacts (ext : Externals K) (g : rpContactGeneration K)
    (SupportVertA SupportVertB : List (Vector3 K)) : rpContactGeneration K × Bool :=
  let iNumVertsA := SupportVertA.length
  let iNumVertsB := SupportVertB.length
  if iNumVertsA = 0 ∨ iNumVertsB = 0 then (g, false)
  else
    let g0 : rpContactGeneration K := { g with mNbContacts := 0 }
    let g1 : rpContactGeneration K :=
      if iNumVertsA = 1 then
        if iNumVertsB = 1 then
          CollidePointPointContacts ext g0 (vertexAt SupportVertA 0) (vertexAt SupportVertB 0)
        else if iNumVertsB = 2 then
          CollidePointEdgeContacts ext g0 (vertexAt SupportVertA 0)
            (vertexAt SupportVertB 0) (vertexAt SupportVertB 1)
        else
          let Bn := ext.planeNormal (vertexAt SupportVertB 0) (vertexAt SupportVertB 1)
            (vertexAt SupportVertB 2)
          let bd := Vector3.dot Bn (vertexAt SupportVertB 0)
          CollidePointFaceContacts ext g0 (vertexAt SupportVertA 0) Bn bd
      else if iNumVertsA = 2 then
        if iNumVertsB = 1 then
          CollidePointEdgeContacts ext g0 (vertexAt SupportVertB 0)
            (vertexAt SupportVertA 0) (vertexAt SupportVertA 1)
        else if iNumVertsB = 2 then
          CollideEdgeEdgeContacts ext g0 (vertexAt SupportVertA 0) (vertexAt SupportVertA 1)
            (vertexAt SupportVertB 0) (vertexAt SupportVertB 1)
        else
          swapAllLocalPoints (CollidePolygonContacts ext g0 SupportVertB SupportVertA)
      else if iNumVertsA ≥ 3 then
        if iNumVertsB = 1 then
          let An := ext.planeNormal (vertexAt SupportVertA 0) (vertexAt SupportVertA 1)
            (vertexAt SupportVertA 2)
          let bd := Vector3.dot An (vertexAt SupportVertA 0)
          CollidePointFaceContacts ext g0 (vertexAt SupportVertB 0) An bd
        else if iNumVertsB = 2 then
          CollidePolygonContacts ext g0 SupportVertA SupportVertB
        else if iNumVertsB ≥ 3 then
          let normalA := ext.planeNormal (vertexAt SupportVertA 0) (vertexAt SupportVertA 1)
            (vertexAt SupportVertA 2)
          let normalB := ext.planeNormal (vertexAt SupportVertB 0) (vertexAt SupportVertB 1)
            (vertexAt SupportVertB 2)
          let angleA := ext.AngleBetweenVectors normalA g0.mSeparatonAxis
          let angleB := ext.AngleBetweenVectors normalB (-g0.mSeparatonAxis)
          if angleA ≤ angleB then
            CollidePolygonContacts ext g0 SupportVertA SupportVertB
          else
            swapAllLocalPoints (CollidePolygonContacts ext g0 SupportVertB SupportVertA)
        else g0
      else g0
    (g1, decide (g1.mNbContacts > 0))

/-- Modelled from the spec: `rpOverlappingPair` and `rpCollisionManager` are not under src/;
the pair is the ordered list of contacts registered for it: `clearContactPoints()` empties
it and `createContact(pair, info)` ("callback invoked by the generator into the collision
manager to register each accepted contact") appends one. -/
structure rpOverlappingPair (K : Type) where
  contactPoints : List (rpContactPointInfo K)

/-- Modelled from the spec: `rpOverlappingPair::clearContactPoints()`. -/
def clearContactPoints (_pair : rpOverlappingPair K) : rpOverlappingPair K := ⟨[]⟩

/-- Modelled from the spec: `rpCollisionManager::createContact(pair, info)`. -/
def createContact (pair : rpOverlappingPair K) (info : rpContactPointInfo K) :
    rpOverlappingPair K :=
  ⟨pair.contactPoints ++ [info]⟩

/-- The body of the loop of `computeContacteOverlappingPair` for index `i`. -/
def contactLoopStep (approximationCorretion : Bool) (transform_1 transform_2 : Transform K)
    (st : rpContactGeneration K × rpOverlappingPair K) (i : Nat) :
    rpContactGeneration K × rpOverlappingPair K :=
  let c0 := st.1.mInfoContacts i
  let c1 : rpContactPointInfo K := { c0 with normal := -c0.normal }
  let c2 : rpContactPointInfo K :=
    if approximationCorretion then
      let point1 := c1.localPoint1
      let point2 := c1.localPoint2
      let approximationPoint := Vector3.mulScalar (point1 + point2) (1 / 2)
      { c1 with localPoint1 := approximationPoint, localPoint2 := approximationPoint }
    else c1
  let c3 : rpContactPointInfo K :=
    { c2 with
      localPoint1 := transform_1.applyInverse c2.localPoint1
      localPoint2 := transform_2.applyInverse c2.localPoint2 }
  ({ st.1 with mInfoContacts := Function.update st.1.mInfoContacts i c3 },
    createContact st.2 c3)

/-- `computeContacteOverlappingPair(OverlappingPair, meneger, approximationCorretion)`:
returns the generator state and the pair after the call. -/
def computeContacteOverlappingPair (ext : Externals K) (g : rpContactGeneration K)
    (OverlappingPair : rpOverlappingPair K) (approximationCorretion : Bool) :
    rpContactGeneration K × rpOverlappingPair K :=
  let Normal := g.mSeparatonAxis
  let SupportVertA := g.mShape1.getAxisPeturberationPoints Normal
  let SupportVertB := g.mShape2.getAxisPeturberationPoints (-Normal)
  let r := ConvertSupportPointsToContacts ext g SupportVertA SupportVertB
  let isOutside := r.2
  let transform_1 := g.mShape1.getWorldTransform
  let transform_2 := g.mShape2.getWorldTransform
  let pair0 := clearContactPoints OverlappingPair
  if isOutside then
    (List.range r.1.mNbContacts).foldl
      (contactLoopStep approximationCorretion transform_1 transform_2) (r.1, pair0)
  else (r.1, pair0)

end Generator

/-! ## Array reads with bounds

The two functions that index the support-vertex arrays, with every read `verts[i]` checked
against the number of vertices the array holds: a read past the end makes the call fail
(`none`) instead of returning a value. -/

section CheckedReads

variable {K : Type} [LinearOrderedField K]

/-- Array read `verts[i]` of a support-vertex array held as a list: `none` when `i` is not
below the number of vertices. -/
def readVertex (verts : List (Vector3 K)) (i : Nat) : Option (Vector3 K) :=
  verts[i]?

/-- `CollidePolygonContacts(Poly, iPolySize, Clipper, iClipperSize)` with the reads
`Poly[0]`, `Poly[1]`, `Poly[2]` checked. -/
def Checked.CollidePolygonContacts (ext : Externals K) (g : rpContactGeneration K)
    (Poly Clipper : List (Vector3 K)) : Option (rpContactGeneration K) :=
  let polyClipping := ext.rpQuickClippingPolygons Poly Clipper
  if polyClipping.isComputeClippingToPoly then do
    let Poly0 ← readVertex Poly 0
    let Poly1 ← readVertex Poly 1
    let Poly2 ← readVertex Poly 2
    let ClipperNormal := ext.planeNormal Poly0 Poly1 Poly2
    let clipper_d := Vector3.dot Poly0 ClipperNormal
    pure (polyClipping.outClippingPoints.foldl (polygonContactStep ClipperNormal clipper_d) g)
  else pure g

/-- `ConvertSupportPointsToContacts(SupportVertA, iNumVertsA, SupportVertB, iNumVertsB)`
with the reads of `SupportVertA[i]` and `SupportVertB[i]` checked; the counts are the
lengths of the lists. -/
def Checked.ConvertSupportPointsToContacts (ext : Externals K) (g : rpContactGeneration K)
    (SupportVertA SupportVertB : List (Vector3 K)) : Option (rpContactGeneration K × Bool) :=
  let iNumVertsA := SupportVertA.length
  let iNumVertsB := SupportVertB.length
  if iNumVertsA = 0 ∨ iNumVertsB = 0 then pure (g, false)
  else do
    let g0 : rpContactGeneration K := { g with mNbContacts := 0 }
    let g1 : rpContactGeneration K ←
      if iNumVertsA = 1 then
        if iNumVertsB = 1 then do
          let A0 ← readVertex SupportVertA 0
          let B0 ← readVertex SupportVertB 0
          pure (CollidePointPointContacts ext g0 A0 B0)
        else if iNumVertsB = 2 then do
          let A0 ← readVertex SupportVertA 0
          let B0 ← readVertex SupportVertB 0
          let B1 ← readVertex SupportVertB 1
          pure (CollidePointEdgeContacts ext g0 A0 B0 B1)
        else do
          let B0 ← readVertex SupportVertB 0
          let B1 ← readVertex SupportVertB 1
          let B2 ← readVertex SupportVertB 2
          let Bn := ext.planeNormal B0 B1 B2
          let bd := Vector3.dot Bn B0
          let A0 ← readVertex SupportVertA 0
          pure (CollidePointFaceContacts ext g0 A0 Bn bd)
      else if iNumVertsA = 2 then
        if iNumVertsB = 1 then do
          let B0 ← readVertex SupportVertB 0
          let A0 ← readVertex SupportVertA 0
          let A1 ← readVertex SupportVertA 1
          pure (CollidePointEdgeContacts ext g0 B0 A0 A1)
        else if iNumVertsB = 2 then do
          let A0 ← readVertex SupportVertA 0
          let A1 ← readVertex SupportVertA 1
          let B0 ← readVertex SupportVertB 0
          let B1 ← readVertex SupportVertB 1
          pure (CollideEdgeEdgeContacts ext g0 A0 A1 B0 B1)
        else do
          let g2 ← Checked.CollidePolygonContacts ext g0 SupportVertB SupportVertA
          pure (swapAllLocalPoints g2)
      else if iNumVertsA ≥ 3 then
        if iNumVertsB = 1 then do
          let A0 ← readVertex SupportVertA 0
          let A1 ← readVertex SupportVertA 1
          let A2 ← readVertex SupportVertA 2
          let An := ext.planeNormal A0 A1 A2
          let bd := Vector3.dot An A0
          let B0 ← readVertex SupportVertB 0
          pure (CollidePointFaceContacts ext g0 B0 An bd)
        else if iNumVertsB = 2 then
          Checked.CollidePolygonContacts ext g0 SupportVertA SupportVertB
        else if iNumVertsB ≥ 3 then do
          let A0 ← readVertex SupportVertA 0
          let A1 ← readVertex SupportVertA 1
          let A2 ← readVertex SupportVertA 2
          let normalA := ext.planeNormal A0 A1 A2
          let B0 ← readVertex SupportVertB 0
          let B1 ← readVertex SupportVertB 1
          let B2 ← readVertex SupportVertB 2
          let normalB := ext.planeNormal B0 B1 B2
          let angleA := ext.AngleBetweenVectors normalA g0.mSeparatonAxis
          let angleB := ext.AngleBetweenVectors normalB (-g0.mSeparatonAxis)
          if angleA ≤ angleB then
            Checked.CollidePolygonContacts ext g0 SupportVertA SupportVertB
          else do
            let g2 ← Checked.CollidePolygonContacts ext g0 SupportVertB SupportVertA
            pure (swapAllLocalPoints g2)
        else pure g0
      else pure g0
    pure (g1, decide (g1.mNbContacts > 0))

end CheckedReads

/-! ## Divisions with a checked divisor

`LineLineIntersect` once more, with its two divisions checked: a division by zero makes
the call fail (`none`) instead of returning a value. -/

section CheckedDivisions

variable {K : Type} [LinearOrderedField K]

/-- The quotient `a / b` of two scalars: `none` when the divisor `b` is zero. -/
def checkedDiv (a b : K) : Option K :=
  if b = 0 then none else some (a / b)

/-- `LineLineIntersect(p1, p2, p3, p4, pa, pb)` with the divisions `numer / denom` and
`(d1343 + d4321 * (mua)) / d4343` checked. -/
def Checked.LineLineIntersect (p1 p2 p3 p4 pa pb : Vector3 K) :
    Option (Bool × Vector3 K × Vector3 K) :=
  let p13 := p1 - p3
  let p43 := p4 - p3
  let p21 := p2 - p1
  if |p43.x| < EPS ∧ |p43.y| < EPS ∧ |p43.z| < EPS then pure (false, pa, pb)
  else if |p21.x| < EPS ∧ |p21.y| < EPS ∧ |p21.z| < EPS then pure (false, pa, pb)
  else
    let d1343 := p13.x * p43.x + p13.y * p43.y + p13.z * p43.z
    let d4321 := p43.x * p21.x + p43.y * p21.y + p43.z * p21.z
    let d1321 := p13.x * p21.x + p13.y * p21.y + p13.z * p21.z
    let d4343 := p43.x * p43.x + p43.y * p43.y + p43.z * p43.z
    let d2121 := p21.x * p21.x + p21.y * p21.y + p21.z * p21.z
    let denom := d2121 * d4343 - d4321 * d4321
    if |denom| < EPS then pure (false, pa, pb)
    else do
      let numer := d1343 * d4321 - d1321 * d4343
      let mua ← checkedDiv numer denom
      let mub ← checkedDiv (d1343 + d4321 * mua) d4343
      let pa1 := p1 + Vector3.scalarMul mua p21
      let pb1 := p3 + Vector3.scalarMul mub p43
      pure (true, pb1, pa1)

end CheckedDivisions

/-! ## Slider joint: `rpSliderJoint.h` -/

section SliderJoint

/-- Modelled from the spec: the enumeration of joint types is not under src/; the slider
joint descriptor passes the enumerator `SLIDERJOINT` to its base class, and no other
enumerator occurs in src/. -/
inductive JointType where
  | SLIDERJOINT
deriving DecidableEq

/-- Modelled from the spec: the base `rpJointInfo` is not under src/; its constructor
`rpJointInfo(rigidBody1, rigidBody2, type)` receives the two bodies a joint connects and the
joint type.  `Body` is the type of the body pointers. -/
structure rpJointInfo (Body : Type) where
  body1 : Body
  body2 : Body
  type : JointType

/-- `struct rpSliderJointInfo : public rpJointInfo`. -/
structure rpSliderJointInfo (Body K : Type) extends rpJointInfo Body where
  anchorPointWorldSpace : Vector3 K
  sliderAxisWorldSpace : Vector3 K
  isLimitEnabled : Bool
  isMotorEnabled : Bool
  minTranslationLimit : K
  maxTranslationLimit : K
  motorSpeed : K
  maxMotorForce : K

variable {Body K : Type} [LinearOrderedField K]

/-- The constructor of `rpSliderJointInfo` "without limits and without motor". -/
def rpSliderJointInfo.new (rigidBody1 rigidBody2 : Body)
    (initAnchorPointWorldSpace initSliderAxisWorldSpace : Vector3 K) :
    rpSliderJointInfo Body K :=
  { body1 := rigidBody1, body2 := rigidBody2, type := JointType.SLIDERJOINT,
    anchorPointWorldSpace := initAnchorPointWorldSpace,
    sliderAxisWorldSpace := initSliderAxisWorldSpace,
    isLimitEnabled := false, isMotorEnabled := false, minTranslationLimit := -1,
    maxTranslationLimit := 1, motorSpeed := 0, maxMotorForce := 0 }

/-- The constructor of `rpSliderJointInfo` "with limits and no motor". -/
def rpSliderJointInfo.newWithLimits (rigidBody1 rigidBody2 : Body)
    (initAnchorPointWorldSpace initSliderAxisWorldSpace : Vector3 K)
    (initMinTranslationLimit initMaxTranslationLimit : K) : rpSliderJointInfo Body K :=
  { body1 := rigidBody1, body2 := rigidBody2, type := JointType.SLIDERJOINT,
    anchorPointWorldSpace := initAnchorPointWorldSpace,
    sliderAxisWorldSpace := initSliderAxisWorldSpace,
    isLimitEnabled := true, isMotorEnabled := false,
    minTranslationLimit := initMinTranslationLimit,
    maxTranslationLimit := initMaxTranslationLimit, motorSpeed := 0,
    maxMotorForce := 0 }

/-- The constructor of `rpSliderJointInfo` "with limits and motor". -/
def rpSliderJointInfo.newWithLimitsAndMotor (rigidBody1 rigidBody2 : Body)
    (initAnchorPointWorldSpace initSliderAxisWorldSpace : Vector3 K)
    (initMinTranslationLimit initMaxTranslationLimit initMotorSpeed initMaxMotorForce : K) :
    rpSliderJointInfo Body K :=
  { body1 := rigidBody1, body2 := rigidBody2, type := JointType.SLIDERJOINT,
    anchorPointWorldSpace := initAnchorPointWorldSpace,
    sliderAxisWorldSpace := initSliderAxisWorldSpace,
    isLimitEnabled := true, isMotorEnabled := true,
    minTranslationLimit := initMinTranslationLimit,
    maxTranslationLimit := initMaxTranslationLimit, motorSpeed := initMotorSpeed,
    maxMotorForce := initMaxMotorForce }

/-- The members of `class rpSliderJoint` that its inline accessors read: the accumulated
limit and motor impulses and the limit and motor configuration.  (The other members hold
solver data of types that are not under src/.) -/
structure rpSliderJoint (K : Type) where
  mImpulseLowerLimit : K
  mImpulseUpperLimit : K
  mImpulseMotor : K
  mIsLimitEnabled : Bool
  mIsMotorEnabled : Bool
  mLowerLimit : K
  mUpperLimit : K
  mIsLowerLimitViolated : Bool
  mIsUpperLimitViolated : Bool
  mMotorSpeed : K
  mMaxMotorForce : K

/-- `rpSliderJoint::isLimitEnabled() const`. -/
def rpSliderJoint.isLimitEnabled (j : rpSliderJoint K) : Bool := j.mIsLimitEnabled

/-- `rpSliderJoint::isMotorEnabled() const`. -/
def rpSliderJoint.isMotorEnabled (j : rpSliderJoint K) : Bool := j.mIsMotorEnabled

/-- `rpSliderJoint::getMinTranslationLimit() const`. -/
def rpSliderJoint.getMinTranslationLimit (j : rpSliderJoint K) : K := j.mLowerLimit

/-- `rpSliderJoint::getMaxTranslationLimit() const`. -/
def rpSliderJoint.getMaxTranslationLimit (j : rpSliderJoint K) : K := j.mUpperLimit

/-- `rpSliderJoint::getMotorSpeed() const`. -/
def rpSliderJoint.getMotorSpeed (j : rpSliderJoint K) : K := j.mMotorSpeed

/-- `rpSliderJoint::getMaxMotorForce() const`. -/
def rpSliderJoint.getMaxMotorForce (j : rpSliderJoint K) : K := j.mMaxMotorForce

/-- `rpSliderJoint::getMotorForce(timeStep) const`. -/
def rpSliderJoint.getMotorForce (j : rpSliderJoint K) (timeStep : K) : K :=
  j.mImpulseMotor / timeStep

end SliderJoint

/-! ## Predicates used by the statements -/

section Predicates

variable {K : Type} [LinearOrderedField K]

/-- Every contact stored in the buffer (index below `mNbContacts`) satisfies `P`. -/
def AllStored (P : rpContactPointInfo K → Prop) (g : rpContactGeneration K) : Prop :=
  ∀ i, i < g.mNbContacts → P (g.mInfoContacts i)

/-- The contacts stored in the buffer, in index order: entries 0 to `mNbContacts - 1`. -/
def storedContacts (g : rpContactGeneration K) : List (rpContactPointInfo K) :=
  (List.range g.mNbContacts).map g.mInfoContacts

/-- The contact that the loop body of `CollidePolygonContacts` builds for a retained
clipped vertex `PB` (`infoNewContact`). -/
def polygonContact (axis ClipperNormal : Vector3 K) (clipper_d : K) (PB : Vector3 K) :
    rpContactPointInfo K :=
  ⟨axis,
    Vector3.dot (PB - (PB - Vector3.mulScalar ClipperNormal
      (Vector3.dot PB ClipperNormal - clipper_d))) ClipperNormal,
    PB,
    PB - Vector3.mulScalar ClipperNormal (Vector3.dot PB ClipperNormal - clipper_d)⟩

/-- The test `dist <= 0` of the loop body of `CollidePolygonContacts` for a clipped
vertex `PB`. -/
def polygonRetained (ClipperNormal : Vector3 K) (clipper_d : K) (PB : Vector3 K) : Bool :=
  decide (Vector3.dot PB ClipperNormal - clipper_d ≤ 0)

/-- What the loop body of `computeContacteOverlappingPair` makes of a stored contact `c`
before handing it to `createContact`. -/
def registeredContact (approximationCorretion : Bool) (transform_1 transform_2 : Transform K)
    (c : rpContactPointInfo K) : rpContactPointInfo K :=
  let c1 : rpContactPointInfo K := { c with normal := -c.normal }
  let c2 : rpContactPointInfo K :=
    if approximationCorretion then
      let approximationPoint := Vector3.mulScalar (c1.localPoint1 + c1.localPoint2) (1 / 2)
      { c1 with localPoint1 := approximationPoint, localPoint2 := approximationPoint }
    else c1
  { c2 with
    localPoint1 := transform_1.applyInverse c2.localPoint1
    localPoint2 := transform_2.applyInverse c2.localPoint2 }

/-- The value `mua` computed by `LineLineIntersect(p1, p2, p3, p4, ...)` once its gates are
passed: `numer / denom`. -/
def lineMua (p1 p2 p3 p4 : Vector3 K) : K :=
  (Vector3.dot (p1 - p3) (p4 - p3) * Vector3.dot (p4 - p3) (p2 - p1) -
      Vector3.dot (p1 - p3) (p2 - p1) * Vector3.dot (p4 - p3) (p4 - p3)) /
    (Vector3.dot (p2 - p1) (p2 - p1) * Vector3.dot (p4 - p3) (p4 - p3) -
      Vector3.dot (p4 - p3) (p2 - p1) * Vector3.dot (p4 - p3) (p2 - p1))

/-- The value `mub` computed by `LineLineIntersect(p1, p2, p3, p4, ...)` once its gates are
passed: `(d1343 + d4321 * mua) / d4343`. -/
def lineMub (p1 p2 p3 p4 : Vector3 K) : K :=
  (Vector3.dot (p1 - p3) (p4 - p3) + Vector3.dot (p4 - p3) (p2 - p1) * lineMua p1 p2 p3 p4) /
    Vector3.dot (p4 - p3) (p4 - p3)

end Predicates

/-! ## Sample inputs -/

section Samples

variable {K : Type} [LinearOrderedField K]

/-- Cross product, used by the sample plane normal. -/
def sampleCross (a b : Vector3 K) : Vector3 K :=
  ⟨a.y * b.z - a.z * b.y, a.z * b.x - a.x * b.z, a.x * b.y - a.y * b.x⟩

/-- Sample externals, for a given square root and arc cosine: the unit normal of the plane
through three points, the angle between two vectors, and a clipper for a subject polygon
lying inside the prism of the reference polygon (it reports success and returns the
subject's vertices, which is what clipping leaves of such a subject). -/
def sampleExternals (sqrt arccos : K → K) : Externals K where
  sqrt := sqrt
  planeNormal a b c := Vector3.getUnit sqrt (sampleCross (b - a) (c - a))
  AngleBetweenVectors u v :=
    arccos (Vector3.dot u v / (Vector3.length sqrt u * Vector3.length sqrt v))
  rpQuickClippingPolygons _Poly Clipper := ⟨true, Clipper⟩

/-- A sample shape: its support set is `pts` whatever the direction, and its world
transform is the translation by `t`. -/
def sampleShape (pts : List (Vector3 K)) (t : Vector3 K) : rpProxyShape K where
  getAxisPeturberationPoints _ := pts
  getWorldTransform := ⟨fun p => p + t, fun p => p - t⟩

/-- A sample generator state with separating axis (0,0,1) whose buffer still counts three
contacts of an earlier conversion. -/
def sampleGenerator (ptsA ptsB : List (Vector3 K)) : rpContactGeneration K where
  mShape1 := sampleShape ptsA ⟨0, 0, 0⟩
  mShape2 := sampleShape ptsB ⟨0, 0, 0⟩
  mSeparatonAxis := ⟨0, 0, 1⟩
  mInfoContacts _ := ⟨⟨0, 0, 1⟩, 0, ⟨0, 0, 0⟩, ⟨0, 0, 0⟩⟩
  mNbContacts := 3

/-- A face of shape A: the triangle (0,0,0), (1,0,0), (0,1,0) in the plane z = 0. -/
def sampleTriangle : List (Vector3 K) := [⟨0, 0, 0⟩, ⟨1, 0, 0⟩, ⟨0, 1, 0⟩]

/-- An edge of shape B lying one unit below the triangle, inside its prism. -/
def sampleEdgeBelow : List (Vector3 K) := [⟨1 / 4, 1 / 4, -1⟩, ⟨1 / 2, 1 / 4, -1⟩]

/-- A convex polygon with 33 vertices in the plane z = 0: the points (i, i(i-1)/2, 0) for
i = 0, ..., 32, in counter-clockwise order. -/
def samplePolygon33 : List (Vector3 K) :=
  ⟨0, 0, 0⟩ :: ⟨1, 0, 0⟩ :: ⟨2, 1, 0⟩ ::
    List.map (fun (i : Nat) => (⟨(i : K) + 3, ((i : K) + 3) * ((i : K) + 2) / 2, 0⟩ : Vector3 K))
      (List.range 30)

end Samples

end real_physics

/-! # UI-engine maths: `Vector2.h` and `Matrix3.h` -/

namespace utility_engine

/-- Modelled from the spec: `utility_engine::Vector3` (UI-engine/maths/Vector3.h) is not
under src/ ("basic vector/matrix utility types ... assumed as a pre-existing linear-algebra
library"); `Matrix3.h` reads its members `x`, `y`, `z` and builds it from three floats. -/
structure Vector3 (K : Type) where
  x : K
  y : K
  z : K
deriving DecidableEq

/-! ## `Vector2.h` -/

/-- `class Vector2`: the members `float x, y`. -/
structure Vector2 (K : Type) where
  x : K
  y : K
deriving DecidableEq

namespace Vector2

variable {K : Type} [LinearOrderedField K]

/-- `Vector2::lengthSquared()`, read in exact arithmetic (no rounding, underflow or
overflow); `Binary32.Vector2.lengthSquared` is the same function in `float` arithmetic. -/
def lengthSquared (v : Vector2 K) : K := v.x * v.x + v.y * v.y

/-- `Vector2::length()`, read in exact arithmetic; the library square root is the parameter
`sqrt`.  `Binary32.Vector2.length` is the same function in `float` arithmetic. -/
def length (sqrt : K → K) (v : Vector2 K) : K := sqrt (lengthSquared v)

/-- `Vector2::normalize()`, read in exact arithmetic: the vector after the call, which is
also the returned copy; `none` is the failure of `assert(l > 0)`.
`Binary32.Vector2.normalize` is the same function in `float` arithmetic. -/
def normalize (sqrt : K → K) (v : Vector2 K) : Option (Vector2 K) :=
  let l := length sqrt v
  if l > 0 then some ⟨v.x / l, v.y / l⟩ else none

end Vector2

/-! ## The type `float`: IEEE 754 binary32

`Vector2.h` computes with `float`.  The functions of `Vector2` whose result depends on
rounding, underflow or overflow are also given over the values of that type. -/

/-- A value of the C++ type `float` (IEEE 754 binary32): a finite number, an infinity or a
NaN.  A finite value is held as the rational number it stands for; the sign of a zero is
not kept. -/
inductive Binary32 where
  | finite (q : ℚ)
  | infinity (negative : Bool)
  | nan
deriving DecidableEq

namespace Binary32

/-- The integer nearest to `n`, the even one of the two when `n` lies half-way. -/
def roundHalfEven (n : ℚ) : ℤ :=
  let f := ⌊n⌋
  if n - f < 1 / 2 then f
  else if n - f > 1 / 2 then f + 1
  else if f % 2 = 0 then f else f + 1

/-- The spacing of the binary32 values around `q`: 2^(e-23) for 2^e <= |q| < 2^(e+1), and
2^-149 below 2^-126 (subnormal range). -/
def ulp (q : ℚ) : ℚ := 2 ^ (max (Int.log 2 |q|) (-126) - 23)

/-- The largest finite binary32 value, (2 - 2^-23) * 2^127. -/
def maxFinite : ℚ := (2 - 1 / 2 ^ 23) * 2 ^ 127

/-- The binary32 value of an exact result `q`: round to nearest, ties to even, with gradual
underflow; a result that rounds beyond the largest finite value becomes an infinity. -/
def ofRat (q : ℚ) : Binary32 :=
  let r : ℚ := roundHalfEven (q / ulp q) * ulp q
  if |r| > maxFinite then infinity (decide (q < 0)) else finite r

/-- The product `a * b` of two `float`s. -/
def mul : Binary32 → Binary32 → Binary32
  | finite a, finite b => ofRat (a * b)
  | finite a, infinity s => if a = 0 then nan else infinity (xor s (decide (a < 0)))
  | infinity s, finite b => if b = 0 then nan else infinity (xor s (decide (b < 0)))
  | infinity s, infinity t => infinity (xor s t)
  | _, _ => nan

/-- The sum `a + b` of two `float`s. -/
def add : Binary32 → Binary32 → Binary32
  | finite a, finite b => ofRat (a + b)
  | finite _, infinity s => infinity s
  | infinity s, finite _ => infinity s
  | infinity s, infinity t => if s = t then infinity s else nan
  | _, _ => nan

/-- The quotient `a / b` of two `float`s.  A zero divisor is taken as +0, its sign not being
kept. -/
def div : Binary32 → Binary32 → Binary32
  | finite a, finite b =>
    if b = 0 then (if a = 0 then nan else infinity (decide (a < 0))) else ofRat (a / b)
  | finite _, infinity _ => finite 0
  | infinity s, finite b => infinity (xor s (decide (b < 0)))
  | _, _ => nan

/-- The binary32 value nearest to the square root of a rational `q >= 0`: with
2^e <= q < 2^(e+1) the root lies in [2^k, 2^(k+1)) for k = floor(e/2), where the spacing
is u = 2^(k-23); `n` is the integer part of the root counted in units of u. -/
def sqrtRat (q : ℚ) : ℚ :=
  let u : ℚ := 2 ^ (Int.log 2 q / 2 - 23)
  let m : ℚ := q / (u * u)
  let n : ℕ := Nat.sqrt ⌊m⌋₊
  let h : ℚ := n + 1 / 2
  if m < h * h then n * u
  else if m > h * h then (n + 1) * u
  else if n % 2 = 0 then n * u else (n + 1) * u

/-- The library `sqrt` on a `float`. -/
def sqrt : Binary32 → Binary32
  | finite q => if q < 0 then nan else finite (sqrtRat q)
  | infinity false => infinity false
  | _ => nan

/-- The comparison `a < b` of two `float`s (false when either is a NaN). -/
def lt : Binary32 → Binary32 → Bool
  | finite a, finite b => decide (a < b)
  | finite _, infinity s => !s
  | infinity s, finite _ => s
  | infinity s, infinity t => s && !t
  | _, _ => false

/-- `class Vector2` with its members `float x, y` as binary32 values. -/
structure Vector2 where
  x : Binary32
  y : Binary32
deriving DecidableEq

/-- `Vector2::lengthSquared()` in `float` arithmetic: each product and the sum is
rounded. -/
def Vector2.lengthSquared (v : Vector2) : Binary32 :=
  add (mul v.x v.x) (mul v.y v.y)

/-- `Vector2::length()` in `float` arithmetic. -/
def Vector2.length (v : Vector2) : Binary32 := sqrt (Vector2.lengthSquared v)

/-- `Vector2::normalize()` in `float` arithmetic: the vector after the call, which is also
the returned copy; `none` is the failure of `assert(l > 0)`. -/
def Vector2.normalize (v : Vector2) : Option Vector2 :=
  let l := Vector2.length v
  if lt (finite 0) l then some ⟨div v.x l, div v.y l⟩ else none

end Binary32

/-! ## `Matrix3.h` -/

/-- `class Matrix3`: the member `float m[3][3]`; the field `mij` is `m[i][j]`.  The
structure constructor is the nine-float constructor `Matrix3(a1, a2, a3, b1, b2, b3, c1,
c2, c3)`, which fills the rows in this order through `setAllValues`. -/
structure Matrix3 (K : Type) where
  m00 : K
  m01 : K
  m02 : K
  m10 : K
  m11 : K
  m12 : K
  m20 : K
  m21 : K
  m22 : K
deriving DecidableEq

namespace Matrix3

variable {K : Type} [LinearOrderedField K]

/-- `std::numeric_limits<float>::epsilon()`, the value 2^-23. -/
def floatEpsilon : K := 1 / 8388608

/-- `Matrix3::getDeterminant()`. -/
def getDeterminant (a : Matrix3 K) : K :=
  a.m00 * (a.m11 * a.m22 - a.m21 * a.m12) -
    a.m01 * (a.m10 * a.m22 - a.m20 * a.m12) +
    a.m02 * (a.m10 * a.m21 - a.m20 * a.m11)

/-- `Matrix3::getTranspose()`. -/
def getTranspose (a : Matrix3 K) : Matrix3 K :=
  ⟨a.m00, a.m10, a.m20,
   a.m01, a.m11, a.m21,
   a.m02, a.m12, a.m22⟩

/-- The entries of a `Matrix3` as a Mathlib matrix, row `i`, column `j` holding
`m[i][j]`. -/
def toMatrix (a : Matrix3 K) : Matrix (Fin 3) (Fin 3) K :=
  Matrix.of ![![a.m00, a.m01, a.m02], ![a.m10, a.m11, a.m12], ![a.m20, a.m21, a.m22]]

/-- The matrix left by `Matrix3::setToIdentity()`. -/
def setToIdentity : Matrix3 K := ⟨1, 0, 0, 0, 1, 0, 0, 0, 1⟩

/-- `Matrix3::operator*(float nb)`. -/
def mulFloat (a : Matrix3 K) (nb : K) : Matrix3 K :=
  ⟨a.m00 * nb, a.m01 * nb, a.m02 * nb,
   a.m10 * nb, a.m11 * nb, a.m12 * nb,
   a.m20 * nb, a.m21 * nb, a.m22 * nb⟩

/-- `Matrix3::operator*(const Matrix3& matrix2)`. -/
def mul (a matrix2 : Matrix3 K) : Matrix3 K :=
  ⟨a.m00 * matrix2.m00 + a.m01 * matrix2.m10 + a.m02 * matrix2.m20,
   a.m00 * matrix2.m01 + a.m01 * matrix2.m11 + a.m02 * matrix2.m21,
   a.m00 * matrix2.m02 + a.m01 * matrix2.m12 + a.m02 * matrix2.m22,
   a.m10 * matrix2.m00 + a.m11 * matrix2.m10 + a.m12 * matrix2.m20,
   a.m10 * matrix2.m01 + a.m11 * matrix2.m11 + a.m12 * matrix2.m21,
   a.m10 * matrix2.m02 + a.m11 * matrix2.m12 + a.m12 * matrix2.m22,
   a.m20 * matrix2.m00 + a.m21 * matrix2.m10 + a.m22 * matrix2.m20,
   a.m20 * matrix2.m01 + a.m21 * matrix2.m11 + a.m22 * matrix2.m21,
   a.m20 * matrix2.m02 + a.m21 * matrix2.m12 + a.m22 * matrix2.m22⟩

/-- `Matrix3::operator*(const Vector3& vector)`. -/
def mulVector (a : Matrix3 K) (vector : Vector3 K) : Vector3 K :=
  ⟨a.m00 * vector.x + a.m01 * vector.y + a.m02 * vector.z,
   a.m10 * vector.x + a.m11 * vector.y + a.m12 * vector.z,
   a.m20 * vector.x + a.m21 * vector.y + a.m22 * vector.z⟩

/-- `Matrix3::getInverse()`: `none` is the failure of
`assert(determinant > std::numeric_limits<float>::epsilon())`. -/
def getInverse (a : Matrix3 K) : Option (Matrix3 K) :=
  let determinant := getDeterminant a
  if determinant > floatEpsilon then
    let invDeterminant := 1 / determinant
    let tempMatrix : Matrix3 K :=
      ⟨(a.m11 * a.m22 - a.m21 * a.m12), -(a.m01 * a.m22 - a.m21 * a.m02),
        (a.m01 * a.m12 - a.m02 * a.m11),
       -(a.m10 * a.m22 - a.m20 * a.m12), (a.m00 * a.m22 - a.m20 * a.m02),
        -(a.m00 * a.m12 - a.m10 * a.m02),
       (a.m10 * a.m21 - a.m20 * a.m11), -(a.m00 * a.m21 - a.m20 * a.m01),
        (a.m00 * a.m11 - a.m01 * a.m10)⟩
    some (mulFloat tempMatrix invDeterminant)
  else none

/-- The constructor `Matrix3(const Vector3& a1, const Vector3& a2, const Vector3& a3)`. -/
def fromVectors (a1 a2 a3 : Vector3 K) : Matrix3 K :=
  ⟨a1.x, a2.x, a3.x,
   a1.y, a2.y, a3.y,
   a1.z, a2.z, a3.z⟩

/-- `Matrix3::getColumn(int i)`: `Vector3(m[0][i], m[1][i], m[2][i])`; `none` is the
failure of `assert(i>= 0 && i<3)`. -/
def getColumn (a : Matrix3 K) (i : Int) : Option (Vector3 K) :=
  if i ≥ 0 ∧ i < 3 then
    if i = 0 then some ⟨a.m00, a.m10, a.m20⟩
    else if i = 1 then some ⟨a.m01, a.m11, a.m21⟩
    else some ⟨a.m02, a.m12, a.m22⟩
  else none

/-- `Matrix3::operator==(const Matrix3& matrix)`. -/
def eq (a matrix : Matrix3 K) : Bool :=
  decide (a.m00 = matrix.m00) && decide (a.m01 = matrix.m01) && decide (a.m02 = matrix.m02) &&
  decide (a.m10 = matrix.m10) && decide (a.m11 = matrix.m11) && decide (a.m12 = matrix.m12) &&
  decide (a.m20 = matrix.m20) && decide (a.m21 = matrix.m21) && decide (a.m22 = matrix.m22)

/-- `Matrix3::isIdentity()`. -/
def isIdentity (a : Matrix3 K) : Bool :=
  let I : Matrix3 K := setToIdentity
  eq a I

end Matrix3

end utility_engine

set_option linter.unusedSectionVars false

namespace real_physics

/-! ## Vector algebra -/

theorem Vector3.ext_iff3 {K : Type} (a b : Vector3 K) :
    a = b ↔ a.x = b.x ∧ a.y = b.y ∧ a.z = b.z := by
  cases a; cases b; simp

namespace Vector3

variable {K : Type} [LinearOrderedField K]

@[simp] theorem add_x (a b : Vector3 K) : (a + b).x = a.x + b.x := rfl
@[simp] theorem add_y (a b : Vector3 K) : (a + b).y = a.y + b.y := rfl
@[simp] theorem add_z (a b : Vector3 K) : (a + b).z = a.z + b.z := rfl
@[simp] theorem sub_x (a b : Vector3 K) : (a - b).x = a.x - b.x := rfl
@[simp] theorem sub_y (a b : Vector3 K) : (a - b).y = a.y - b.y := rfl
@[simp] theorem sub_z (a b : Vector3 K) : (a - b).z = a.z - b.z := rfl
@[simp] theorem zero_x : (zero : Vector3 K).x = 0 := rfl
@[simp] theorem zero_y : (zero : Vector3 K).y = 0 := rfl
@[simp] theorem zero_z : (zero : Vector3 K).z = 0 := rfl

theorem lengthSquare_nonneg (v : Vector3 K) : 0 ≤ lengthSquare v := by
  unfold lengthSquare
  nlinarith [mul_self_nonneg v.x, mul_self_nonneg v.y, mul_self_nonneg v.z]

theorem lengthSquare_eq_zero_iff (v : Vector3 K) : lengthSquare v = 0 ↔ v = zero := by
  rw [ext_iff3]
  unfold lengthSquare
  constructor
  · intro h
    have hx := mul_self_nonneg v.x
    have hy := mul_self_nonneg v.y
    have hz := mul_self_nonneg v.z
    refine ⟨?_, ?_, ?_⟩ <;> simp only [zero_x, zero_y, zero_z] <;>
      apply mul_self_eq_zero.mp <;> linarith
  · rintro ⟨hx, hy, hz⟩
    simp only [zero_x, zero_y, zero_z] at hx hy hz
    simp [hx, hy, hz]

end Vector3

/-! ## Exact square roots -/

section Sqrt

variable {K : Type} [LinearOrderedField K]

theorem IsSqrt.nonneg {sqrt : K → K} (hs : IsSqrt sqrt) {x : K} (hx : 0 ≤ x) :
    0 ≤ sqrt x := (hs x hx).1

theorem IsSqrt.mul_self {sqrt : K → K} (hs : IsSqrt sqrt) {x : K} (hx : 0 ≤ x) :
    sqrt x * sqrt x = x := (hs x hx).2

theorem IsSqrt.zero {sqrt : K → K} (hs : IsSqrt sqrt) : sqrt 0 = 0 :=
  mul_self_eq_zero.mp (hs.mul_self le_rfl)

theorem IsSqrt.of_mul_self {sqrt : K → K} (hs : IsSqrt sqrt) (a : K) :
    sqrt (a * a) = |a| := by
  have h0 : 0 ≤ a * a := mul_self_nonneg a
  have h1 := hs.nonneg h0
  have h2 := hs.mul_self h0
  have h3 : |sqrt (a * a)| = |a| := abs_eq_abs.mpr (mul_self_eq_mul_self_iff.mp h2)
  rwa [abs_of_nonneg h1] at h3

theorem IsSqrt.le_of_le {sqrt : K → K} (hs : IsSqrt sqrt) {x y : K} (hx : 0 ≤ x)
    (hxy : x ≤ y) : sqrt x ≤ sqrt y := by
  have hy : 0 ≤ y := le_trans hx hxy
  have h1 := hs.mul_self hx
  have h2 := hs.mul_self hy
  have h3 := hs.nonneg hx
  have h4 := hs.nonneg hy
  by_contra hlt
  push_neg at hlt
  nlinarith

theorem IsSqrt.pos {sqrt : K → K} (hs : IsSqrt sqrt) {x : K} (hx : 0 < x) : 0 < sqrt x := by
  have h1 := hs.mul_self hx.le
  have h2 := hs.nonneg hx.le
  rcases h2.lt_or_eq with h | h
  · exact h
  · rw [← h] at h1; simp at h1; exact absurd h1.symm hx.ne'

theorem Real_isSqrt : IsSqrt Real.sqrt :=
  fun x hx => ⟨Real.sqrt_nonneg x, Real.mul_self_sqrt hx⟩

theorem Vector3.length_nonneg {sqrt : K → K} (hs : IsSqrt sqrt) (v : Vector3 K) :
    0 ≤ Vector3.length sqrt v :=
  hs.nonneg (Vector3.lengthSquare_nonneg v)

theorem Vector3.length_mul_self {sqrt : K → K} (hs : IsSqrt sqrt) (v : Vector3 K) :
    Vector3.length sqrt v * Vector3.length sqrt v = Vector3.lengthSquare v :=
  hs.mul_self (Vector3.lengthSquare_nonneg v)

end Sqrt

/-! ## The contact buffer -/

section Buffer

variable {K : Type} [LinearOrderedField K]

@[simp] theorem addInfoContact_mNbContacts (g : rpContactGeneration K)
    (info : rpContactPointInfo K) : (addInfoContact g info).mNbContacts = g.mNbContacts + 1 :=
  rfl

@[simp] theorem addInfoContact_mSeparatonAxis (g : rpContactGeneration K)
    (info : rpContactPointInfo K) :
    (addInfoContact g info).mSeparatonAxis = g.mSeparatonAxis := rfl

theorem addInfoContact_mInfoContacts (g : rpContactGeneration K)
    (info : rpContactPointInfo K) (i : Nat) :
    (addInfoContact g info).mInfoContacts i =
      if i = g.mNbContacts then info else g.mInfoContacts i := by
  simp [addInfoContact, Function.update_apply]

theorem AllStored.addInfoContact {P : rpContactPointInfo K → Prop}
    {g : rpContactGeneration K} (hg : AllStored P g) {info : rpContactPointInfo K}
    (hinfo : P info) : AllStored P (addInfoContact g info) := by
  intro i hi
  rw [addInfoContact_mInfoContacts]
  split
  · exact hinfo
  · next hne =>
    apply hg
    simp at hi
    omega

theorem AllStored.of_zero {P : rpContactPointInfo K → Prop} {g : rpContactGeneration K}
    (h : g.mNbContacts = 0) : AllStored P g := by
  intro i hi
  omega

/-- The swap loop, run over the first `n` indices. -/
theorem swapFold_spec (n : Nat) (g : rpContactGeneration K) :
    ((List.range n).foldl
      (fun h i => { h with
        mInfoContacts :=
          Function.update h.mInfoContacts i (swapLocalPoints (h.mInfoContacts i)) }) g) =
    { g with mInfoContacts := fun i =>
        if i < n then swapLocalPoints (g.mInfoContacts i) else g.mInfoContacts i } := by
  induction n with
  | zero => simp
  | succ n ih =>
    rw [List.range_succ, List.foldl_append, ih]
    simp only [List.foldl_cons, List.foldl_nil]
    congr 1
    funext i
    simp only [Function.update_apply]
    by_cases h1 : i = n
    · subst h1; simp
    · by_cases h2 : i < n
      · simp [h1, h2, Nat.lt_succ_of_lt h2]
      · have h3 : ¬ i < n + 1 := by omega
        simp [h1, h2, h3]

theorem swapAllLocalPoints_eq (g : rpContactGeneration K) :
    swapAllLocalPoints g =
    { g with mInfoContacts := fun i =>
        if i < g.mNbContacts then swapLocalPoints (g.mInfoContacts i)
        else g.mInfoContacts i } := by
  unfold swapAllLocalPoints
  exact swapFold_spec g.mNbContacts g

@[simp] theorem swapAllLocalPoints_mNbContacts (g : rpContactGeneration K) :
    (swapAllLocalPoints g).mNbContacts = g.mNbContacts := by
  rw [swapAllLocalPoints_eq]

theorem AllStored.swapAllLocalPoints {P : rpContactPointInfo K → Prop}
    {g : rpContactGeneration K} (hg : AllStored P g)
    (hP : ∀ c, P c → P (swapLocalPoints c)) : AllStored P (swapAllLocalPoints g) := by
  intro i hi
  rw [swapAllLocalPoints_eq] at hi ⊢
  simp only at hi ⊢
  rw [if_pos hi]
  exact hP _ (hg i hi)

end Buffer

/-! ## Empty support sets -/

section EmptySupport

variable {K : Type} [LinearOrderedField K]

theorem ConvertSupportPointsToContacts_of_empty (ext : Externals K)
    (g : rpContactGeneration K) (SupportVertA SupportVertB : List (Vector3 K))
    (h0 : SupportVertA.length = 0 ∨ SupportVertB.length = 0) :
    ConvertSupportPointsToContacts ext g SupportVertA SupportVertB = (g, false) := by
  unfold ConvertSupportPointsToContacts
  simp only [h0, if_true]

/-- C1: when at least one of the two support-point counts is 0,
`ConvertSupportPointsToContacts` returns false (leaving the generator state, and so the
count left by a previous conversion, as it was), and `computeContacteOverlappingPair`
registers no contact: after the call the pair holds no contact point, whatever
`mNbContacts` was before. -/
theorem C1_empty_support_registers_no_contact (ext : Externals K)
    (g : rpContactGeneration K) (OverlappingPair : rpOverlappingPair K)
    (approximationCorretion : Bool) (SupportVertA SupportVertB : List (Vector3 K))
    (hA : g.mShape1.getAxisPeturberationPoints g.mSeparatonAxis = SupportVertA)
    (hB : g.mShape2.getAxisPeturberationPoints (-g.mSeparatonAxis) = SupportVertB)
    (h0 : SupportVertA.length = 0 ∨ SupportVertB.length = 0) :
    ConvertSupportPointsToContacts ext g SupportVertA SupportVertB = (g, false) ∧
    (computeContacteOverlappingPair ext g OverlappingPair
      approximationCorretion).2.contactPoints = [] := by
  have hc := ConvertSupportPointsToContacts_of_empty ext g SupportVertA SupportVertB h0
  refine ⟨hc, ?_⟩
  unfold computeContacteOverlappingPair
  simp only [hA, hB, hc]
  simp [clearContactPoints]

/-- C1 at a sample input: shape A has no support point, shape B has one, the buffer still
counts three earlier contacts and the pair holds one old contact. -/
theorem C1_empty_support_registers_no_contact_witness :
    ConvertSupportPointsToContacts (sampleExternals Real.sqrt Real.arccos)
        (sampleGenerator [] [⟨0, 0, 0⟩]) [] [⟨0, 0, 0⟩]
      = (sampleGenerator [] [⟨0, 0, 0⟩], false) ∧
    (computeContacteOverlappingPair (sampleExternals Real.sqrt Real.arccos)
      (sampleGenerator [] [⟨0, 0, 0⟩]) ⟨[⟨⟨0, 0, 1⟩, 1, ⟨0, 0, 0⟩, ⟨0, 0, 0⟩⟩]⟩
      true).2.contactPoints = [] :=
  C1_empty_support_registers_no_contact (sampleExternals Real.sqrt Real.arccos)
    (sampleGenerator [] [⟨0, 0, 0⟩]) ⟨[⟨⟨0, 0, 1⟩, 1, ⟨0, 0, 0⟩, ⟨0, 0, 0⟩⟩]⟩ true
    [] [⟨0, 0, 0⟩] rfl rfl (Or.inl rfl)

end EmptySupport

/-! ## Dispatch of `ConvertSupportPointsToContacts` -/

section Dispatch

variable {K : Type} [LinearOrderedField K]

theorem Convert_point_point (ext : Externals K) (g : rpContactGeneration K)
    (SupportVertA SupportVertB : List (Vector3 K))
    (hA : SupportVertA.length = 1) (hB : SupportVertB.length = 1) :
    ConvertSupportPointsToContacts ext g SupportVertA SupportVertB =
      (CollidePointPointContacts ext { g with mNbContacts := 0 }
        (vertexAt SupportVertA 0) (vertexAt SupportVertB 0), true) := by
  unfold ConvertSupportPointsToContacts
  simp [hA, hB, CollidePointPointContacts]

theorem Convert_point_edge (ext : Externals K) (g : rpContactGeneration K)
    (SupportVertA SupportVertB : List (Vector3 K))
    (hA : SupportVertA.length = 1) (hB : SupportVertB.length = 2) :
    ConvertSupportPointsToContacts ext g SupportVertA SupportVertB =
      (CollidePointEdgeContacts ext { g with mNbContacts := 0 }
        (vertexAt SupportVertA 0) (vertexAt SupportVertB 0) (vertexAt SupportVertB 1),
        true) := by
  unfold ConvertSupportPointsToContacts
  simp [hA, hB, CollidePointEdgeContacts]

theorem Convert_point_face (ext : Externals K) (g : rpContactGeneration K)
    (SupportVertA SupportVertB : List (Vector3 K))
    (hA : SupportVertA.length = 1) (hB : 3 ≤ SupportVertB.length) :
    ConvertSupportPointsToContacts ext g SupportVertA SupportVertB =
      (CollidePointFaceContacts ext { g with mNbContacts := 0 } (vertexAt SupportVertA 0)
        (ext.planeNormal (vertexAt SupportVertB 0) (vertexAt SupportVertB 1)
          (vertexAt SupportVertB 2))
        (Vector3.dot (ext.planeNormal (vertexAt SupportVertB 0) (vertexAt SupportVertB 1)
          (vertexAt SupportVertB 2)) (vertexAt SupportVertB 0)), true) := by
  have h0 : SupportVertB.length ≠ 0 := by omega
  have h1 : SupportVertB.length ≠ 1 := by omega
  have h2 : SupportVertB.length ≠ 2 := by omega
  unfold ConvertSupportPointsToContacts
  simp [hA, h0, h1, h2, CollidePointFaceContacts]

theorem Convert_edge_point (ext : Externals K) (g : rpContactGeneration K)
    (SupportVertA SupportVertB : List (Vector3 K))
    (hA : SupportVertA.length = 2) (hB : SupportVertB.length = 1) :
    ConvertSupportPointsToContacts ext g SupportVertA SupportVertB =
      (CollidePointEdgeContacts ext { g with mNbContacts := 0 }
        (vertexAt SupportVertB 0) (vertexAt SupportVertA 0) (vertexAt SupportVertA 1),
        true) := by
  unfold ConvertSupportPointsToContacts
  simp [hA, hB, CollidePointEdgeContacts]

theorem Convert_edge_edge (ext : Externals K) (g : rpContactGeneration K)
    (SupportVertA SupportVertB : List (Vector3 K))
    (hA : SupportVertA.length = 2) (hB : SupportVertB.length = 2) :
    ConvertSupportPointsToContacts ext g SupportVertA SupportVertB =
      (CollideEdgeEdgeContacts ext { g with mNbContacts := 0 }
        (vertexAt SupportVertA 0) (vertexAt SupportVertA 1)
        (vertexAt SupportVertB 0) (vertexAt SupportVertB 1), true) := by
  unfold ConvertSupportPointsToContacts
  simp [hA, hB, CollideEdgeEdgeContacts]

theorem Convert_edge_face (ext : Externals K) (g : rpContactGeneration K)
    (SupportVertA SupportVertB : List (Vector3 K))
    (hA : SupportVertA.length = 2) (hB : 3 ≤ SupportVertB.length) :
    (ConvertSupportPointsToContacts ext g SupportVertA SupportVertB).1 =
      swapAllLocalPoints
        (CollidePolygonContacts ext { g with mNbContacts := 0 } SupportVertB SupportVertA) := by
  have h0 : SupportVertB.length ≠ 0 := by omega
  have h1 : SupportVertB.length ≠ 1 := by omega
  have h2 : SupportVertB.length ≠ 2 := by omega
  unfold ConvertSupportPointsToContacts
  simp [hA, h0, h1, h2]

theorem Convert_face_point (ext : Externals K) (g : rpContactGeneration K)
    (SupportVertA SupportVertB : List (Vector3 K))
    (hA : 3 ≤ SupportVertA.length) (hB : SupportVertB.length = 1) :
    ConvertSupportPointsToContacts ext g SupportVertA SupportVertB =
      (CollidePointFaceContacts ext { g with mNbContacts := 0 } (vertexAt SupportVertB 0)
        (ext.planeNormal (vertexAt SupportVertA 0) (vertexAt SupportVertA 1)
          (vertexAt SupportVertA 2))
        (Vector3.dot (ext.planeNormal (vertexAt SupportVertA 0) (vertexAt SupportVertA 1)
          (vertexAt SupportVertA 2)) (vertexAt SupportVertA 0)), true) := by
  have h0 : SupportVertA.length ≠ 0 := by omega
  have h1 : SupportVertA.length ≠ 1 := by omega
  have h2 : SupportVertA.length ≠ 2 := by omega
  unfold ConvertSupportPointsToContacts
  simp [hB, h0, h1, h2, hA, CollidePointFaceContacts]

theorem Convert_face_edge (ext : Externals K) (g : rpContactGeneration K)
    (SupportVertA SupportVertB : List (Vector3 K))
    (hA : 3 ≤ SupportVertA.length) (hB : SupportVertB.length = 2) :
    (ConvertSupportPointsToContacts ext g SupportVertA SupportVertB).1 =
      CollidePolygonContacts ext { g with mNbContacts := 0 } SupportVertA SupportVertB := by
  have h0 : SupportVertA.length ≠ 0 := by omega
  have h1 : SupportVertA.length ≠ 1 := by omega
  have h2 : SupportVertA.length ≠ 2 := by omega
  unfold ConvertSupportPointsToContacts
  simp [hB, h0, h1, h2, hA]

theorem Convert_face_face (ext : Externals K) (g : rpContactGeneration K)
    (SupportVertA SupportVertB : List (Vector3 K))
    (hA : 3 ≤ SupportVertA.length) (hB : 3 ≤ SupportVertB.length) :
    (ConvertSupportPointsToContacts ext g SupportVertA SupportVertB).1 =
      if ext.AngleBetweenVectors
            (ext.planeNormal (vertexAt SupportVertA 0) (vertexAt SupportVertA 1)
              (vertexAt SupportVertA 2)) g.mSeparatonAxis ≤
          ext.AngleBetweenVectors
            (ext.planeNormal (vertexAt SupportVertB 0) (vertexAt SupportVertB 1)
              (vertexAt SupportVertB 2)) (-g.mSeparatonAxis) then
        CollidePolygonContacts ext { g with mNbContacts := 0 } SupportVertA SupportVertB
      else
        swapAllLocalPoints
          (CollidePolygonContacts ext { g with mNbContacts := 0 } SupportVertB SupportVertA) := by
  have h0 : SupportVertA.length ≠ 0 := by omega
  have h1 : SupportVertA.length ≠ 1 := by omega
  have h2 : SupportVertA.length ≠ 2 := by omega
  have h3 : SupportVertB.length ≠ 0 := by omega
  have h4 : SupportVertB.length ≠ 1 := by omega
  have h5 : SupportVertB.length ≠ 2 := by omega
  unfold ConvertSupportPointsToContacts
  simp [h0, h1, h2, h3, h4, h5, hA, hB]

end Dispatch

/-! ## Sign of the stored penetration -/

section Penetration

variable {K : Type} [LinearOrderedField K]

theorem polygonContactStep_nonpos (n : Vector3 K) (d : K) (g : rpContactGeneration K)
    (PB : Vector3 K) (hg : AllStored (fun c => c.penetration ≤ 0) g) :
    AllStored (fun c => c.penetration ≤ 0) (polygonContactStep n d g PB) := by
  unfold polygonContactStep
  simp only
  split
  · next h =>
    apply hg.addInfoContact
    have key : Vector3.dot (PB - (PB - Vector3.mulScalar n (Vector3.dot PB n - d))) n =
        (Vector3.dot PB n - d) * Vector3.lengthSquare n := by
      simp only [Vector3.dot, Vector3.lengthSquare, Vector3.mulScalar, Vector3.sub_x,
        Vector3.sub_y, Vector3.sub_z]
      ring
    show Vector3.dot (PB - (PB - Vector3.mulScalar n (Vector3.dot PB n - d))) n ≤ 0
    rw [key]
    exact mul_nonpos_of_nonpos_of_nonneg h (Vector3.lengthSquare_nonneg n)
  · exact hg

theorem polygonFold_allStored {P : rpContactPointInfo K → Prop} (n : Vector3 K) (d : K)
    (hstep : ∀ g PB, AllStored P g → AllStored P (polygonContactStep n d g PB))
    (out : List (Vector3 K)) (g : rpContactGeneration K) (hg : AllStored P g) :
    AllStored P (out.foldl (polygonContactStep n d) g) := by
  induction out generalizing g with
  | nil => exact hg
  | cons PB rest ih => exact ih _ (hstep g PB hg)

theorem polygonFold_mNbContacts (n : Vector3 K) (d : K) (out : List (Vector3 K))
    (g : rpContactGeneration K) :
    (out.foldl (polygonContactStep n d) g).mNbContacts =
      g.mNbContacts + out.countP (fun PB => decide (Vector3.dot PB n - d ≤ 0)) := by
  induction out generalizing g with
  | nil => simp
  | cons PB rest ih =>
    rw [List.foldl_cons, ih, List.countP_cons]
    unfold polygonContactStep
    by_cases h : Vector3.dot PB n - d ≤ 0
    · simp [h]; omega
    · simp [h]

theorem CollidePolygonContacts_nonpos (ext : Externals K) (g : rpContactGeneration K)
    (Poly Clipper : List (Vector3 K)) (hg : AllStored (fun c => c.penetration ≤ 0) g) :
    AllStored (fun c => c.penetration ≤ 0) (CollidePolygonContacts ext g Poly Clipper) := by
  unfold CollidePolygonContacts
  simp only
  split
  · exact polygonFold_allStored _ _ (fun h PB hh => polygonContactStep_nonpos _ _ h PB hh) _ g hg
  · exact hg

theorem CollidePolygonContacts_mNbContacts (ext : Externals K) (g : rpContactGeneration K)
    (Poly Clipper : List (Vector3 K)) :
    (CollidePolygonContacts ext g Poly Clipper).mNbContacts =
      g.mNbContacts +
        if (ext.rpQuickClippingPolygons Poly Clipper).isComputeClippingToPoly then
          (ext.rpQuickClippingPolygons Poly Clipper).outClippingPoints.countP
            (fun PB => decide
              (Vector3.dot PB
                  (ext.planeNormal (vertexAt Poly 0) (vertexAt Poly 1) (vertexAt Poly 2)) -
                Vector3.dot (vertexAt Poly 0)
                  (ext.planeNormal (vertexAt Poly 0) (vertexAt Poly 1) (vertexAt Poly 2)) ≤ 0))
        else 0 := by
  unfold CollidePolygonContacts
  simp only
  split
  · exact polygonFold_mNbContacts _ _ _ g
  · simp

theorem CollidePointPointContacts_nonneg (ext : Externals K) (hs : IsSqrt ext.sqrt)
    (g : rpContactGeneration K) (A B : Vector3 K)
    (hg : AllStored (fun c => 0 ≤ c.penetration) g) :
    AllStored (fun c => 0 ≤ c.penetration) (CollidePointPointContacts ext g A B) :=
  hg.addInfoContact (Vector3.length_nonneg hs _)

theorem CollidePointFaceContacts_nonneg (ext : Externals K) (hs : IsSqrt ext.sqrt)
    (g : rpContactGeneration K) (A xAxis : Vector3 K) (bd : K)
    (hg : AllStored (fun c => 0 ≤ c.penetration) g) :
    AllStored (fun c => 0 ≤ c.penetration) (CollidePointFaceContacts ext g A xAxis bd) :=
  hg.addInfoContact (Vector3.length_nonneg hs _)

theorem CollidePointEdgeContacts_nonneg (ext : Externals K) (hs : IsSqrt ext.sqrt)
    (g : rpContactGeneration K) (A B0 B1 : Vector3 K)
    (hg : AllStored (fun c => 0 ≤ c.penetration) g) :
    AllStored (fun c => 0 ≤ c.penetration) (CollidePointEdgeContacts ext g A B0 B1) :=
  hg.addInfoContact (Vector3.length_nonneg hs _)

theorem CollideEdgeEdgeContacts_nonneg (ext : Externals K) (hs : IsSqrt ext.sqrt)
    (g : rpContactGeneration K) (A0 A1 B0 B1 : Vector3 K)
    (hg : AllStored (fun c => 0 ≤ c.penetration) g) :
    AllStored (fun c => 0 ≤ c.penetration) (CollideEdgeEdgeContacts ext g A0 A1 B0 B1) :=
  hg.addInfoContact (Vector3.length_nonneg hs _)

theorem nonpos_swapLocalPoints (c : rpContactPointInfo K) (h : c.penetration ≤ 0) :
    (swapLocalPoints c).penetration ≤ 0 := h

/-- C2 (amended): for non-empty support sets, every contact stored by
`ConvertSupportPointsToContacts` in the point-point, point-edge, point-face and edge-edge
cases has penetration >= 0, and every contact stored in the polygon-clip cases (an edge
against a face, or two faces) has penetration <= 0. -/
theorem C2_penetration_sign_by_case (ext : Externals K) (hs : IsSqrt ext.sqrt)
    (g : rpContactGeneration K) (SupportVertA SupportVertB : List (Vector3 K))
    (hA : SupportVertA.length ≠ 0) (hB : SupportVertB.length ≠ 0) :
    ((SupportVertA.length = 1 ∨ SupportVertB.length = 1 ∨
        (SupportVertA.length = 2 ∧ SupportVertB.length = 2)) →
      AllStored (fun c => 0 ≤ c.penetration)
        (ConvertSupportPointsToContacts ext g SupportVertA SupportVertB).1) ∧
    (¬ (SupportVertA.length = 1 ∨ SupportVertB.length = 1 ∨
        (SupportVertA.length = 2 ∧ SupportVertB.length = 2)) →
      AllStored (fun c => c.penetration ≤ 0)
        (ConvertSupportPointsToContacts ext g SupportVertA SupportVertB).1) := by
  have g0n : AllStored (fun c : rpContactPointInfo K => 0 ≤ c.penetration)
      { g with mNbContacts := 0 } := AllStored.of_zero rfl
  have g0p : AllStored (fun c : rpContactPointInfo K => c.penetration ≤ 0)
      { g with mNbContacts := 0 } := AllStored.of_zero rfl
  constructor
  · intro hcase
    by_cases a1 : SupportVertA.length = 1
    · by_cases b1 : SupportVertB.length = 1
      · rw [Convert_point_point ext g _ _ a1 b1]
        exact CollidePointPointContacts_nonneg ext hs _ _ _ g0n
      · by_cases b2 : SupportVertB.length = 2
        · rw [Convert_point_edge ext g _ _ a1 b2]
          exact CollidePointEdgeContacts_nonneg ext hs _ _ _ _ g0n
        · rw [Convert_point_face ext g _ _ a1 (by omega)]
          exact CollidePointFaceContacts_nonneg ext hs _ _ _ _ g0n
    · by_cases b1 : SupportVertB.length = 1
      · by_cases a2 : SupportVertA.length = 2
        · rw [Convert_edge_point ext g _ _ a2 b1]
          exact CollidePointEdgeContacts_nonneg ext hs _ _ _ _ g0n
        · rw [Convert_face_point ext g _ _ (by omega) b1]
          exact CollidePointFaceContacts_nonneg ext hs _ _ _ _ g0n
      · have h22 : SupportVertA.length = 2 ∧ SupportVertB.length = 2 := by tauto
        rw [Convert_edge_edge ext g _ _ h22.1 h22.2]
        exact CollideEdgeEdgeContacts_nonneg ext hs _ _ _ _ _ g0n
  · intro hcase
    push_neg at hcase
    obtain ⟨a1, b1, h22⟩ := hcase
    by_cases a2 : SupportVertA.length = 2
    · rw [Convert_edge_face ext g _ _ a2 (by have := h22 a2; omega)]
      exact (CollidePolygonContacts_nonpos ext _ _ _ g0p).swapAllLocalPoints
        nonpos_swapLocalPoints
    · by_cases b2 : SupportVertB.length = 2
      · rw [Convert_face_edge ext g _ _ (by omega) b2]
        exact CollidePolygonContacts_nonpos ext _ _ _ g0p
      · rw [Convert_face_face ext g _ _ (by omega) (by omega)]
        split
        · exact CollidePolygonContacts_nonpos ext _ _ _ g0p
        · exact (CollidePolygonContacts_nonpos ext _ _ _ g0p).swapAllLocalPoints
            nonpos_swapLocalPoints

end Penetration

/-! ## Sample evaluations: penetration sign -/

section PenetrationSamples

theorem sample_planeNormal_triangle :
    (sampleExternals Real.sqrt Real.arccos).planeNormal
      (⟨0, 0, 0⟩ : Vector3 ℝ) ⟨1, 0, 0⟩ ⟨0, 1, 0⟩ = ⟨0, 0, 1⟩ := by
  simp [sampleExternals, sampleCross, Vector3.getUnit, Vector3.length, Vector3.lengthSquare]

/-- C2 at sample inputs: a vertex against a vertex (penetration >= 0) and an edge of B one
unit below a triangular face of A (penetration <= 0). -/
theorem C2_penetration_sign_by_case_witness :
    AllStored (fun c => 0 ≤ c.penetration)
      (ConvertSupportPointsToContacts (sampleExternals Real.sqrt Real.arccos)
        (sampleGenerator [⟨0, 0, 0⟩] [⟨0, 0, -1⟩]) [⟨0, 0, 0⟩] [⟨0, 0, -1⟩]).1 ∧
    AllStored (fun c => c.penetration ≤ 0)
      (ConvertSupportPointsToContacts (sampleExternals Real.sqrt Real.arccos)
        (sampleGenerator sampleTriangle sampleEdgeBelow) sampleTriangle sampleEdgeBelow).1 :=
  ⟨(C2_penetration_sign_by_case (sampleExternals Real.sqrt Real.arccos) Real_isSqrt
      (sampleGenerator [⟨0, 0, 0⟩] [⟨0, 0, -1⟩]) [⟨0, 0, 0⟩] [⟨0, 0, -1⟩]
      (by simp) (by simp)).1 (by simp),
   (C2_penetration_sign_by_case (sampleExternals Real.sqrt Real.arccos) Real_isSqrt
      (sampleGenerator sampleTriangle sampleEdgeBelow) sampleTriangle sampleEdgeBelow
      (by simp [sampleTriangle]) (by simp [sampleEdgeBelow])).2
      (by simp [sampleTriangle, sampleEdgeBelow])⟩

/-- C2 as stated fails: with the triangle (0,0,0), (1,0,0), (0,1,0) as the face of A and
an edge of B at height z = -1 below it, the conversion stores two contacts and the first
one has penetration -1. -/
theorem C2_polygon_penetration_negative :
    (ConvertSupportPointsToContacts (sampleExternals Real.sqrt Real.arccos)
      (sampleGenerator sampleTriangle sampleEdgeBelow)
      sampleTriangle sampleEdgeBelow).1.mNbContacts = 2 ∧
    ((ConvertSupportPointsToContacts (sampleExternals Real.sqrt Real.arccos)
      (sampleGenerator sampleTriangle sampleEdgeBelow)
      sampleTriangle sampleEdgeBelow).1.mInfoContacts 0).penetration = -1 := by
  rw [Convert_face_edge _ _ _ _ (by simp [sampleTriangle]) (by simp [sampleEdgeBelow])]
  have hn := sample_planeNormal_triangle
  constructor
  · simp only [CollidePolygonContacts, sampleTriangle, sampleEdgeBelow, vertexAt,
      List.getD_cons_zero, List.getD_cons_succ, hn]
    simp [sampleExternals, polygonContactStep, Vector3.dot, sampleGenerator]
  · simp only [CollidePolygonContacts, sampleTriangle, sampleEdgeBelow, vertexAt,
      List.getD_cons_zero, List.getD_cons_succ, hn]
    simp [sampleExternals, polygonContactStep, Vector3.dot, sampleGenerator, addInfoContact,
      Vector3.mulScalar]

end PenetrationSamples

/-! ## Capacity of the contact buffer -/

section Capacity

variable {K : Type} [LinearOrderedField K]

theorem CollidePolygonContacts_mNbContacts_le (ext : Externals K) (g : rpContactGeneration K)
    (Poly Clipper : List (Vector3 K)) :
    (CollidePolygonContacts ext g Poly Clipper).mNbContacts ≤
      g.mNbContacts + (ext.rpQuickClippingPolygons Poly Clipper).outClippingPoints.length := by
  rw [CollidePolygonContacts_mNbContacts]
  split
  · exact Nat.add_le_add_left (List.countP_le_length _) _
  · omega

/-- When the clipper never returns more than `eMaxContacts` vertices, one conversion stores
at most `eMaxContacts` contacts: the bound on the stored contacts is the bound on the
clipper's output. -/
theorem ConvertSupportPointsToContacts_mNbContacts_le (ext : Externals K)
    (g : rpContactGeneration K) (SupportVertA SupportVertB : List (Vector3 K))
    (hA : SupportVertA.length ≠ 0) (hB : SupportVertB.length ≠ 0)
    (hclip : ∀ P C, (ext.rpQuickClippingPolygons P C).outClippingPoints.length ≤ eMaxContacts) :
    (ConvertSupportPointsToContacts ext g SupportVertA SupportVertB).1.mNbContacts ≤
      eMaxContacts := by
  have hpoly : ∀ P C, (CollidePolygonContacts ext { g with mNbContacts := 0 } P C).mNbContacts
      ≤ eMaxContacts := by
    intro P C
    have h := CollidePolygonContacts_mNbContacts_le ext { g with mNbContacts := 0 } P C
    have h2 := hclip P C
    simp only at h
    omega
  have one : 1 ≤ eMaxContacts := by decide
  by_cases a1 : SupportVertA.length = 1
  · by_cases b1 : SupportVertB.length = 1
    · rw [Convert_point_point ext g _ _ a1 b1]; exact one
    · by_cases b2 : SupportVertB.length = 2
      · rw [Convert_point_edge ext g _ _ a1 b2]; exact one
      · rw [Convert_point_face ext g _ _ a1 (by omega)]; exact one
  · by_cases a2 : SupportVertA.length = 2
    · by_cases b1 : SupportVertB.length = 1
      · rw [Convert_edge_point ext g _ _ a2 b1]; exact one
      · by_cases b2 : SupportVertB.length = 2
        · rw [Convert_edge_edge ext g _ _ a2 b2]; exact one
        · rw [Convert_edge_face ext g _ _ a2 (by omega), swapAllLocalPoints_mNbContacts]
          exact hpoly _ _
    · by_cases b1 : SupportVertB.length = 1
      · rw [Convert_face_point ext g _ _ (by omega) b1]; exact one
      · by_cases b2 : SupportVertB.length = 2
        · rw [Convert_face_edge ext g _ _ (by omega) b2]
          exact hpoly _ _
        · rw [Convert_face_face ext g _ _ (by omega) (by omega)]
          split
          · exact hpoly _ _
          · rw [swapAllLocalPoints_mNbContacts]
            exact hpoly _ _

theorem sample_planeNormal_polygon33 :
    (sampleExternals Real.sqrt Real.arccos).planeNormal
      (vertexAt (samplePolygon33 : List (Vector3 ℝ)) 0) (vertexAt samplePolygon33 1)
      (vertexAt samplePolygon33 2) = ⟨0, 0, 1⟩ := by
  simp [samplePolygon33, vertexAt, sampleExternals, sampleCross, Vector3.getUnit,
    Vector3.length, Vector3.lengthSquare]

theorem samplePolygon33_length : (samplePolygon33 : List (Vector3 ℝ)).length = 33 := by
  simp [samplePolygon33]

theorem samplePolygon33_z (PB : Vector3 ℝ) (h : PB ∈ (samplePolygon33 : List (Vector3 ℝ))) :
    PB.z = 0 := by
  simp only [samplePolygon33, List.mem_cons, List.mem_map] at h
  rcases h with h | h | h | ⟨i, _, h⟩
  · rw [h]
  · rw [h]
  · rw [h]
  · rw [← h]

theorem sample_CollidePolygonContacts_polygon33 (g : rpContactGeneration ℝ) :
    (CollidePolygonContacts (sampleExternals Real.sqrt Real.arccos) g
      samplePolygon33 samplePolygon33).mNbContacts = g.mNbContacts + 33 := by
  rw [CollidePolygonContacts_mNbContacts, sample_planeNormal_polygon33]
  have hclip : (sampleExternals Real.sqrt Real.arccos).rpQuickClippingPolygons
      samplePolygon33 samplePolygon33 = ⟨true, samplePolygon33⟩ := rfl
  rw [hclip]
  simp only [if_true]
  rw [List.countP_eq_length.mpr, samplePolygon33_length]
  intro PB hPB
  have hz := samplePolygon33_z PB hPB
  have h0 : vertexAt (samplePolygon33 : List (Vector3 ℝ)) 0 = ⟨0, 0, 0⟩ := by
    simp [samplePolygon33, vertexAt]
  simp [Vector3.dot, hz, h0]

/-- C3 fails on the code: for two faces that are the same convex polygon with 33 vertices
(clipping it against itself leaves its 33 vertices, all on the reference plane), one call of
`ConvertSupportPointsToContacts` runs `addInfoContact` 33 times, so the last write is at
index 32 = `eMaxContacts` of `mInfoContacts`. -/
theorem C3_buffer_overflow_at_33_vertices :
    (ConvertSupportPointsToContacts (sampleExternals Real.sqrt Real.arccos)
      (sampleGenerator samplePolygon33 samplePolygon33)
      samplePolygon33 samplePolygon33).1.mNbContacts = 33 ∧ eMaxContacts < 33 := by
  refine ⟨?_, by decide⟩
  rw [Convert_face_face _ _ _ _ (by rw [samplePolygon33_length]; omega)
    (by rw [samplePolygon33_length]; omega)]
  split
  · rw [sample_CollidePolygonContacts_polygon33]
  · rw [swapAllLocalPoints_mNbContacts, sample_CollidePolygonContacts_polygon33]

end Capacity

/-! ## `LineLineIntersect` -/

section LineLine

variable {K : Type} [LinearOrderedField K]

theorem EPS_pos : (0 : K) < EPS := by
  unfold EPS
  positivity

/-- A vector that passes the component gate of `LineLineIntersect` has positive squared
length. -/
theorem lengthSquare_pos_of_gate (v : Vector3 K)
    (h : ¬ (|v.x| < EPS ∧ |v.y| < EPS ∧ |v.z| < EPS)) : 0 < Vector3.lengthSquare v := by
  have hv : v ≠ Vector3.zero := by
    intro h0
    apply h
    rw [h0]
    simp [EPS_pos]
  have h1 := Vector3.lengthSquare_nonneg v
  rcases h1.lt_or_eq with h2 | h2
  · exact h2
  · exact absurd ((Vector3.lengthSquare_eq_zero_iff v).mp h2.symm) hv

theorem ne_zero_of_gate (a : K) (h : ¬ |a| < EPS) : a ≠ 0 := by
  intro h0
  apply h
  rw [h0]
  simp [EPS_pos]

/-- The result of `LineLineIntersect` when one of its three gates fails: false, and the two
outputs are left as they were. -/
theorem LineLineIntersect_of_false (p1 p2 p3 p4 pa pb : Vector3 K)
    (h : (LineLineIntersect p1 p2 p3 p4 pa pb).1 = false) :
    LineLineIntersect p1 p2 p3 p4 pa pb = (false, pa, pb) := by
  unfold LineLineIntersect at h ⊢
  simp only at h ⊢
  split_ifs at h ⊢ <;> simp_all

/-- The 2x2 system solved by `LineLineIntersect`, on the five dot products. -/
theorem lineLine_system (d1343 d4321 d1321 d4343 d2121 : K)
    (hden : d2121 * d4343 - d4321 * d4321 ≠ 0) (h43 : d4343 ≠ 0) :
    d1321 + (d1343 * d4321 - d1321 * d4343) / (d2121 * d4343 - d4321 * d4321) * d2121 -
        (d1343 + d4321 * ((d1343 * d4321 - d1321 * d4343) /
          (d2121 * d4343 - d4321 * d4321))) / d4343 * d4321 = 0 ∧
    d1343 + (d1343 * d4321 - d1321 * d4343) / (d2121 * d4343 - d4321 * d4321) * d4321 -
        (d1343 + d4321 * ((d1343 * d4321 - d1321 * d4343) /
          (d2121 * d4343 - d4321 * d4321))) / d4343 * d4343 = 0 := by
  constructor
  · field_simp
    ring
  · field_simp
    ring

/-- The vector joining the points of parameters `mua` and `mub`, against each direction. -/
theorem lineLine_dot_expand (p1 p2 p3 p4 : Vector3 K) (mua mub : K) :
    Vector3.dot ((p1 + Vector3.scalarMul mua (p2 - p1)) -
        (p3 + Vector3.scalarMul mub (p4 - p3))) (p2 - p1) =
      ((p1 - p3).x * (p2 - p1).x + (p1 - p3).y * (p2 - p1).y + (p1 - p3).z * (p2 - p1).z) +
        mua * ((p2 - p1).x * (p2 - p1).x + (p2 - p1).y * (p2 - p1).y +
          (p2 - p1).z * (p2 - p1).z) -
        mub * ((p4 - p3).x * (p2 - p1).x + (p4 - p3).y * (p2 - p1).y +
          (p4 - p3).z * (p2 - p1).z) ∧
    Vector3.dot ((p1 + Vector3.scalarMul mua (p2 - p1)) -
        (p3 + Vector3.scalarMul mub (p4 - p3))) (p4 - p3) =
      ((p1 - p3).x * (p4 - p3).x + (p1 - p3).y * (p4 - p3).y + (p1 - p3).z * (p4 - p3).z) +
        mua * ((p4 - p3).x * (p2 - p1).x + (p4 - p3).y * (p2 - p1).y +
          (p4 - p3).z * (p2 - p1).z) -
        mub * ((p4 - p3).x * (p4 - p3).x + (p4 - p3).y * (p4 - p3).y +
          (p4 - p3).z * (p4 - p3).z) := by
  constructor <;>
  · simp only [Vector3.dot, Vector3.scalarMul, Vector3.sub_x, Vector3.sub_y, Vector3.sub_z,
      Vector3.add_x, Vector3.add_y, Vector3.add_z]
    ring

/-- The result of `LineLineIntersect` when it returns true: the first output is the point
of parameter `mub` on the second line, the second output the point of parameter `mua` on
the first line, and the vector joining them is orthogonal to both directions. -/
theorem LineLineIntersect_of_true (p1 p2 p3 p4 pa pb : Vector3 K)
    (h : (LineLineIntersect p1 p2 p3 p4 pa pb).1 = true) :
    ∃ mua mub : K,
      LineLineIntersect p1 p2 p3 p4 pa pb =
        (true, p3 + Vector3.scalarMul mub (p4 - p3), p1 + Vector3.scalarMul mua (p2 - p1)) ∧
      Vector3.dot ((p1 + Vector3.scalarMul mua (p2 - p1)) -
        (p3 + Vector3.scalarMul mub (p4 - p3))) (p2 - p1) = 0 ∧
      Vector3.dot ((p1 + Vector3.scalarMul mua (p2 - p1)) -
        (p3 + Vector3.scalarMul mub (p4 - p3))) (p4 - p3) = 0 ∧
      Vector3.lengthSquare (p2 - p1) * Vector3.lengthSquare (p4 - p3) -
        Vector3.dot (p4 - p3) (p2 - p1) * Vector3.dot (p4 - p3) (p2 - p1) ≠ 0 ∧
      0 < Vector3.lengthSquare (p4 - p3) := by
  unfold LineLineIntersect at h ⊢
  simp only at h ⊢
  split_ifs at h ⊢ with g1 g2 g3
  have h43 := lengthSquare_pos_of_gate _ g1
  have hden := ne_zero_of_gate _ g3
  have hsys := lineLine_system
    ((p1 - p3).x * (p4 - p3).x + (p1 - p3).y * (p4 - p3).y + (p1 - p3).z * (p4 - p3).z)
    ((p4 - p3).x * (p2 - p1).x + (p4 - p3).y * (p2 - p1).y + (p4 - p3).z * (p2 - p1).z)
    ((p1 - p3).x * (p2 - p1).x + (p1 - p3).y * (p2 - p1).y + (p1 - p3).z * (p2 - p1).z)
    ((p4 - p3).x * (p4 - p3).x + (p4 - p3).y * (p4 - p3).y + (p4 - p3).z * (p4 - p3).z)
    ((p2 - p1).x * (p2 - p1).x + (p2 - p1).y * (p2 - p1).y + (p2 - p1).z * (p2 - p1).z)
    hden h43.ne'
  refine ⟨_, _, rfl, ?_, ?_, hden, h43⟩
  · rw [(lineLine_dot_expand p1 p2 p3 p4 _ _).1]
    linear_combination hsys.1
  · rw [(lineLine_dot_expand p1 p2 p3 p4 _ _).2]
    linear_combination hsys.2

end LineLine

/-! ## The edge-edge case -/

section EdgeEdge

variable {K : Type} [LinearOrderedField K]

theorem Convert_two_two (ext : Externals K) (g : rpContactGeneration K)
    (A0 A1 B0 B1 : Vector3 K) :
    ConvertSupportPointsToContacts ext g [A0, A1] [B0, B1] =
      (CollideEdgeEdgeContacts ext { g with mNbContacts := 0 } A0 A1 B0 B1, true) := by
  rw [Convert_edge_edge ext g [A0, A1] [B0, B1] rfl rfl]
  rfl

theorem lengthSquare_sub_comm (a b : Vector3 K) :
    Vector3.lengthSquare (a - b) = Vector3.lengthSquare (b - a) := by
  simp only [Vector3.lengthSquare, Vector3.sub_x, Vector3.sub_y, Vector3.sub_z]
  ring

theorem lengthSquare_sub_self (a : Vector3 K) : Vector3.lengthSquare (a - a) = 0 := by
  simp [Vector3.lengthSquare]

/-- A vector `w = a u - b v` orthogonal to `u` and to `v` is zero. -/
theorem eq_zero_of_orthogonal_span (wx wy wz ux uy uz vx vy vz a b : K)
    (ex : wx = a * ux - b * vx) (ey : wy = a * uy - b * vy) (ez : wz = a * uz - b * vz)
    (h1 : wx * ux + wy * uy + wz * uz = 0) (h2 : wx * vx + wy * vy + wz * vz = 0) :
    wx = 0 ∧ wy = 0 ∧ wz = 0 := by
  have hw : wx * wx + wy * wy + wz * wz = 0 := by
    linear_combination a * h1 - b * h2 + wx * ex + wy * ey + wz * ez
  have hx := mul_self_nonneg wx
  have hy := mul_self_nonneg wy
  have hz := mul_self_nonneg wz
  refine ⟨?_, ?_, ?_⟩ <;> apply mul_self_eq_zero.mp <;> linarith

/-- If `a u = b v` and `u`, `v` are not parallel (`|u|^2 |v|^2 - (v.u)^2` is not zero),
then `a = 0`. -/
theorem coeff_zero_of_not_parallel (ux uy uz vx vy vz a b : K)
    (ex : a * ux = b * vx) (ey : a * uy = b * vy) (ez : a * uz = b * vz)
    (hden : (ux * ux + uy * uy + uz * uz) * (vx * vx + vy * vy + vz * vz) -
      (vx * ux + vy * uy + vz * uz) * (vx * ux + vy * uy + vz * uz) ≠ 0) : a = 0 := by
  have ha : a * ((ux * ux + uy * uy + uz * uz) * (vx * vx + vy * vy + vz * vz) -
      (vx * ux + vy * uy + vz * uz) * (vx * ux + vy * uy + vz * uz)) = 0 := by
    linear_combination
      (ux * (vx * vx + vy * vy + vz * vz) - vx * (vx * ux + vy * uy + vz * uz)) * ex +
      (uy * (vx * vx + vy * vy + vz * vz) - vy * (vx * ux + vy * uy + vz * uz)) * ey +
      (uz * (vx * vx + vy * vy + vz * vz) - vz * (vx * ux + vy * uy + vz * uz)) * ez
  rcases mul_eq_zero.mp ha with h0 | h0
  · exact h0
  · exact absurd h0 hden

/-- When the two lines meet in `X` and the gates pass, both outputs of `LineLineIntersect`
are `X`. -/
theorem LineLineIntersect_of_meet (p1 p2 p3 p4 pa pb X : Vector3 K) (s t : K)
    (hX1 : X = p1 + Vector3.scalarMul s (p2 - p1))
    (hX2 : X = p3 + Vector3.scalarMul t (p4 - p3))
    (h : (LineLineIntersect p1 p2 p3 p4 pa pb).1 = true) :
    LineLineIntersect p1 p2 p3 p4 pa pb = (true, X, X) := by
  obtain ⟨mua, mub, hr, h1, h2, hden, h43⟩ := LineLineIntersect_of_true p1 p2 p3 p4 pa pb h
  have hX := hX1.symm.trans hX2
  rw [Vector3.ext_iff3] at hX
  simp only [Vector3.add_x, Vector3.add_y, Vector3.add_z, Vector3.scalarMul, Vector3.sub_x,
    Vector3.sub_y, Vector3.sub_z] at hX
  obtain ⟨ex, ey, ez⟩ := hX
  simp only [Vector3.dot, Vector3.lengthSquare, Vector3.add_x, Vector3.add_y, Vector3.add_z,
    Vector3.scalarMul, Vector3.sub_x, Vector3.sub_y, Vector3.sub_z] at h1 h2 hden
  obtain ⟨wx, wy, wz⟩ := eq_zero_of_orthogonal_span
    (p1.x + mua * (p2.x - p1.x) - (p3.x + mub * (p4.x - p3.x)))
    (p1.y + mua * (p2.y - p1.y) - (p3.y + mub * (p4.y - p3.y)))
    (p1.z + mua * (p2.z - p1.z) - (p3.z + mub * (p4.z - p3.z)))
    (p2.x - p1.x) (p2.y - p1.y) (p2.z - p1.z) (p4.x - p3.x) (p4.y - p3.y) (p4.z - p3.z)
    (mua - s) (mub - t)
    (by linear_combination ex) (by linear_combination ey) (by linear_combination ez) h1 h2
  have ha : mua - s = 0 := coeff_zero_of_not_parallel
    (p2.x - p1.x) (p2.y - p1.y) (p2.z - p1.z) (p4.x - p3.x) (p4.y - p3.y) (p4.z - p3.z)
    (mua - s) (mub - t)
    (by linear_combination wx - ex) (by linear_combination wy - ey)
    (by linear_combination wz - ez) hden
  have hmua : mua = s := by linarith
  have hP : p1 + Vector3.scalarMul mua (p2 - p1) = X := by rw [hmua, hX1]
  have hQ : p3 + Vector3.scalarMul mub (p4 - p3) = X := by
    rw [← hP, Vector3.ext_iff3]
    simp only [Vector3.add_x, Vector3.add_y, Vector3.add_z, Vector3.scalarMul, Vector3.sub_x,
      Vector3.sub_y, Vector3.sub_z]
    exact ⟨by linarith, by linarith, by linarith⟩
  rw [hr, hP, hQ]

/-- A vector `w` orthogonal to `u` and `v` is no longer than `w + a u - b v`. -/
theorem lengthSquare_le_of_orthogonal (wx wy wz ux uy uz vx vy vz a b : K)
    (h1 : wx * ux + wy * uy + wz * uz = 0) (h2 : wx * vx + wy * vy + wz * vz = 0) :
    wx * wx + wy * wy + wz * wz ≤
      (wx + a * ux - b * vx) * (wx + a * ux - b * vx) +
      (wy + a * uy - b * vy) * (wy + a * uy - b * vy) +
      (wz + a * uz - b * vz) * (wz + a * uz - b * vz) := by
  have e : (wx + a * ux - b * vx) * (wx + a * ux - b * vx) +
      (wy + a * uy - b * vy) * (wy + a * uy - b * vy) +
      (wz + a * uz - b * vz) * (wz + a * uz - b * vz) =
      (wx * wx + wy * wy + wz * wz) +
        ((a * ux - b * vx) * (a * ux - b * vx) + (a * uy - b * vy) * (a * uy - b * vy) +
          (a * uz - b * vz) * (a * uz - b * vz)) := by
    linear_combination (2 * a) * h1 - (2 * b) * h2
  rw [e]
  have hx := mul_self_nonneg (a * ux - b * vx)
  have hy := mul_self_nonneg (a * uy - b * vy)
  have hz := mul_self_nonneg (a * uz - b * vz)
  linarith

/-- The edge-edge case always stores exactly one contact and returns true, whatever
`LineLineIntersect` returned. -/
theorem Convert_two_two_count (ext : Externals K) (g : rpContactGeneration K)
    (A0 A1 B0 B1 : Vector3 K) :
    (ConvertSupportPointsToContacts ext g [A0, A1] [B0, B1]).2 = true ∧
    (ConvertSupportPointsToContacts ext g [A0, A1] [B0, B1]).1.mNbContacts = 1 := by
  rw [Convert_two_two]
  exact ⟨rfl, rfl⟩

/-- The contact stored by the edge-edge case, from the result of `LineLineIntersect`. -/
theorem Convert_two_two_contact (ext : Externals K) (g : rpContactGeneration K)
    (A0 A1 B0 B1 : Vector3 K) :
    (ConvertSupportPointsToContacts ext g [A0, A1] [B0, B1]).1.mInfoContacts 0 =
      ⟨g.mSeparatonAxis,
        Vector3.length ext.sqrt
          ((LineLineIntersect A0 A1 B0 B1 Vector3.zero Vector3.zero).2.1 -
            (LineLineIntersect A0 A1 B0 B1 Vector3.zero Vector3.zero).2.2),
        (LineLineIntersect A0 A1 B0 B1 Vector3.zero Vector3.zero).2.1,
        (LineLineIntersect A0 A1 B0 B1 Vector3.zero Vector3.zero).2.2⟩ := by
  rw [Convert_two_two]
  simp [CollideEdgeEdgeContacts, addInfoContact]

/-- C5: when the supporting lines of [A0,A1] and [B0,B1] meet in the point X and the gates
of `LineLineIntersect` pass (which excludes parallel lines), the edge-edge case stores
exactly one contact, both of whose points are X and whose penetration is 0, and returns
true. -/
theorem C5_crossing_edges_contact_at_meeting_point (ext : Externals K)
    (hs : IsSqrt ext.sqrt) (g : rpContactGeneration K) (A0 A1 B0 B1 X : Vector3 K) (s t : K)
    (hX1 : X = A0 + Vector3.scalarMul s (A1 - A0))
    (hX2 : X = B0 + Vector3.scalarMul t (B1 - B0))
    (hgate : (LineLineIntersect A0 A1 B0 B1 Vector3.zero Vector3.zero).1 = true) :
    (ConvertSupportPointsToContacts ext g [A0, A1] [B0, B1]).2 = true ∧
    (ConvertSupportPointsToContacts ext g [A0, A1] [B0, B1]).1.mNbContacts = 1 ∧
    (ConvertSupportPointsToContacts ext g [A0, A1] [B0, B1]).1.mInfoContacts 0 =
      ⟨g.mSeparatonAxis, 0, X, X⟩ := by
  refine ⟨(Convert_two_two_count ext g A0 A1 B0 B1).1,
    (Convert_two_two_count ext g A0 A1 B0 B1).2, ?_⟩
  rw [Convert_two_two_contact,
    LineLineIntersect_of_meet A0 A1 B0 B1 Vector3.zero Vector3.zero X s t hX1 hX2 hgate]
  simp only [Vector3.length, lengthSquare_sub_self, hs.zero]

/-- C6 (amended): when `LineLineIntersect` succeeds, the two points of the edge-edge contact
are the closest pair of points of the two supporting lines: the first lies on the line
through B0, B1, the second on the line through A0, A1 (the line parameters are not
restricted to [0,1]), and the stored penetration, their distance, is at most the distance
between any point of one line and any point of the other. -/
theorem C6_edge_edge_closest_points_of_lines (ext : Externals K) (hs : IsSqrt ext.sqrt)
    (g : rpContactGeneration K) (A0 A1 B0 B1 : Vector3 K)
    (hgate : (LineLineIntersect A0 A1 B0 B1 Vector3.zero Vector3.zero).1 = true) :
    ∃ mua mub : K,
      ((ConvertSupportPointsToContacts ext g [A0, A1] [B0, B1]).1.mInfoContacts 0).localPoint1
        = B0 + Vector3.scalarMul mub (B1 - B0) ∧
      ((ConvertSupportPointsToContacts ext g [A0, A1] [B0, B1]).1.mInfoContacts 0).localPoint2
        = A0 + Vector3.scalarMul mua (A1 - A0) ∧
      ((ConvertSupportPointsToContacts ext g [A0, A1] [B0, B1]).1.mInfoContacts 0).penetration
        = Vector3.length ext.sqrt
            ((B0 + Vector3.scalarMul mub (B1 - B0)) - (A0 + Vector3.scalarMul mua (A1 - A0))) ∧
      ∀ s' t' : K,
        ((ConvertSupportPointsToContacts ext g [A0, A1] [B0, B1]).1.mInfoContacts
            0).penetration ≤
          Vector3.length ext.sqrt
            ((A0 + Vector3.scalarMul s' (A1 - A0)) - (B0 + Vector3.scalarMul t' (B1 - B0))) := by
  obtain ⟨mua, mub, hr, h1, h2, -, -⟩ :=
    LineLineIntersect_of_true A0 A1 B0 B1 Vector3.zero Vector3.zero hgate
  refine ⟨mua, mub, ?_, ?_, ?_, ?_⟩
  · rw [Convert_two_two_contact, hr]
  · rw [Convert_two_two_contact, hr]
  · rw [Convert_two_two_contact, hr]
  · intro s' t'
    rw [Convert_two_two_contact, hr]
    simp only [Vector3.length]
    rw [lengthSquare_sub_comm]
    apply hs.le_of_le (Vector3.lengthSquare_nonneg _)
    simp only [Vector3.dot, Vector3.add_x, Vector3.add_y, Vector3.add_z,
      Vector3.scalarMul, Vector3.sub_x, Vector3.sub_y, Vector3.sub_z] at h1 h2
    have key := lengthSquare_le_of_orthogonal
      (A0.x + mua * (A1.x - A0.x) - (B0.x + mub * (B1.x - B0.x)))
      (A0.y + mua * (A1.y - A0.y) - (B0.y + mub * (B1.y - B0.y)))
      (A0.z + mua * (A1.z - A0.z) - (B0.z + mub * (B1.z - B0.z)))
      (A1.x - A0.x) (A1.y - A0.y) (A1.z - A0.z) (B1.x - B0.x) (B1.y - B0.y) (B1.z - B0.z)
      (s' - mua) (t' - mub) h1 h2
    simp only [Vector3.lengthSquare, Vector3.add_x, Vector3.add_y, Vector3.add_z,
      Vector3.scalarMul, Vector3.sub_x, Vector3.sub_y, Vector3.sub_z]
    have ex : A0.x + s' * (A1.x - A0.x) - (B0.x + t' * (B1.x - B0.x)) =
        A0.x + mua * (A1.x - A0.x) - (B0.x + mub * (B1.x - B0.x)) +
          (s' - mua) * (A1.x - A0.x) - (t' - mub) * (B1.x - B0.x) := by ring
    have ey : A0.y + s' * (A1.y - A0.y) - (B0.y + t' * (B1.y - B0.y)) =
        A0.y + mua * (A1.y - A0.y) - (B0.y + mub * (B1.y - B0.y)) +
          (s' - mua) * (A1.y - A0.y) - (t' - mub) * (B1.y - B0.y) := by ring
    have ez : A0.z + s' * (A1.z - A0.z) - (B0.z + t' * (B1.z - B0.z)) =
        A0.z + mua * (A1.z - A0.z) - (B0.z + mub * (B1.z - B0.z)) +
          (s' - mua) * (A1.z - A0.z) - (t' - mub) * (B1.z - B0.z) := by ring
    rw [ex, ey, ez]
    exact key

end EdgeEdge

/-! ## Sample evaluations: the edge-edge case -/

section EdgeEdgeSamples

theorem sample_LineLineIntersect_parallel :
    LineLineIntersect (⟨0, 0, 0⟩ : Vector3 ℝ) ⟨1, 0, 0⟩ ⟨0, 1, 0⟩ ⟨1, 1, 0⟩
      Vector3.zero Vector3.zero = (false, Vector3.zero, Vector3.zero) := by
  apply LineLineIntersect_of_false
  unfold LineLineIntersect
  norm_num [EPS]

theorem sample_LineLineIntersect_crossing :
    (LineLineIntersect (⟨-1 / 2, 0, 0⟩ : Vector3 ℝ) ⟨1 / 2, 0, 0⟩ ⟨0, -1 / 2, 0⟩ ⟨0, 1 / 2, 0⟩
      Vector3.zero Vector3.zero).1 = true := by
  unfold LineLineIntersect
  norm_num [EPS]

theorem sample_LineLineIntersect_skew :
    LineLineIntersect (⟨0, 0, 0⟩ : Vector3 ℝ) ⟨1, 0, 0⟩ ⟨3, -1, 1⟩ ⟨3, 1, 1⟩
      Vector3.zero Vector3.zero = (true, ⟨3, 0, 1⟩, ⟨3, 0, 0⟩) := by
  unfold LineLineIntersect
  norm_num [EPS, Vector3.scalarMul, Vector3.ext_iff3]

/-- C4 fails on the code: for the parallel segments [(0,0,0),(1,0,0)] and
[(0,1,0),(1,1,0)] `LineLineIntersect` returns false, yet the edge-edge case stores one
contact, made of the two default-constructed points with penetration 0, and
`ConvertSupportPointsToContacts` returns true. -/
theorem C4_parallel_edges_still_store_a_contact :
    (LineLineIntersect (⟨0, 0, 0⟩ : Vector3 ℝ) ⟨1, 0, 0⟩ ⟨0, 1, 0⟩ ⟨1, 1, 0⟩
      Vector3.zero Vector3.zero).1 = false ∧
    (ConvertSupportPointsToContacts (sampleExternals Real.sqrt Real.arccos)
      (sampleGenerator [⟨0, 0, 0⟩, ⟨1, 0, 0⟩] [⟨0, 1, 0⟩, ⟨1, 1, 0⟩])
      [⟨0, 0, 0⟩, ⟨1, 0, 0⟩] [⟨0, 1, 0⟩, ⟨1, 1, 0⟩]).2 = true ∧
    (ConvertSupportPointsToContacts (sampleExternals Real.sqrt Real.arccos)
      (sampleGenerator [⟨0, 0, 0⟩, ⟨1, 0, 0⟩] [⟨0, 1, 0⟩, ⟨1, 1, 0⟩])
      [⟨0, 0, 0⟩, ⟨1, 0, 0⟩] [⟨0, 1, 0⟩, ⟨1, 1, 0⟩]).1.mNbContacts = 1 ∧
    (ConvertSupportPointsToContacts (sampleExternals Real.sqrt Real.arccos)
      (sampleGenerator [⟨0, 0, 0⟩, ⟨1, 0, 0⟩] [⟨0, 1, 0⟩, ⟨1, 1, 0⟩])
      [⟨0, 0, 0⟩, ⟨1, 0, 0⟩] [⟨0, 1, 0⟩, ⟨1, 1, 0⟩]).1.mInfoContacts 0 =
      ⟨⟨0, 0, 1⟩, 0, ⟨0, 0, 0⟩, ⟨0, 0, 0⟩⟩ := by
  refine ⟨by rw [sample_LineLineIntersect_parallel], (Convert_two_two_count _ _ _ _ _ _).1,
    (Convert_two_two_count _ _ _ _ _ _).2, ?_⟩
  rw [Convert_two_two_contact, sample_LineLineIntersect_parallel]
  simp [sampleExternals, sampleGenerator, Vector3.length, lengthSquare_sub_self, Vector3.zero]

/-- C5 at a sample input: two perpendicular unit segments crossing at the origin. -/
theorem C5_crossing_edges_contact_at_meeting_point_witness :
    (ConvertSupportPointsToContacts (sampleExternals Real.sqrt Real.arccos)
      (sampleGenerator [⟨-1 / 2, 0, 0⟩, ⟨1 / 2, 0, 0⟩] [⟨0, -1 / 2, 0⟩, ⟨0, 1 / 2, 0⟩])
      [⟨-1 / 2, 0, 0⟩, ⟨1 / 2, 0, 0⟩] [⟨0, -1 / 2, 0⟩, ⟨0, 1 / 2, 0⟩]).2 = true ∧
    (ConvertSupportPointsToContacts (sampleExternals Real.sqrt Real.arccos)
      (sampleGenerator [⟨-1 / 2, 0, 0⟩, ⟨1 / 2, 0, 0⟩] [⟨0, -1 / 2, 0⟩, ⟨0, 1 / 2, 0⟩])
      [⟨-1 / 2, 0, 0⟩, ⟨1 / 2, 0, 0⟩] [⟨0, -1 / 2, 0⟩, ⟨0, 1 / 2, 0⟩]).1.mNbContacts = 1 ∧
    (ConvertSupportPointsToContacts (sampleExternals Real.sqrt Real.arccos)
      (sampleGenerator [⟨-1 / 2, 0, 0⟩, ⟨1 / 2, 0, 0⟩] [⟨0, -1 / 2, 0⟩, ⟨0, 1 / 2, 0⟩])
      [⟨-1 / 2, 0, 0⟩, ⟨1 / 2, 0, 0⟩] [⟨0, -1 / 2, 0⟩, ⟨0, 1 / 2, 0⟩]).1.mInfoContacts 0 =
      ⟨⟨0, 0, 1⟩, 0, ⟨0, 0, 0⟩, ⟨0, 0, 0⟩⟩ :=
  C5_crossing_edges_contact_at_meeting_point (sampleExternals Real.sqrt Real.arccos)
    Real_isSqrt
    (sampleGenerator [⟨-1 / 2, 0, 0⟩, ⟨1 / 2, 0, 0⟩] [⟨0, -1 / 2, 0⟩, ⟨0, 1 / 2, 0⟩])
    ⟨-1 / 2, 0, 0⟩ ⟨1 / 2, 0, 0⟩ ⟨0, -1 / 2, 0⟩ ⟨0, 1 / 2, 0⟩ ⟨0, 0, 0⟩ (1 / 2) (1 / 2)
    (by norm_num [Vector3.ext_iff3, Vector3.scalarMul])
    (by norm_num [Vector3.ext_iff3, Vector3.scalarMul])
    sample_LineLineIntersect_crossing

/-- C6 (amended) at a sample input: the segment [(0,0,0),(1,0,0)] and the segment
[(3,-1,1),(3,1,1)], whose supporting lines are skew. -/
theorem C6_edge_edge_closest_points_of_lines_witness :
    ∃ mua mub : ℝ,
      ((ConvertSupportPointsToContacts (sampleExternals Real.sqrt Real.arccos)
        (sampleGenerator [⟨0, 0, 0⟩, ⟨1, 0, 0⟩] [⟨3, -1, 1⟩, ⟨3, 1, 1⟩])
        [⟨0, 0, 0⟩, ⟨1, 0, 0⟩] [⟨3, -1, 1⟩, ⟨3, 1, 1⟩]).1.mInfoContacts 0).localPoint1
        = (⟨3, -1, 1⟩ : Vector3 ℝ) + Vector3.scalarMul mub (⟨3, 1, 1⟩ - ⟨3, -1, 1⟩) ∧
      ((ConvertSupportPointsToContacts (sampleExternals Real.sqrt Real.arccos)
        (sampleGenerator [⟨0, 0, 0⟩, ⟨1, 0, 0⟩] [⟨3, -1, 1⟩, ⟨3, 1, 1⟩])
        [⟨0, 0, 0⟩, ⟨1, 0, 0⟩] [⟨3, -1, 1⟩, ⟨3, 1, 1⟩]).1.mInfoContacts 0).localPoint2
        = (⟨0, 0, 0⟩ : Vector3 ℝ) + Vector3.scalarMul mua (⟨1, 0, 0⟩ - ⟨0, 0, 0⟩) ∧
      ((ConvertSupportPointsToContacts (sampleExternals Real.sqrt Real.arccos)
        (sampleGenerator [⟨0, 0, 0⟩, ⟨1, 0, 0⟩] [⟨3, -1, 1⟩, ⟨3, 1, 1⟩])
        [⟨0, 0, 0⟩, ⟨1, 0, 0⟩] [⟨3, -1, 1⟩, ⟨3, 1, 1⟩]).1.mInfoContacts 0).penetration
        = Vector3.length Real.sqrt
            (((⟨3, -1, 1⟩ : Vector3 ℝ) + Vector3.scalarMul mub (⟨3, 1, 1⟩ - ⟨3, -1, 1⟩)) -
              (⟨0, 0, 0⟩ + Vector3.scalarMul mua (⟨1, 0, 0⟩ - ⟨0, 0, 0⟩))) ∧
      ∀ s' t' : ℝ,
        ((ConvertSupportPointsToContacts (sampleExternals Real.sqrt Real.arccos)
          (sampleGenerator [⟨0, 0, 0⟩, ⟨1, 0, 0⟩] [⟨3, -1, 1⟩, ⟨3, 1, 1⟩])
          [⟨0, 0, 0⟩, ⟨1, 0, 0⟩] [⟨3, -1, 1⟩, ⟨3, 1, 1⟩]).1.mInfoContacts 0).penetration ≤
          Vector3.length Real.sqrt
            (((⟨0, 0, 0⟩ : Vector3 ℝ) + Vector3.scalarMul s' (⟨1, 0, 0⟩ - ⟨0, 0, 0⟩)) -
              (⟨3, -1, 1⟩ + Vector3.scalarMul t' (⟨3, 1, 1⟩ - ⟨3, -1, 1⟩))) :=
  C6_edge_edge_closest_points_of_lines (sampleExternals Real.sqrt Real.arccos) Real_isSqrt
    (sampleGenerator [⟨0, 0, 0⟩, ⟨1, 0, 0⟩] [⟨3, -1, 1⟩, ⟨3, 1, 1⟩])
    ⟨0, 0, 0⟩ ⟨1, 0, 0⟩ ⟨3, -1, 1⟩ ⟨3, 1, 1⟩ (by rw [sample_LineLineIntersect_skew])

/-- C6 as stated fails: for the segments [(0,0,0),(1,0,0)] and [(3,-1,1),(3,1,1)] the
edge-edge case stores one contact with points (3,0,1) and (3,0,0) and penetration 1; the
point (3,0,0) lies on neither segment (on the line of the first one its parameter is 3),
and every point of the first segment is at distance more than 1 from the second segment's
line x = 3, z = 1. -/
theorem C6_contact_point_off_the_segment :
    (ConvertSupportPointsToContacts (sampleExternals Real.sqrt Real.arccos)
      (sampleGenerator [⟨0, 0, 0⟩, ⟨1, 0, 0⟩] [⟨3, -1, 1⟩, ⟨3, 1, 1⟩])
      [⟨0, 0, 0⟩, ⟨1, 0, 0⟩] [⟨3, -1, 1⟩, ⟨3, 1, 1⟩]).1.mInfoContacts 0 =
      ⟨⟨0, 0, 1⟩, 1, ⟨3, 0, 1⟩, ⟨3, 0, 0⟩⟩ ∧
    (∀ s : ℝ, 0 ≤ s → s ≤ 1 →
      (⟨3, 0, 0⟩ : Vector3 ℝ) ≠ ⟨0, 0, 0⟩ + Vector3.scalarMul s (⟨1, 0, 0⟩ - ⟨0, 0, 0⟩)) ∧
    (∀ s : ℝ, 0 ≤ s → s ≤ 1 →
      (⟨3, 0, 0⟩ : Vector3 ℝ) ≠ ⟨3, -1, 1⟩ + Vector3.scalarMul s (⟨3, 1, 1⟩ - ⟨3, -1, 1⟩)) ∧
    (∀ s t : ℝ, 0 ≤ s → s ≤ 1 →
      (1 : ℝ) * 1 < Vector3.lengthSquare
        (((⟨0, 0, 0⟩ : Vector3 ℝ) + Vector3.scalarMul s (⟨1, 0, 0⟩ - ⟨0, 0, 0⟩)) -
          (⟨3, -1, 1⟩ + Vector3.scalarMul t (⟨3, 1, 1⟩ - ⟨3, -1, 1⟩)))) := by
  refine ⟨?_, ?_, ?_, ?_⟩
  · rw [Convert_two_two_contact, sample_LineLineIntersect_skew]
    simp [sampleExternals, sampleGenerator, Vector3.length, Vector3.lengthSquare]
  · intro s _ h1 h
    rw [Vector3.ext_iff3] at h
    simp [Vector3.scalarMul] at h
    linarith
  · intro s _ _ h
    rw [Vector3.ext_iff3] at h
    simp [Vector3.scalarMul] at h
  · intro s t h0 h1
    simp only [Vector3.lengthSquare, Vector3.scalarMul, Vector3.add_x, Vector3.add_y,
      Vector3.add_z, Vector3.sub_x, Vector3.sub_y, Vector3.sub_z]
    nlinarith [mul_self_nonneg (-1 + t * 2), mul_self_nonneg (s - 3)]

end EdgeEdgeSamples

/-! ## The point-point and point-face cases -/

section PointCases

variable {K : Type} [LinearOrderedField K]

/-- C10: for every two points A and B, the point-point case (counts 1 and 1) stores
exactly one contact, with points (A, B), and returns true; its penetration is the Euclidean
distance of A and B, that is the non-negative number whose square is
(A.x - B.x)^2 + (A.y - B.y)^2 + (A.z - B.z)^2, and it is 0 when A = B. -/
theorem C10_point_point_contact (ext : Externals K) (hs : IsSqrt ext.sqrt)
    (g : rpContactGeneration K) (A B : Vector3 K) :
    (ConvertSupportPointsToContacts ext g [A] [B]).2 = true ∧
    (ConvertSupportPointsToContacts ext g [A] [B]).1.mNbContacts = 1 ∧
    ((ConvertSupportPointsToContacts ext g [A] [B]).1.mInfoContacts 0).localPoint1 = A ∧
    ((ConvertSupportPointsToContacts ext g [A] [B]).1.mInfoContacts 0).localPoint2 = B ∧
    0 ≤ ((ConvertSupportPointsToContacts ext g [A] [B]).1.mInfoContacts 0).penetration ∧
    ((ConvertSupportPointsToContacts ext g [A] [B]).1.mInfoContacts 0).penetration *
        ((ConvertSupportPointsToContacts ext g [A] [B]).1.mInfoContacts 0).penetration =
      (A.x - B.x) * (A.x - B.x) + (A.y - B.y) * (A.y - B.y) + (A.z - B.z) * (A.z - B.z) ∧
    (A = B →
      ((ConvertSupportPointsToContacts ext g [A] [B]).1.mInfoContacts 0).penetration = 0) := by
  rw [Convert_point_point ext g [A] [B] rfl rfl]
  have hc : (CollidePointPointContacts ext { g with mNbContacts := 0 } (vertexAt [A] 0)
      (vertexAt [B] 0)).mInfoContacts 0 =
      ⟨g.mSeparatonAxis, Vector3.length ext.sqrt (A - B), A, B⟩ := by
    simp [CollidePointPointContacts, addInfoContact, vertexAt]
  refine ⟨rfl, rfl, ?_, ?_, ?_, ?_, ?_⟩
  · rw [hc]
  · rw [hc]
  · rw [hc]
    exact Vector3.length_nonneg hs _
  · rw [hc]
    show Vector3.length ext.sqrt (A - B) * Vector3.length ext.sqrt (A - B) = _
    rw [Vector3.length_mul_self hs]
    simp [Vector3.lengthSquare]
  · intro hAB
    rw [hc, hAB]
    simp only [Vector3.length, lengthSquare_sub_self, hs.zero]

/-- The length of `A - (A - dist * n)` for a unit vector `n` is `|dist|`. -/
theorem length_sub_projection {sqrt : K → K} (hs : IsSqrt sqrt) (A n : Vector3 K) (dist : K)
    (hn : Vector3.lengthSquare n = 1) :
    Vector3.length sqrt (A - (A - Vector3.scalarMul dist n)) = |dist| := by
  have e : Vector3.lengthSquare (A - (A - Vector3.scalarMul dist n)) = dist * dist := by
    have : Vector3.lengthSquare (A - (A - Vector3.scalarMul dist n)) =
        dist * dist * Vector3.lengthSquare n := by
      simp only [Vector3.lengthSquare, Vector3.scalarMul, Vector3.sub_x, Vector3.sub_y,
        Vector3.sub_z]
      ring
    rw [this, hn, mul_one]
  rw [Vector3.length, e, hs.of_mul_self]

/-- C9: for every point A and every plane given by a unit normal n and offset bd,
`CollidePointFaceContacts` stores (at index `mNbContacts`) a contact whose first point is A
and whose second point B = A - (A.n - bd) n is the orthogonal projection of A onto the
plane: B.n = bd, A - B is the multiple (A.n - bd) n of the normal, and the stored
penetration is |A.n - bd|. -/
theorem C9_point_face_projection (ext : Externals K) (hs : IsSqrt ext.sqrt)
    (g : rpContactGeneration K) (A n : Vector3 K) (bd : K)
    (hn : Vector3.lengthSquare n = 1) :
    (CollidePointFaceContacts ext g A n bd).mNbContacts = g.mNbContacts + 1 ∧
    (CollidePointFaceContacts ext g A n bd).mInfoContacts g.mNbContacts =
      ⟨g.mSeparatonAxis, |Vector3.dot A n - bd|, A,
        A - Vector3.scalarMul (Vector3.dot A n - bd) n⟩ ∧
    Vector3.dot (A - Vector3.scalarMul (Vector3.dot A n - bd) n) n = bd ∧
    A - (A - Vector3.scalarMul (Vector3.dot A n - bd) n) =
      Vector3.scalarMul (Vector3.dot A n - bd) n := by
  refine ⟨rfl, ?_, ?_, ?_⟩
  · simp only [CollidePointFaceContacts, addInfoContact_mInfoContacts, if_true]
    rw [length_sub_projection hs A n _ hn]
  · have : Vector3.dot (A - Vector3.scalarMul (Vector3.dot A n - bd) n) n =
        Vector3.dot A n - (Vector3.dot A n - bd) * Vector3.lengthSquare n := by
      simp only [Vector3.dot, Vector3.lengthSquare, Vector3.scalarMul, Vector3.sub_x,
        Vector3.sub_y, Vector3.sub_z]
      ring
    rw [this, hn]
    ring
  · rw [Vector3.ext_iff3]
    simp [Vector3.scalarMul]

/-- C8 (amended): for every point A and every face of B whose plane normal n (through its
first three vertices) is of unit length, with offset d = n.B0, the point-face case always
stores exactly one contact and returns true, whatever the sign of the signed distance
A.n - d; the penetration is |A.n - d|, which is d - A.n when A.n - d <= 0. -/
theorem C8_point_face_always_one_contact (ext : Externals K) (hs : IsSqrt ext.sqrt)
    (g : rpContactGeneration K) (A b0 b1 b2 : Vector3 K) (rest : List (Vector3 K))
    (hn : Vector3.lengthSquare (ext.planeNormal b0 b1 b2) = 1) :
    (ConvertSupportPointsToContacts ext g [A] (b0 :: b1 :: b2 :: rest)).2 = true ∧
    (ConvertSupportPointsToContacts ext g [A] (b0 :: b1 :: b2 :: rest)).1.mNbContacts = 1 ∧
    ((ConvertSupportPointsToContacts ext g [A] (b0 :: b1 :: b2 :: rest)).1.mInfoContacts
        0).penetration =
      |Vector3.dot A (ext.planeNormal b0 b1 b2) - Vector3.dot (ext.planeNormal b0 b1 b2) b0| ∧
    (Vector3.dot A (ext.planeNormal b0 b1 b2) - Vector3.dot (ext.planeNormal b0 b1 b2) b0 ≤ 0 →
      ((ConvertSupportPointsToContacts ext g [A] (b0 :: b1 :: b2 :: rest)).1.mInfoContacts
          0).penetration =
        Vector3.dot (ext.planeNormal b0 b1 b2) b0 - Vector3.dot A (ext.planeNormal b0 b1 b2)) := by
  rw [Convert_point_face ext g [A] (b0 :: b1 :: b2 :: rest) rfl (by simp)]
  have hc : ((CollidePointFaceContacts ext { g with mNbContacts := 0 }
      (vertexAt [A] 0)
      (ext.planeNormal (vertexAt (b0 :: b1 :: b2 :: rest) 0)
        (vertexAt (b0 :: b1 :: b2 :: rest) 1) (vertexAt (b0 :: b1 :: b2 :: rest) 2))
      (Vector3.dot (ext.planeNormal (vertexAt (b0 :: b1 :: b2 :: rest) 0)
        (vertexAt (b0 :: b1 :: b2 :: rest) 1) (vertexAt (b0 :: b1 :: b2 :: rest) 2))
        (vertexAt (b0 :: b1 :: b2 :: rest) 0))).mInfoContacts 0).penetration =
      |Vector3.dot A (ext.planeNormal b0 b1 b2) -
        Vector3.dot (ext.planeNormal b0 b1 b2) b0| := by
    simp only [CollidePointFaceContacts, addInfoContact_mInfoContacts, if_true, vertexAt,
      List.getD_cons_zero, List.getD_cons_succ]
    exact length_sub_projection hs A _ _ hn
  refine ⟨rfl, rfl, hc, ?_⟩
  intro hle
  rw [hc, abs_of_nonpos hle]
  ring

end PointCases

/-! ## Sample evaluations: the point-point and point-face cases -/

section PointSamples

theorem sample_planeNormal_triangle_unit :
    Vector3.lengthSquare ((sampleExternals Real.sqrt Real.arccos).planeNormal
      (⟨0, 0, 0⟩ : Vector3 ℝ) ⟨1, 0, 0⟩ ⟨0, 1, 0⟩) = 1 := by
  rw [sample_planeNormal_triangle]
  norm_num [Vector3.lengthSquare]

/-- C8 (amended) at a sample input: the point (0,0,-1) against the face (0,0,0), (1,0,0),
(0,1,0) of the plane z = 0. -/
theorem C8_point_face_always_one_contact_witness :
    (ConvertSupportPointsToContacts (sampleExternals Real.sqrt Real.arccos)
      (sampleGenerator [⟨0, 0, -1⟩] sampleTriangle) [⟨0, 0, -1⟩]
      [⟨0, 0, 0⟩, ⟨1, 0, 0⟩, ⟨0, 1, 0⟩]).2 = true ∧
    (ConvertSupportPointsToContacts (sampleExternals Real.sqrt Real.arccos)
      (sampleGenerator [⟨0, 0, -1⟩] sampleTriangle) [⟨0, 0, -1⟩]
      [⟨0, 0, 0⟩, ⟨1, 0, 0⟩, ⟨0, 1, 0⟩]).1.mNbContacts = 1 ∧
    ((ConvertSupportPointsToContacts (sampleExternals Real.sqrt Real.arccos)
      (sampleGenerator [⟨0, 0, -1⟩] sampleTriangle) [⟨0, 0, -1⟩]
      [⟨0, 0, 0⟩, ⟨1, 0, 0⟩, ⟨0, 1, 0⟩]).1.mInfoContacts 0).penetration = 1 := by
  have h := C8_point_face_always_one_contact (sampleExternals Real.sqrt Real.arccos)
    Real_isSqrt (sampleGenerator [⟨0, 0, -1⟩] sampleTriangle) ⟨0, 0, -1⟩
    ⟨0, 0, 0⟩ ⟨1, 0, 0⟩ ⟨0, 1, 0⟩ [] sample_planeNormal_triangle_unit
  refine ⟨h.1, h.2.1, ?_⟩
  rw [h.2.2.1, sample_planeNormal_triangle]
  norm_num [Vector3.dot]

/-- C8 as stated fails: the point A = (0,0,1), on the positive side of the plane z = 0 of
the face (0,0,0), (1,0,0), (0,1,0) (signed distance 1 > 0), is not rejected: the point-face
case stores one contact with penetration 1 and returns true. -/
theorem C8_positive_side_point_is_accepted :
    Vector3.dot (⟨0, 0, 1⟩ : Vector3 ℝ)
        ((sampleExternals Real.sqrt Real.arccos).planeNormal ⟨0, 0, 0⟩ ⟨1, 0, 0⟩ ⟨0, 1, 0⟩) -
      Vector3.dot
        ((sampleExternals Real.sqrt Real.arccos).planeNormal ⟨0, 0, 0⟩ ⟨1, 0, 0⟩ ⟨0, 1, 0⟩)
        ⟨0, 0, 0⟩ = 1 ∧
    (ConvertSupportPointsToContacts (sampleExternals Real.sqrt Real.arccos)
      (sampleGenerator [⟨0, 0, 1⟩] sampleTriangle) [⟨0, 0, 1⟩]
      [⟨0, 0, 0⟩, ⟨1, 0, 0⟩, ⟨0, 1, 0⟩]).2 = true ∧
    (ConvertSupportPointsToContacts (sampleExternals Real.sqrt Real.arccos)
      (sampleGenerator [⟨0, 0, 1⟩] sampleTriangle) [⟨0, 0, 1⟩]
      [⟨0, 0, 0⟩, ⟨1, 0, 0⟩, ⟨0, 1, 0⟩]).1.mNbContacts = 1 ∧
    ((ConvertSupportPointsToContacts (sampleExternals Real.sqrt Real.arccos)
      (sampleGenerator [⟨0, 0, 1⟩] sampleTriangle) [⟨0, 0, 1⟩]
      [⟨0, 0, 0⟩, ⟨1, 0, 0⟩, ⟨0, 1, 0⟩]).1.mInfoContacts 0).penetration = 1 := by
  rw [Convert_point_face _ _ [⟨0, 0, 1⟩] [⟨0, 0, 0⟩, ⟨1, 0, 0⟩, ⟨0, 1, 0⟩] rfl (by simp)]
  simp only [vertexAt, List.getD_cons_zero, List.getD_cons_succ,
    sample_planeNormal_triangle]
  refine ⟨by norm_num [Vector3.dot], trivial, rfl, ?_⟩
  simp only [CollidePointFaceContacts, addInfoContact_mInfoContacts, if_true]
  have hs : IsSqrt (sampleExternals Real.sqrt Real.arccos).sqrt := Real_isSqrt
  rw [length_sub_projection hs _ _ _ (by norm_num [Vector3.lengthSquare])]
  norm_num [Vector3.dot]

/-- C9 at a sample input: the point (0,0,-1) and the plane z = 0. -/
theorem C9_point_face_projection_witness :
    (CollidePointFaceContacts (sampleExternals Real.sqrt Real.arccos)
      (sampleGenerator [⟨0, 0, -1⟩] sampleTriangle) ⟨0, 0, -1⟩ ⟨0, 0, 1⟩ 0).mNbContacts =
      (sampleGenerator [⟨0, 0, -1⟩] sampleTriangle : rpContactGeneration ℝ).mNbContacts + 1 ∧
    (CollidePointFaceContacts (sampleExternals Real.sqrt Real.arccos)
      (sampleGenerator [⟨0, 0, -1⟩] sampleTriangle) ⟨0, 0, -1⟩ ⟨0, 0, 1⟩ 0).mInfoContacts
        (sampleGenerator [⟨0, 0, -1⟩] sampleTriangle : rpContactGeneration ℝ).mNbContacts =
      ⟨(sampleGenerator [⟨0, 0, -1⟩] sampleTriangle : rpContactGeneration ℝ).mSeparatonAxis,
        |Vector3.dot (⟨0, 0, -1⟩ : Vector3 ℝ) ⟨0, 0, 1⟩ - 0|, ⟨0, 0, -1⟩,
        ⟨0, 0, -1⟩ - Vector3.scalarMul (Vector3.dot (⟨0, 0, -1⟩ : Vector3 ℝ) ⟨0, 0, 1⟩ - 0)
          ⟨0, 0, 1⟩⟩ ∧
    Vector3.dot ((⟨0, 0, -1⟩ : Vector3 ℝ) -
      Vector3.scalarMul (Vector3.dot (⟨0, 0, -1⟩ : Vector3 ℝ) ⟨0, 0, 1⟩ - 0) ⟨0, 0, 1⟩)
      ⟨0, 0, 1⟩ = 0 ∧
    (⟨0, 0, -1⟩ : Vector3 ℝ) - (⟨0, 0, -1⟩ -
      Vector3.scalarMul (Vector3.dot (⟨0, 0, -1⟩ : Vector3 ℝ) ⟨0, 0, 1⟩ - 0) ⟨0, 0, 1⟩) =
      Vector3.scalarMul (Vector3.dot (⟨0, 0, -1⟩ : Vector3 ℝ) ⟨0, 0, 1⟩ - 0) ⟨0, 0, 1⟩ :=
  C9_point_face_projection (sampleExternals Real.sqrt Real.arccos) Real_isSqrt
    (sampleGenerator [⟨0, 0, -1⟩] sampleTriangle) ⟨0, 0, -1⟩ ⟨0, 0, 1⟩ 0
    (by norm_num [Vector3.lengthSquare])

/-- C10 at a sample input: the points (0,0,0) and (3,4,0), at distance 5. -/
theorem C10_point_point_contact_witness :
    (ConvertSupportPointsToContacts (sampleExternals Real.sqrt Real.arccos)
      (sampleGenerator [⟨0, 0, 0⟩] [⟨3, 4, 0⟩]) [⟨0, 0, 0⟩] [⟨3, 4, 0⟩]).1.mNbContacts = 1 ∧
    0 ≤ ((ConvertSupportPointsToContacts (sampleExternals Real.sqrt Real.arccos)
      (sampleGenerator [⟨0, 0, 0⟩] [⟨3, 4, 0⟩]) [⟨0, 0, 0⟩]
      [⟨3, 4, 0⟩]).1.mInfoContacts 0).penetration ∧
    ((ConvertSupportPointsToContacts (sampleExternals Real.sqrt Real.arccos)
      (sampleGenerator [⟨0, 0, 0⟩] [⟨3, 4, 0⟩]) [⟨0, 0, 0⟩]
      [⟨3, 4, 0⟩]).1.mInfoContacts 0).penetration *
    ((ConvertSupportPointsToContacts (sampleExternals Real.sqrt Real.arccos)
      (sampleGenerator [⟨0, 0, 0⟩] [⟨3, 4, 0⟩]) [⟨0, 0, 0⟩]
      [⟨3, 4, 0⟩]).1.mInfoContacts 0).penetration = 25 := by
  have h := C10_point_point_contact (sampleExternals Real.sqrt Real.arccos) Real_isSqrt
    (sampleGenerator [⟨0, 0, 0⟩] [⟨3, 4, 0⟩]) ⟨0, 0, 0⟩ ⟨3, 4, 0⟩
  refine ⟨h.2.1, h.2.2.2.2.1, ?_⟩
  rw [h.2.2.2.2.2.1]
  norm_num

end PointSamples

/-! ## The point-edge case -/

section PointEdge

variable {K : Type} [LinearOrderedField K]

/-- Comparison of the squared distances from `A` to two points of the line through `B0`
and `B1`. -/
theorem lengthSquare_le_on_line (A B0 B1 : Vector3 K) (s0 s : K)
    (hcond : 0 ≤ (s - s0) * ((s + s0) * Vector3.lengthSquare (B1 - B0) -
      2 * Vector3.dot (A - B0) (B1 - B0))) :
    Vector3.lengthSquare (A - (B0 + Vector3.scalarMul s0 (B1 - B0))) ≤
      Vector3.lengthSquare (A - (B0 + Vector3.scalarMul s (B1 - B0))) := by
  have e : Vector3.lengthSquare (A - (B0 + Vector3.scalarMul s (B1 - B0))) -
      Vector3.lengthSquare (A - (B0 + Vector3.scalarMul s0 (B1 - B0))) =
      (s - s0) * ((s + s0) * Vector3.lengthSquare (B1 - B0) -
        2 * Vector3.dot (A - B0) (B1 - B0)) := by
    simp only [Vector3.lengthSquare, Vector3.dot, Vector3.scalarMul, Vector3.add_x,
      Vector3.add_y, Vector3.add_z, Vector3.sub_x, Vector3.sub_y, Vector3.sub_z]
    ring
  linarith

theorem lengthSquare_pos_of_ne (B0 B1 : Vector3 K) (hne : B0 ≠ B1) :
    0 < Vector3.lengthSquare (B1 - B0) := by
  have h1 := Vector3.lengthSquare_nonneg (B1 - B0)
  rcases h1.lt_or_eq with h2 | h2
  · exact h2
  · exfalso
    apply hne
    have h3 := (Vector3.lengthSquare_eq_zero_iff _).mp h2.symm
    rw [Vector3.ext_iff3] at h3 ⊢
    simp only [Vector3.sub_x, Vector3.sub_y, Vector3.sub_z, Vector3.zero_x, Vector3.zero_y,
      Vector3.zero_z] at h3
    exact ⟨by linarith [h3.1], by linarith [h3.2.1], by linarith [h3.2.2]⟩

/-- `ClosestPointOnLine(B0, B1, A)` is the point of some parameter `s0` in [0,1] of the
segment, chosen as the clamped foot of the perpendicular from `A`. -/
theorem ClosestPointOnLine_spec {sqrt : K → K} (hs : IsSqrt sqrt) (A B0 B1 : Vector3 K)
    (hne : B0 ≠ B1) :
    ∃ s0 : K, 0 ≤ s0 ∧ s0 ≤ 1 ∧
      ClosestPointOnLine sqrt B0 B1 A = B0 + Vector3.scalarMul s0 (B1 - B0) ∧
      ((s0 = 0 ∧ Vector3.dot (A - B0) (B1 - B0) ≤ 0) ∨
       (s0 = 1 ∧ Vector3.lengthSquare (B1 - B0) ≤ Vector3.dot (A - B0) (B1 - B0)) ∨
       Vector3.dot (A - B0) (B1 - B0) = s0 * Vector3.lengthSquare (B1 - B0)) := by
  have hLS := lengthSquare_pos_of_ne B0 B1 hne
  have hL : 0 < Vector3.length sqrt (B1 - B0) := hs.pos hLS
  have hLL := Vector3.length_mul_self hs (B1 - B0)
  have hd : Vector3.length sqrt (B0 - B1) = Vector3.length sqrt (B1 - B0) := by
    unfold Vector3.length
    rw [lengthSquare_sub_comm]
  have hux : (Vector3.getUnit sqrt (B1 - B0)).x * Vector3.length sqrt (B1 - B0) =
      B1.x - B0.x := by
    simp only [Vector3.getUnit, Vector3.sub_x]
    field_simp
  have huy : (Vector3.getUnit sqrt (B1 - B0)).y * Vector3.length sqrt (B1 - B0) =
      B1.y - B0.y := by
    simp only [Vector3.getUnit, Vector3.sub_y]
    field_simp
  have huz : (Vector3.getUnit sqrt (B1 - B0)).z * Vector3.length sqrt (B1 - B0) =
      B1.z - B0.z := by
    simp only [Vector3.getUnit, Vector3.sub_z]
    field_simp
  have ht : Vector3.dot (Vector3.getUnit sqrt (B1 - B0)) (A - B0) *
      Vector3.length sqrt (B1 - B0) = Vector3.dot (A - B0) (B1 - B0) := by
    simp only [Vector3.dot, Vector3.sub_x, Vector3.sub_y, Vector3.sub_z]
    rw [← hux, ← huy, ← huz]
    ring
  unfold ClosestPointOnLine
  simp only
  rw [hd]
  generalize Vector3.getUnit sqrt (B1 - B0) = u at ht hux huy huz
  generalize Vector3.dot u (A - B0) = t at ht
  generalize Vector3.length sqrt (B1 - B0) = L at hL hLL ht hux huy huz
  split_ifs with h1 h2
  · refine ⟨0, le_rfl, zero_le_one, ?_, Or.inl ⟨rfl, ?_⟩⟩
    · rw [Vector3.ext_iff3]
      simp [Vector3.scalarMul]
    · rw [← ht]
      exact (mul_neg_of_neg_of_pos h1 hL).le
  · refine ⟨1, zero_le_one, le_rfl, ?_, Or.inr (Or.inl ⟨rfl, ?_⟩)⟩
    · rw [Vector3.ext_iff3]
      simp [Vector3.scalarMul]
    · rw [← ht, ← hLL]
      exact (mul_lt_mul_of_pos_right h2 hL).le
  · push_neg at h1 h2
    refine ⟨t / L, div_nonneg h1 hL.le, (div_le_one hL).mpr h2, ?_, Or.inr (Or.inr ?_)⟩
    · rw [Vector3.ext_iff3]
      simp only [Vector3.mulScalar, Vector3.scalarMul, Vector3.add_x,
        Vector3.add_y, Vector3.add_z, Vector3.sub_x, Vector3.sub_y, Vector3.sub_z]
      rw [← hux, ← huy, ← huz]
      refine ⟨?_, ?_, ?_⟩ <;> field_simp <;> ring
    · rw [← ht, ← hLL]
      field_simp
      ring

/-- `ClosestPointOnLine(B0, B1, A)` is at least as close to `A` as every point of the
segment [B0,B1]. -/
theorem ClosestPointOnLine_closest {sqrt : K → K} (hs : IsSqrt sqrt) (A B0 B1 : Vector3 K)
    (hne : B0 ≠ B1) (s : K) (hs0 : 0 ≤ s) (hs1 : s ≤ 1) :
    Vector3.length sqrt (A - ClosestPointOnLine sqrt B0 B1 A) ≤
      Vector3.length sqrt (A - (B0 + Vector3.scalarMul s (B1 - B0))) := by
  obtain ⟨s0, h0, h1, hC, hcase⟩ := ClosestPointOnLine_spec hs A B0 B1 hne
  have hvv := Vector3.lengthSquare_nonneg (B1 - B0)
  rw [hC]
  apply hs.le_of_le (Vector3.lengthSquare_nonneg _)
  apply lengthSquare_le_on_line
  rcases hcase with ⟨hz, hav⟩ | ⟨hz, hav⟩ | hav
  · rw [hz]
    apply mul_nonneg (by linarith)
    nlinarith [mul_nonneg hs0 hvv]
  · rw [hz]
    apply mul_nonneg_of_nonpos_of_nonpos (by linarith)
    nlinarith [mul_nonneg (sub_nonneg.mpr hs1) hvv]
  · rw [hav]
    have e : (s - s0) * ((s + s0) * Vector3.lengthSquare (B1 - B0) -
        2 * (s0 * Vector3.lengthSquare (B1 - B0))) =
        (s - s0) * (s - s0) * Vector3.lengthSquare (B1 - B0) := by ring
    rw [e]
    exact mul_nonneg (mul_self_nonneg _) hvv

/-- C7: for every point A and every segment with B0 != B1, the point-edge case (counts 1
and 2) stores exactly one contact and returns true; the first point of the contact is A and
the second is `ClosestPointOnLine(B0, B1, A)`, which lies on the segment [B0,B1] (parameter
in [0,1]) and is at least as close to A as every point of the segment; the penetration
is the distance from A to that point. -/
theorem C7_point_edge_closest_point (ext : Externals K) (hs : IsSqrt ext.sqrt)
    (g : rpContactGeneration K) (A B0 B1 : Vector3 K) (hne : B0 ≠ B1) :
    (ConvertSupportPointsToContacts ext g [A] [B0, B1]).2 = true ∧
    (ConvertSupportPointsToContacts ext g [A] [B0, B1]).1.mNbContacts = 1 ∧
    (ConvertSupportPointsToContacts ext g [A] [B0, B1]).1.mInfoContacts 0 =
      ⟨g.mSeparatonAxis,
        Vector3.length ext.sqrt (A - ClosestPointOnLine ext.sqrt B0 B1 A), A,
        ClosestPointOnLine ext.sqrt B0 B1 A⟩ ∧
    (∃ s0 : K, 0 ≤ s0 ∧ s0 ≤ 1 ∧
      ClosestPointOnLine ext.sqrt B0 B1 A = B0 + Vector3.scalarMul s0 (B1 - B0)) ∧
    (∀ s : K, 0 ≤ s → s ≤ 1 →
      Vector3.length ext.sqrt (A - ClosestPointOnLine ext.sqrt B0 B1 A) ≤
        Vector3.length ext.sqrt (A - (B0 + Vector3.scalarMul s (B1 - B0)))) := by
  rw [Convert_point_edge ext g [A] [B0, B1] rfl rfl]
  refine ⟨rfl, rfl, ?_, ?_, ?_⟩
  · simp [CollidePointEdgeContacts, addInfoContact, vertexAt]
  · obtain ⟨s0, h0, h1, hC, -⟩ := ClosestPointOnLine_spec hs A B0 B1 hne
    exact ⟨s0, h0, h1, hC⟩
  · intro s h0 h1
    exact ClosestPointOnLine_closest hs A B0 B1 hne s h0 h1

end PointEdge

/-! ## Sample evaluations: the point-edge case -/

section PointEdgeSamples

theorem sample_ClosestPointOnLine :
    ClosestPointOnLine Real.sqrt (⟨0, 0, 0⟩ : Vector3 ℝ) ⟨1, 0, 0⟩ ⟨1 / 2, 1, 0⟩ =
      ⟨1 / 2, 0, 0⟩ := by
  unfold ClosestPointOnLine
  norm_num [Vector3.getUnit, Vector3.length, Vector3.lengthSquare, Vector3.dot,
    Vector3.mulScalar, Vector3.ext_iff3]

/-- C7 at a sample input: the point (1/2, 1, 0) and the segment [(0,0,0),(1,0,0)]; the
closest point is (1/2, 0, 0), at distance 1. -/
theorem C7_point_edge_closest_point_witness :
    (ConvertSupportPointsToContacts (sampleExternals Real.sqrt Real.arccos)
      (sampleGenerator [⟨1 / 2, 1, 0⟩] [⟨0, 0, 0⟩, ⟨1, 0, 0⟩])
      [⟨1 / 2, 1, 0⟩] [⟨0, 0, 0⟩, ⟨1, 0, 0⟩]).2 = true ∧
    (ConvertSupportPointsToContacts (sampleExternals Real.sqrt Real.arccos)
      (sampleGenerator [⟨1 / 2, 1, 0⟩] [⟨0, 0, 0⟩, ⟨1, 0, 0⟩])
      [⟨1 / 2, 1, 0⟩] [⟨0, 0, 0⟩, ⟨1, 0, 0⟩]).1.mNbContacts = 1 ∧
    (ConvertSupportPointsToContacts (sampleExternals Real.sqrt Real.arccos)
      (sampleGenerator [⟨1 / 2, 1, 0⟩] [⟨0, 0, 0⟩, ⟨1, 0, 0⟩])
      [⟨1 / 2, 1, 0⟩] [⟨0, 0, 0⟩, ⟨1, 0, 0⟩]).1.mInfoContacts 0 =
      ⟨⟨0, 0, 1⟩, 1, ⟨1 / 2, 1, 0⟩, ⟨1 / 2, 0, 0⟩⟩ ∧
    (∀ s : ℝ, 0 ≤ s → s ≤ 1 →
      Vector3.length Real.sqrt ((⟨1 / 2, 1, 0⟩ : Vector3 ℝ) - ⟨1 / 2, 0, 0⟩) ≤
        Vector3.length Real.sqrt ((⟨1 / 2, 1, 0⟩ : Vector3 ℝ) -
          (⟨0, 0, 0⟩ + Vector3.scalarMul s (⟨1, 0, 0⟩ - ⟨0, 0, 0⟩)))) := by
  have h := C7_point_edge_closest_point (sampleExternals Real.sqrt Real.arccos) Real_isSqrt
    (sampleGenerator [⟨1 / 2, 1, 0⟩] [⟨0, 0, 0⟩, ⟨1, 0, 0⟩])
    ⟨1 / 2, 1, 0⟩ ⟨0, 0, 0⟩ ⟨1, 0, 0⟩ (by simp [Vector3.ext_iff3])
  have hc : ClosestPointOnLine (sampleExternals Real.sqrt Real.arccos).sqrt
      (⟨0, 0, 0⟩ : Vector3 ℝ) ⟨1, 0, 0⟩ ⟨1 / 2, 1, 0⟩ = ⟨1 / 2, 0, 0⟩ :=
    sample_ClosestPointOnLine
  rw [hc] at h
  refine ⟨h.1, h.2.1, ?_, h.2.2.2.2⟩
  rw [h.2.2.1]
  norm_num [sampleExternals, sampleGenerator, Vector3.length, Vector3.lengthSquare]

end PointEdgeSamples

/-! ## The stored contacts as a list -/

section Stored

variable {K : Type} [LinearOrderedField K]

theorem mem_storedContacts (g : rpContactGeneration K) (c : rpContactPointInfo K) :
    c ∈ storedContacts g ↔ ∃ i, i < g.mNbContacts ∧ g.mInfoContacts i = c := by
  simp [storedContacts]

theorem storedContacts_of_zero (g : rpContactGeneration K) (h : g.mNbContacts = 0) :
    storedContacts g = [] := by
  simp [storedContacts, h]

theorem storedContacts_addInfoContact (g : rpContactGeneration K)
    (info : rpContactPointInfo K) :
    storedContacts (addInfoContact g info) = storedContacts g ++ [info] := by
  unfold storedContacts
  rw [addInfoContact_mNbContacts, List.range_succ, List.map_append]
  congr 1
  · apply List.map_congr_left
    intro i hi
    rw [addInfoContact_mInfoContacts, if_neg]
    exact (List.mem_range.mp hi).ne
  · simp [addInfoContact_mInfoContacts]

theorem storedContacts_swapAllLocalPoints (g : rpContactGeneration K) :
    storedContacts (swapAllLocalPoints g) = (storedContacts g).map swapLocalPoints := by
  rw [swapAllLocalPoints_eq]
  unfold storedContacts
  rw [List.map_map]
  apply List.map_congr_left
  intro i hi
  simp only [Function.comp]
  rw [if_pos (List.mem_range.mp hi)]

theorem polygonContactStep_eq (n : Vector3 K) (d : K) (g : rpContactGeneration K)
    (PB : Vector3 K) :
    polygonContactStep n d g PB =
      if polygonRetained n d PB = true then
        addInfoContact g (polygonContact g.mSeparatonAxis n d PB)
      else g := by
  unfold polygonContactStep polygonRetained polygonContact
  simp only [decide_eq_true_eq]

theorem polygonFold_mSeparatonAxis (n : Vector3 K) (d : K) (out : List (Vector3 K))
    (g : rpContactGeneration K) :
    (out.foldl (polygonContactStep n d) g).mSeparatonAxis = g.mSeparatonAxis := by
  induction out generalizing g with
  | nil => rfl
  | cons PB rest ih =>
    rw [List.foldl_cons, ih, polygonContactStep_eq]
    split <;> rfl

theorem polygonFold_storedContacts (n : Vector3 K) (d : K) (out : List (Vector3 K))
    (g : rpContactGeneration K) :
    storedContacts (out.foldl (polygonContactStep n d) g) =
      storedContacts g ++
        (out.filter (polygonRetained n d)).map (polygonContact g.mSeparatonAxis n d) := by
  induction out generalizing g with
  | nil => simp
  | cons PB rest ih =>
    rw [List.foldl_cons, ih, polygonContactStep_eq]
    by_cases h : polygonRetained n d PB = true
    · rw [if_pos h, storedContacts_addInfoContact, addInfoContact_mSeparatonAxis,
        List.filter_cons_of_pos h, List.map_cons, List.append_assoc]
      rfl
    · rw [if_neg h, List.filter_cons_of_neg h]

/-- The contacts stored after `CollidePolygonContacts`: those stored before, followed by
one contact for each clipped vertex that passes the test `dist <= 0`, in the order of
the clipper's output; nothing is added when the clipper reports no clipping. -/
theorem CollidePolygonContacts_storedContacts (ext : Externals K)
    (g : rpContactGeneration K) (Poly Clipper : List (Vector3 K)) :
    storedContacts (CollidePolygonContacts ext g Poly Clipper) =
      storedContacts g ++
        if (ext.rpQuickClippingPolygons Poly Clipper).isComputeClippingToPoly = true then
          ((ext.rpQuickClippingPolygons Poly Clipper).outClippingPoints.filter
            (polygonRetained
              (ext.planeNormal (vertexAt Poly 0) (vertexAt Poly 1) (vertexAt Poly 2))
              (Vector3.dot (vertexAt Poly 0)
                (ext.planeNormal (vertexAt Poly 0) (vertexAt Poly 1) (vertexAt Poly 2))))).map
            (polygonContact g.mSeparatonAxis
              (ext.planeNormal (vertexAt Poly 0) (vertexAt Poly 1) (vertexAt Poly 2))
              (Vector3.dot (vertexAt Poly 0)
                (ext.planeNormal (vertexAt Poly 0) (vertexAt Poly 1) (vertexAt Poly 2))))
        else [] := by
  unfold CollidePolygonContacts
  simp only
  split
  · exact polygonFold_storedContacts _ _ _ g
  · simp

theorem CollidePolygonContacts_mSeparatonAxis (ext : Externals K)
    (g : rpContactGeneration K) (Poly Clipper : List (Vector3 K)) :
    (CollidePolygonContacts ext g Poly Clipper).mSeparatonAxis = g.mSeparatonAxis := by
  unfold CollidePolygonContacts
  simp only
  split
  · exact polygonFold_mSeparatonAxis _ _ _ g
  · rfl

end Stored

/-! ## The polygon path -/

section PolygonPath

variable {K : Type} [LinearOrderedField K]

end PolygonPath

/-! ## Sample evaluations: the polygon path -/

section PolygonPathSamples

end PolygonPathSamples

/-! ## `computeContacteOverlappingPair` -/

section Compute

variable {K : Type} [LinearOrderedField K]

theorem contactLoopStep_eq (approximationCorretion : Bool) (transform_1 transform_2 : Transform K)
    (st : rpContactGeneration K × rpOverlappingPair K) (i : Nat) :
    contactLoopStep approximationCorretion transform_1 transform_2 st i =
      ({ st.1 with
          mInfoContacts := Function.update st.1.mInfoContacts i
            (registeredContact approximationCorretion transform_1 transform_2
              (st.1.mInfoContacts i)) },
        createContact st.2
          (registeredContact approximationCorretion transform_1 transform_2
            (st.1.mInfoContacts i))) := by
  cases approximationCorretion <;> rfl

/-- The registration loop run over the first `n` buffer entries: each of them is replaced
by its registered form, and the registered forms are appended to the pair in index order. -/
theorem contactFold_spec (approximationCorretion : Bool) (transform_1 transform_2 : Transform K)
    (n : Nat) (g : rpContactGeneration K) (pair : rpOverlappingPair K) :
    (List.range n).foldl (contactLoopStep approximationCorretion transform_1 transform_2)
        (g, pair) =
      ({ g with mInfoContacts := fun i =>
          if i < n then
            registeredContact approximationCorretion transform_1 transform_2 (g.mInfoContacts i)
          else g.mInfoContacts i },
        ⟨pair.contactPoints ++ (List.range n).map (fun i =>
          registeredContact approximationCorretion transform_1 transform_2
            (g.mInfoContacts i))⟩) := by
  induction n with
  | zero => simp
  | succ n ih =>
    rw [List.range_succ, List.foldl_append, ih]
    simp only [List.foldl_cons, List.foldl_nil, contactLoopStep_eq, createContact,
      List.map_append, List.map_cons, List.map_nil, lt_irrefl, if_false, List.append_assoc]
    congr 2
    funext i
    simp only [Function.update_apply]
    by_cases h1 : i = n
    · subst h1; simp
    · by_cases h2 : i < n
      · simp [h1, h2, Nat.lt_succ_of_lt h2]
      · have h3 : ¬ i < n + 1 := by omega
        simp [h1, h2, h3]

/-- The contacts of the pair after `computeContacteOverlappingPair`: the registered forms
of the contacts stored by the conversion, in index order, when the conversion returned
true, and none otherwise. -/
theorem computeContacteOverlappingPair_contactPoints (ext : Externals K)
    (g : rpContactGeneration K) (OverlappingPair : rpOverlappingPair K)
    (approximationCorretion : Bool) :
    (computeContacteOverlappingPair ext g OverlappingPair
      approximationCorretion).2.contactPoints =
      if (ConvertSupportPointsToContacts ext g
          (g.mShape1.getAxisPeturberationPoints g.mSeparatonAxis)
          (g.mShape2.getAxisPeturberationPoints (-g.mSeparatonAxis))).2 = true then
        (storedContacts (ConvertSupportPointsToContacts ext g
          (g.mShape1.getAxisPeturberationPoints g.mSeparatonAxis)
          (g.mShape2.getAxisPeturberationPoints (-g.mSeparatonAxis))).1).map
          (registeredContact approximationCorretion g.mShape1.getWorldTransform
            g.mShape2.getWorldTransform)
      else [] := by
  unfold computeContacteOverlappingPair
  simp only
  split
  · rw [contactFold_spec]
    simp [clearContactPoints, storedContacts, List.map_map, Function.comp]
  · rfl

end Compute

/-! ## Normals of the registered contacts -/

section Normals

variable {K : Type} [LinearOrderedField K]

theorem storedContacts_single (g : rpContactGeneration K) (c : rpContactPointInfo K) :
    storedContacts (addInfoContact { g with mNbContacts := 0 } c) = [c] := by
  rw [storedContacts_addInfoContact, storedContacts_of_zero _ rfl]
  rfl

/-- Every contact stored by a conversion of two non-empty support sets carries the
separating axis as its normal. -/
theorem Convert_storedContacts_normal (ext : Externals K) (g : rpContactGeneration K)
    (SupportVertA SupportVertB : List (Vector3 K))
    (hA : SupportVertA.length ≠ 0) (hB : SupportVertB.length ≠ 0)
    (c : rpContactPointInfo K)
    (hc : c ∈ storedContacts (ConvertSupportPointsToContacts ext g SupportVertA
      SupportVertB).1) : c.normal = g.mSeparatonAxis := by
  have hpoly : ∀ P C, ∀ c' ∈ storedContacts
      (CollidePolygonContacts ext { g with mNbContacts := 0 } P C),
      c'.normal = g.mSeparatonAxis := by
    intro P C c' hc'
    rw [CollidePolygonContacts_storedContacts, storedContacts_of_zero _ rfl,
      List.nil_append] at hc'
    split at hc'
    · rw [List.mem_map] at hc'
      obtain ⟨PB, -, rfl⟩ := hc'
      rfl
    · simp at hc'
  have hswap : ∀ P C, ∀ c' ∈ storedContacts (swapAllLocalPoints
      (CollidePolygonContacts ext { g with mNbContacts := 0 } P C)),
      c'.normal = g.mSeparatonAxis := by
    intro P C c' hc'
    rw [storedContacts_swapAllLocalPoints, List.mem_map] at hc'
    obtain ⟨c'', h'', rfl⟩ := hc'
    exact hpoly P C c'' h''
  by_cases a1 : SupportVertA.length = 1
  · by_cases b1 : SupportVertB.length = 1
    · rw [Convert_point_point ext g _ _ a1 b1] at hc
      simp only [CollidePointPointContacts, storedContacts_single, List.mem_singleton] at hc
      rw [hc]
    · by_cases b2 : SupportVertB.length = 2
      · rw [Convert_point_edge ext g _ _ a1 b2] at hc
        simp only [CollidePointEdgeContacts, storedContacts_single, List.mem_singleton] at hc
        rw [hc]
      · rw [Convert_point_face ext g _ _ a1 (by omega)] at hc
        simp only [CollidePointFaceContacts, storedContacts_single, List.mem_singleton] at hc
        rw [hc]
  · by_cases a2 : SupportVertA.length = 2
    · by_cases b1 : SupportVertB.length = 1
      · rw [Convert_edge_point ext g _ _ a2 b1] at hc
        simp only [CollidePointEdgeContacts, storedContacts_single, List.mem_singleton] at hc
        rw [hc]
      · by_cases b2 : SupportVertB.length = 2
        · rw [Convert_edge_edge ext g _ _ a2 b2] at hc
          simp only [CollideEdgeEdgeContacts, storedContacts_single, List.mem_singleton] at hc
          rw [hc]
        · rw [Convert_edge_face ext g _ _ a2 (by omega)] at hc
          exact hswap _ _ c hc
    · by_cases b1 : SupportVertB.length = 1
      · rw [Convert_face_point ext g _ _ (by omega) b1] at hc
        simp only [CollidePointFaceContacts, storedContacts_single, List.mem_singleton] at hc
        rw [hc]
      · by_cases b2 : SupportVertB.length = 2
        · rw [Convert_face_edge ext g _ _ (by omega) b2] at hc
          exact hpoly _ _ c hc
        · rw [Convert_face_face ext g _ _ (by omega) (by omega)] at hc
          split at hc
          · exact hpoly _ _ c hc
          · exact hswap _ _ c hc

theorem registeredContact_normal (approximationCorretion : Bool)
    (transform_1 transform_2 : Transform K) (c : rpContactPointInfo K) :
    (registeredContact approximationCorretion transform_1 transform_2 c).normal = -c.normal := by
  cases approximationCorretion <;> rfl

/-- Every contact registered by `computeContacteOverlappingPair` has the negated separating
axis as its normal. -/
theorem computeContacteOverlappingPair_normal (ext : Externals K)
    (g : rpContactGeneration K) (OverlappingPair : rpOverlappingPair K)
    (approximationCorretion : Bool) (c : rpContactPointInfo K)
    (hc : c ∈ (computeContacteOverlappingPair ext g OverlappingPair
      approximationCorretion).2.contactPoints) : c.normal = -g.mSeparatonAxis := by
  rw [computeContacteOverlappingPair_contactPoints] at hc
  split at hc
  · next htrue =>
    rw [List.mem_map] at hc
    obtain ⟨c0, h0, rfl⟩ := hc
    rw [registeredContact_normal]
    congr 1
    by_cases hA : (g.mShape1.getAxisPeturberationPoints g.mSeparatonAxis).length = 0
    · rw [ConvertSupportPointsToContacts_of_empty ext g _ _ (Or.inl hA)] at htrue
      simp at htrue
    · by_cases hB : (g.mShape2.getAxisPeturberationPoints (-g.mSeparatonAxis)).length = 0
      · rw [ConvertSupportPointsToContacts_of_empty ext g _ _ (Or.inr hB)] at htrue
        simp at htrue
      · exact Convert_storedContacts_normal ext g _ _ hA hB c0 h0
  · simp at hc

end Normals

/-! ## Registration: normals, points and order -/

section Registration

variable {K : Type} [LinearOrderedField K]

theorem IsSqrt.one {sqrt : K → K} (hs : IsSqrt sqrt) : sqrt 1 = 1 := by
  have h := hs.of_mul_self 1
  rwa [mul_one, abs_one] at h

end Registration

/-! ## Reference face and exchanged roles -/

section Roles

variable {K : Type} [LinearOrderedField K]

theorem Convert_snd (ext : Externals K) (g : rpContactGeneration K)
    (SupportVertA SupportVertB : List (Vector3 K))
    (hA : SupportVertA.length ≠ 0) (hB : SupportVertB.length ≠ 0) :
    (ConvertSupportPointsToContacts ext g SupportVertA SupportVertB).2 =
      decide ((ConvertSupportPointsToContacts ext g SupportVertA SupportVertB).1.mNbContacts
        > 0) := by
  unfold ConvertSupportPointsToContacts
  simp only [hA, hB, or_self, if_false]

theorem swapLocalPoints_eq (c : rpContactPointInfo K) :
    swapLocalPoints c = ⟨c.normal, c.penetration, c.localPoint2, c.localPoint1⟩ := rfl

/-- C16: in the face-face case (both counts >= 3), with angleA the angle between the
normal of A's face and the axis and angleB the angle between the normal of B's face and
the negated axis: when angleA <= angleB (so also on an exact tie) the result is that of
`CollidePolygonContacts(A-verts, B-verts)` with no exchange of points; otherwise it is that
of `CollidePolygonContacts(B-verts, A-verts)` with localPoint1 and localPoint2 of every
stored contact exchanged. -/
theorem C16_face_face_reference_choice (ext : Externals K) (g : rpContactGeneration K)
    (SupportVertA SupportVertB : List (Vector3 K))
    (hA : 3 ≤ SupportVertA.length) (hB : 3 ≤ SupportVertB.length) :
    (ext.AngleBetweenVectors
          (ext.planeNormal (vertexAt SupportVertA 0) (vertexAt SupportVertA 1)
            (vertexAt SupportVertA 2)) g.mSeparatonAxis ≤
        ext.AngleBetweenVectors
          (ext.planeNormal (vertexAt SupportVertB 0) (vertexAt SupportVertB 1)
            (vertexAt SupportVertB 2)) (-g.mSeparatonAxis) →
      (ConvertSupportPointsToContacts ext g SupportVertA SupportVertB).1 =
        CollidePolygonContacts ext { g with mNbContacts := 0 } SupportVertA SupportVertB) ∧
    (ext.AngleBetweenVectors
          (ext.planeNormal (vertexAt SupportVertA 0) (vertexAt SupportVertA 1)
            (vertexAt SupportVertA 2)) g.mSeparatonAxis =
        ext.AngleBetweenVectors
          (ext.planeNormal (vertexAt SupportVertB 0) (vertexAt SupportVertB 1)
            (vertexAt SupportVertB 2)) (-g.mSeparatonAxis) →
      (ConvertSupportPointsToContacts ext g SupportVertA SupportVertB).1 =
        CollidePolygonContacts ext { g with mNbContacts := 0 } SupportVertA SupportVertB) ∧
    (¬ ext.AngleBetweenVectors
          (ext.planeNormal (vertexAt SupportVertA 0) (vertexAt SupportVertA 1)
            (vertexAt SupportVertA 2)) g.mSeparatonAxis ≤
        ext.AngleBetweenVectors
          (ext.planeNormal (vertexAt SupportVertB 0) (vertexAt SupportVertB 1)
            (vertexAt SupportVertB 2)) (-g.mSeparatonAxis) →
      (ConvertSupportPointsToContacts ext g SupportVertA SupportVertB).1 =
        swapAllLocalPoints
          (CollidePolygonContacts ext { g with mNbContacts := 0 } SupportVertB
            SupportVertA) ∧
      storedContacts (ConvertSupportPointsToContacts ext g SupportVertA SupportVertB).1 =
        (storedContacts (CollidePolygonContacts ext { g with mNbContacts := 0 } SupportVertB
            SupportVertA)).map
          (fun c => ⟨c.normal, c.penetration, c.localPoint2, c.localPoint1⟩)) := by
  have h := Convert_face_face ext g SupportVertA SupportVertB hA hB
  refine ⟨?_, ?_, ?_⟩
  · intro hle
    rw [h, if_pos hle]
  · intro heq
    rw [h, if_pos heq.le]
  · intro hnle
    rw [h, if_neg hnle]
    exact ⟨rfl, storedContacts_swapAllLocalPoints _⟩

/-- C17: for every edge E (2 vertices) and face F (at least 3 vertices),
`ConvertSupportPointsToContacts` with (A = E, B = F) returns the same boolean and stores the
same number of contacts, in the same order and with the same normals and penetrations, as
with (A = F, B = E), except that localPoint1 and localPoint2 of every contact are
exchanged. -/
theorem C17_edge_face_roles_exchanged (ext : Externals K) (g : rpContactGeneration K)
    (E F : List (Vector3 K)) (hE : E.length = 2) (hF : 3 ≤ F.length) :
    (ConvertSupportPointsToContacts ext g E F).2 =
      (ConvertSupportPointsToContacts ext g F E).2 ∧
    (ConvertSupportPointsToContacts ext g E F).1.mNbContacts =
      (ConvertSupportPointsToContacts ext g F E).1.mNbContacts ∧
    storedContacts (ConvertSupportPointsToContacts ext g E F).1 =
      (storedContacts (ConvertSupportPointsToContacts ext g F E).1).map
        (fun c => ⟨c.normal, c.penetration, c.localPoint2, c.localPoint1⟩) := by
  have hEF := Convert_edge_face ext g E F hE hF
  have hFE := Convert_face_edge ext g F E hF hE
  have hcount : (ConvertSupportPointsToContacts ext g E F).1.mNbContacts =
      (ConvertSupportPointsToContacts ext g F E).1.mNbContacts := by
    rw [hEF, hFE, swapAllLocalPoints_mNbContacts]
  refine ⟨?_, hcount, ?_⟩
  · rw [Convert_snd ext g E F (by omega) (by omega),
      Convert_snd ext g F E (by omega) (by omega), hcount]
  · rw [hEF, hFE, storedContacts_swapAllLocalPoints]
    rfl

end Roles

/-! ## The normals of the registered contacts -/

section RegisteredNormals

variable {K : Type} [LinearOrderedField K]

end RegisteredNormals

/-! ## Sample evaluations: registration and roles -/

section RolesSamples

theorem sample_angle_le :
    (sampleExternals Real.sqrt Real.arccos).AngleBetweenVectors
        ((sampleExternals Real.sqrt Real.arccos).planeNormal
          (vertexAt (sampleTriangle : List (Vector3 ℝ)) 0) (vertexAt sampleTriangle 1)
          (vertexAt sampleTriangle 2))
        (sampleGenerator sampleTriangle sampleTriangle : rpContactGeneration ℝ).mSeparatonAxis ≤
      (sampleExternals Real.sqrt Real.arccos).AngleBetweenVectors
        ((sampleExternals Real.sqrt Real.arccos).planeNormal
          (vertexAt (sampleTriangle : List (Vector3 ℝ)) 0) (vertexAt sampleTriangle 1)
          (vertexAt sampleTriangle 2))
        (-(sampleGenerator sampleTriangle sampleTriangle :
          rpContactGeneration ℝ).mSeparatonAxis) := by
  have hn : (sampleExternals Real.sqrt Real.arccos).planeNormal
      (vertexAt (sampleTriangle : List (Vector3 ℝ)) 0) (vertexAt sampleTriangle 1)
      (vertexAt sampleTriangle 2) = ⟨0, 0, 1⟩ := sample_planeNormal_triangle
  rw [hn]
  have h1 : (sampleExternals Real.sqrt Real.arccos).AngleBetweenVectors
      (⟨0, 0, 1⟩ : Vector3 ℝ)
      (sampleGenerator sampleTriangle sampleTriangle : rpContactGeneration ℝ).mSeparatonAxis
      = 0 := by
    simp [sampleExternals, sampleGenerator, Vector3.dot, Vector3.length, Vector3.lengthSquare]
  rw [h1]
  exact Real.arccos_nonneg _

/-- C16 at a sample input: the triangle (0,0,0), (1,0,0), (0,1,0) as the face of both
shapes and the axis (0,0,1); angleA = 0, so A's face is the reference. -/
theorem C16_face_face_reference_choice_witness :
    (ConvertSupportPointsToContacts (sampleExternals Real.sqrt Real.arccos)
      (sampleGenerator sampleTriangle sampleTriangle) sampleTriangle sampleTriangle).1 =
      CollidePolygonContacts (sampleExternals Real.sqrt Real.arccos)
        { (sampleGenerator sampleTriangle sampleTriangle : rpContactGeneration ℝ) with
          mNbContacts := 0 }
        sampleTriangle sampleTriangle :=
  (C16_face_face_reference_choice (sampleExternals Real.sqrt Real.arccos)
    (sampleGenerator sampleTriangle sampleTriangle) sampleTriangle sampleTriangle
    (by simp [sampleTriangle]) (by simp [sampleTriangle])).1 sample_angle_le

/-- C17 at a sample input: the edge one unit below the triangle (0,0,0), (1,0,0),
(0,1,0). -/
theorem C17_edge_face_roles_exchanged_witness :
    (ConvertSupportPointsToContacts (sampleExternals Real.sqrt Real.arccos)
      (sampleGenerator sampleEdgeBelow sampleTriangle) sampleEdgeBelow sampleTriangle).2 =
      (ConvertSupportPointsToContacts (sampleExternals Real.sqrt Real.arccos)
        (sampleGenerator sampleEdgeBelow sampleTriangle) sampleTriangle sampleEdgeBelow).2 ∧
    (ConvertSupportPointsToContacts (sampleExternals Real.sqrt Real.arccos)
      (sampleGenerator sampleEdgeBelow sampleTriangle) sampleEdgeBelow
      sampleTriangle).1.mNbContacts =
      (ConvertSupportPointsToContacts (sampleExternals Real.sqrt Real.arccos)
        (sampleGenerator sampleEdgeBelow sampleTriangle) sampleTriangle
        sampleEdgeBelow).1.mNbContacts ∧
    storedContacts (ConvertSupportPointsToContacts (sampleExternals Real.sqrt Real.arccos)
      (sampleGenerator sampleEdgeBelow sampleTriangle) sampleEdgeBelow sampleTriangle).1 =
      (storedContacts (ConvertSupportPointsToContacts
        (sampleExternals Real.sqrt Real.arccos)
        (sampleGenerator sampleEdgeBelow sampleTriangle) sampleTriangle
        sampleEdgeBelow).1).map
        (fun c => ⟨c.normal, c.penetration, c.localPoint2, c.localPoint1⟩) :=
  C17_edge_face_roles_exchanged (sampleExternals Real.sqrt Real.arccos)
    (sampleGenerator sampleEdgeBelow sampleTriangle) sampleEdgeBelow sampleTriangle
    (by simp [sampleEdgeBelow]) (by simp [sampleTriangle])

end RolesSamples

/-! ## Which shape each point of a single contact belongs to -/

section PointRoles

variable {K : Type} [LinearOrderedField K]

/-- The projection `A - (A.n - bd) n` of a point onto the plane n.p = bd, for a unit
normal n, lies on the plane. -/
theorem dot_projection_eq (A n : Vector3 K) (bd : K) (hn : Vector3.lengthSquare n = 1) :
    Vector3.dot (A - Vector3.scalarMul (Vector3.dot A n - bd) n) n = bd := by
  have : Vector3.dot (A - Vector3.scalarMul (Vector3.dot A n - bd) n) n =
      Vector3.dot A n - (Vector3.dot A n - bd) * Vector3.lengthSquare n := by
    simp only [Vector3.dot, Vector3.lengthSquare, Vector3.scalarMul, Vector3.sub_x,
      Vector3.sub_y, Vector3.sub_z]
    ring
  rw [this, hn]
  ring

theorem Convert_one_one_contact (ext : Externals K) (g : rpContactGeneration K)
    (a0 b0 : Vector3 K) :
    (ConvertSupportPointsToContacts ext g [a0] [b0]).1.mInfoContacts 0 =
      ⟨g.mSeparatonAxis, Vector3.length ext.sqrt (a0 - b0), a0, b0⟩ := by
  rw [Convert_point_point ext g [a0] [b0] rfl rfl]
  simp [CollidePointPointContacts, addInfoContact, vertexAt]

theorem Convert_one_two_contact (ext : Externals K) (g : rpContactGeneration K)
    (a0 b0 b1 : Vector3 K) :
    (ConvertSupportPointsToContacts ext g [a0] [b0, b1]).1.mInfoContacts 0 =
      ⟨g.mSeparatonAxis, Vector3.length ext.sqrt (a0 - ClosestPointOnLine ext.sqrt b0 b1 a0),
        a0, ClosestPointOnLine ext.sqrt b0 b1 a0⟩ := by
  rw [Convert_point_edge ext g [a0] [b0, b1] rfl rfl]
  simp [CollidePointEdgeContacts, addInfoContact, vertexAt]

theorem Convert_two_one_contact (ext : Externals K) (g : rpContactGeneration K)
    (a0 a1 b0 : Vector3 K) :
    (ConvertSupportPointsToContacts ext g [a0, a1] [b0]).1.mInfoContacts 0 =
      ⟨g.mSeparatonAxis, Vector3.length ext.sqrt (b0 - ClosestPointOnLine ext.sqrt a0 a1 b0),
        b0, ClosestPointOnLine ext.sqrt a0 a1 b0⟩ := by
  rw [Convert_edge_point ext g [a0, a1] [b0] rfl rfl]
  simp [CollidePointEdgeContacts, addInfoContact, vertexAt]

theorem Convert_one_face_contact (ext : Externals K) (g : rpContactGeneration K)
    (a0 b0 b1 b2 : Vector3 K) (rest : List (Vector3 K)) :
    (ConvertSupportPointsToContacts ext g [a0] (b0 :: b1 :: b2 :: rest)).1.mInfoContacts 0 =
      ⟨g.mSeparatonAxis,
        Vector3.length ext.sqrt (a0 - (a0 - Vector3.scalarMul
          (Vector3.dot a0 (ext.planeNormal b0 b1 b2) -
            Vector3.dot (ext.planeNormal b0 b1 b2) b0) (ext.planeNormal b0 b1 b2))),
        a0,
        a0 - Vector3.scalarMul
          (Vector3.dot a0 (ext.planeNormal b0 b1 b2) -
            Vector3.dot (ext.planeNormal b0 b1 b2) b0) (ext.planeNormal b0 b1 b2)⟩ := by
  rw [Convert_point_face ext g [a0] (b0 :: b1 :: b2 :: rest) rfl (by simp)]
  simp [CollidePointFaceContacts, addInfoContact, vertexAt]

theorem Convert_face_one_contact (ext : Externals K) (g : rpContactGeneration K)
    (a0 a1 a2 b0 : Vector3 K) (rest : List (Vector3 K)) :
    (ConvertSupportPointsToContacts ext g (a0 :: a1 :: a2 :: rest) [b0]).1.mInfoContacts 0 =
      ⟨g.mSeparatonAxis,
        Vector3.length ext.sqrt (b0 - (b0 - Vector3.scalarMul
          (Vector3.dot b0 (ext.planeNormal a0 a1 a2) -
            Vector3.dot (ext.planeNormal a0 a1 a2) a0) (ext.planeNormal a0 a1 a2))),
        b0,
        b0 - Vector3.scalarMul
          (Vector3.dot b0 (ext.planeNormal a0 a1 a2) -
            Vector3.dot (ext.planeNormal a0 a1 a2) a0) (ext.planeNormal a0 a1 a2)⟩ := by
  rw [Convert_face_point ext g (a0 :: a1 :: a2 :: rest) [b0] (by simp) rfl]
  simp [CollidePointFaceContacts, addInfoContact, vertexAt]

/-- C18 (amended): in the single-contact cases where shape A contributes one vertex (1/1,
1/2, 1/>=3), localPoint1 is A's vertex and localPoint2 is a point of B's support feature
(B's vertex, a point of B's edge, a point of B's face plane for a unit normal).  In the
cases 2/1 and >=3/1 the roles are exchanged: localPoint1 is B's vertex and localPoint2 is a
point of A's edge, resp. of A's face plane.  In the case 2/2, when `LineLineIntersect`
succeeds, localPoint1 lies on the line of B's edge and localPoint2 on the line of A's. -/
theorem C18_single_contact_point_roles (ext : Externals K) (hs : IsSqrt ext.sqrt)
    (g : rpContactGeneration K) (a0 a1 a2 b0 b1 b2 : Vector3 K)
    (restA restB : List (Vector3 K)) :
    (((ConvertSupportPointsToContacts ext g [a0] [b0]).1.mInfoContacts 0).localPoint1 = a0 ∧
      ((ConvertSupportPointsToContacts ext g [a0] [b0]).1.mInfoContacts 0).localPoint2 = b0) ∧
    (((ConvertSupportPointsToContacts ext g [a0] [b0, b1]).1.mInfoContacts 0).localPoint1
        = a0 ∧
      (b0 ≠ b1 → ∃ s : K, 0 ≤ s ∧ s ≤ 1 ∧
        ((ConvertSupportPointsToContacts ext g [a0] [b0, b1]).1.mInfoContacts 0).localPoint2
          = b0 + Vector3.scalarMul s (b1 - b0))) ∧
    (((ConvertSupportPointsToContacts ext g [a0] (b0 :: b1 :: b2 :: restB)).1.mInfoContacts
        0).localPoint1 = a0 ∧
      (Vector3.lengthSquare (ext.planeNormal b0 b1 b2) = 1 →
        Vector3.dot
          ((ConvertSupportPointsToContacts ext g [a0]
            (b0 :: b1 :: b2 :: restB)).1.mInfoContacts 0).localPoint2
          (ext.planeNormal b0 b1 b2) = Vector3.dot (ext.planeNormal b0 b1 b2) b0)) ∧
    (((ConvertSupportPointsToContacts ext g [a0, a1] [b0]).1.mInfoContacts 0).localPoint1
        = b0 ∧
      (a0 ≠ a1 → ∃ s : K, 0 ≤ s ∧ s ≤ 1 ∧
        ((ConvertSupportPointsToContacts ext g [a0, a1] [b0]).1.mInfoContacts 0).localPoint2
          = a0 + Vector3.scalarMul s (a1 - a0))) ∧
    (((ConvertSupportPointsToContacts ext g (a0 :: a1 :: a2 :: restA) [b0]).1.mInfoContacts
        0).localPoint1 = b0 ∧
      (Vector3.lengthSquare (ext.planeNormal a0 a1 a2) = 1 →
        Vector3.dot
          ((ConvertSupportPointsToContacts ext g (a0 :: a1 :: a2 :: restA)
            [b0]).1.mInfoContacts 0).localPoint2
          (ext.planeNormal a0 a1 a2) = Vector3.dot (ext.planeNormal a0 a1 a2) a0)) ∧
    ((LineLineIntersect a0 a1 b0 b1 Vector3.zero Vector3.zero).1 = true →
      ∃ mua mub : K,
        ((ConvertSupportPointsToContacts ext g [a0, a1] [b0, b1]).1.mInfoContacts
          0).localPoint1 = b0 + Vector3.scalarMul mub (b1 - b0) ∧
        ((ConvertSupportPointsToContacts ext g [a0, a1] [b0, b1]).1.mInfoContacts
          0).localPoint2 = a0 + Vector3.scalarMul mua (a1 - a0)) := by
  refine ⟨?_, ?_, ?_, ?_, ?_, ?_⟩
  · rw [Convert_one_one_contact]
    exact ⟨rfl, rfl⟩
  · rw [Convert_one_two_contact]
    refine ⟨rfl, fun hne => ?_⟩
    obtain ⟨s, h0, h1, hC, -⟩ := ClosestPointOnLine_spec hs a0 b0 b1 hne
    exact ⟨s, h0, h1, hC⟩
  · rw [Convert_one_face_contact]
    exact ⟨rfl, fun hn => dot_projection_eq a0 _ _ hn⟩
  · rw [Convert_two_one_contact]
    refine ⟨rfl, fun hne => ?_⟩
    obtain ⟨s, h0, h1, hC, -⟩ := ClosestPointOnLine_spec hs b0 a0 a1 hne
    exact ⟨s, h0, h1, hC⟩
  · rw [Convert_face_one_contact]
    exact ⟨rfl, fun hn => dot_projection_eq b0 _ _ hn⟩
  · intro hgate
    obtain ⟨mua, mub, hr, -, -, -, -⟩ :=
      LineLineIntersect_of_true a0 a1 b0 b1 Vector3.zero Vector3.zero hgate
    refine ⟨mua, mub, ?_, ?_⟩
    · rw [Convert_two_two_contact, hr]
    · rw [Convert_two_two_contact, hr]

end PointRoles

/-! ## Sample evaluations: point roles -/

section PointRolesSamples

/-- C18 (amended) at a sample input: in the case 2/1 the first point is B's vertex. -/
theorem C18_single_contact_point_roles_witness :
    ((ConvertSupportPointsToContacts (sampleExternals Real.sqrt Real.arccos)
      (sampleGenerator [⟨0, 0, 0⟩, ⟨1, 0, 0⟩] [⟨1 / 2, 1, 0⟩])
      [⟨0, 0, 0⟩, ⟨1, 0, 0⟩] [⟨1 / 2, 1, 0⟩]).1.mInfoContacts 0).localPoint1 =
      ⟨1 / 2, 1, 0⟩ :=
  (C18_single_contact_point_roles (sampleExternals Real.sqrt Real.arccos) Real_isSqrt
    (sampleGenerator [⟨0, 0, 0⟩, ⟨1, 0, 0⟩] [⟨1 / 2, 1, 0⟩])
    ⟨0, 0, 0⟩ ⟨1, 0, 0⟩ ⟨0, 1, 0⟩ ⟨1 / 2, 1, 0⟩ ⟨1, 1, 0⟩ ⟨0, 1, 0⟩ [] []).2.2.2.1.1

/-- C18 as stated fails: in the case 2/1, with A's edge [(0,0,0),(1,0,0)] and B's vertex
(1/2, 1, 0), the stored contact has localPoint1 = (1/2, 1, 0), B's vertex, which is not a
point of the line of A's edge, and localPoint2 = (1/2, 0, 0), a point of A's edge and not
B's vertex. -/
theorem C18_edge_point_first_point_is_B_vertex :
    (ConvertSupportPointsToContacts (sampleExternals Real.sqrt Real.arccos)
      (sampleGenerator [⟨0, 0, 0⟩, ⟨1, 0, 0⟩] [⟨1 / 2, 1, 0⟩])
      [⟨0, 0, 0⟩, ⟨1, 0, 0⟩] [⟨1 / 2, 1, 0⟩]).1.mInfoContacts 0 =
      ⟨⟨0, 0, 1⟩, 1, ⟨1 / 2, 1, 0⟩, ⟨1 / 2, 0, 0⟩⟩ ∧
    (∀ s : ℝ, (⟨1 / 2, 1, 0⟩ : Vector3 ℝ) ≠
      ⟨0, 0, 0⟩ + Vector3.scalarMul s (⟨1, 0, 0⟩ - ⟨0, 0, 0⟩)) ∧
    (⟨1 / 2, 0, 0⟩ : Vector3 ℝ) ≠ ⟨1 / 2, 1, 0⟩ := by
  refine ⟨?_, ?_, ?_⟩
  · rw [Convert_two_one_contact]
    have hc : ClosestPointOnLine (sampleExternals Real.sqrt Real.arccos).sqrt
        (⟨0, 0, 0⟩ : Vector3 ℝ) ⟨1, 0, 0⟩ ⟨1 / 2, 1, 0⟩ = ⟨1 / 2, 0, 0⟩ :=
      sample_ClosestPointOnLine
    rw [hc]
    norm_num [sampleExternals, sampleGenerator, Vector3.length, Vector3.lengthSquare]
  · intro s h
    rw [Vector3.ext_iff3] at h
    simp [Vector3.scalarMul] at h
  · intro h
    rw [Vector3.ext_iff3] at h
    norm_num at h

end PointRolesSamples

/-! ## Slider joint descriptor and accessors -/

section SliderJointFacts

variable {Body K : Type} [LinearOrderedField K]

/-- C21 (amended): the two `rpSliderJointInfo` constructors that take limits do no
validation: a descriptor built with minTranslationLimit > maxTranslationLimit is returned
like any other, with limits enabled and the two limits stored as given, so that the stored
minimum exceeds the stored maximum. -/
theorem C21_inverted_limits_are_stored (rigidBody1 rigidBody2 : Body)
    (initAnchorPointWorldSpace initSliderAxisWorldSpace : Vector3 K)
    (initMinTranslationLimit initMaxTranslationLimit initMotorSpeed initMaxMotorForce : K)
    (h : initMinTranslationLimit > initMaxTranslationLimit) :
    ((rpSliderJointInfo.newWithLimits rigidBody1 rigidBody2 initAnchorPointWorldSpace
        initSliderAxisWorldSpace initMinTranslationLimit
        initMaxTranslationLimit).isLimitEnabled = true ∧
      (rpSliderJointInfo.newWithLimits rigidBody1 rigidBody2 initAnchorPointWorldSpace
        initSliderAxisWorldSpace initMinTranslationLimit
        initMaxTranslationLimit).minTranslationLimit = initMinTranslationLimit ∧
      (rpSliderJointInfo.newWithLimits rigidBody1 rigidBody2 initAnchorPointWorldSpace
        initSliderAxisWorldSpace initMinTranslationLimit
        initMaxTranslationLimit).maxTranslationLimit = initMaxTranslationLimit ∧
      (rpSliderJointInfo.newWithLimits rigidBody1 rigidBody2 initAnchorPointWorldSpace
        initSliderAxisWorldSpace initMinTranslationLimit
        initMaxTranslationLimit).minTranslationLimit >
      (rpSliderJointInfo.newWithLimits rigidBody1 rigidBody2 initAnchorPointWorldSpace
        initSliderAxisWorldSpace initMinTranslationLimit
        initMaxTranslationLimit).maxTranslationLimit) ∧
    ((rpSliderJointInfo.newWithLimitsAndMotor rigidBody1 rigidBody2
        initAnchorPointWorldSpace initSliderAxisWorldSpace initMinTranslationLimit
        initMaxTranslationLimit initMotorSpeed initMaxMotorForce).isLimitEnabled = true ∧
      (rpSliderJointInfo.newWithLimitsAndMotor rigidBody1 rigidBody2
        initAnchorPointWorldSpace initSliderAxisWorldSpace initMinTranslationLimit
        initMaxTranslationLimit initMotorSpeed initMaxMotorForce).minTranslationLimit =
        initMinTranslationLimit ∧
      (rpSliderJointInfo.newWithLimitsAndMotor rigidBody1 rigidBody2
        initAnchorPointWorldSpace initSliderAxisWorldSpace initMinTranslationLimit
        initMaxTranslationLimit initMotorSpeed initMaxMotorForce).maxTranslationLimit =
        initMaxTranslationLimit ∧
      (rpSliderJointInfo.newWithLimitsAndMotor rigidBody1 rigidBody2
        initAnchorPointWorldSpace initSliderAxisWorldSpace initMinTranslationLimit
        initMaxTranslationLimit initMotorSpeed initMaxMotorForce).minTranslationLimit >
      (rpSliderJointInfo.newWithLimitsAndMotor rigidBody1 rigidBody2
        initAnchorPointWorldSpace initSliderAxisWorldSpace initMinTranslationLimit
        initMaxTranslationLimit initMotorSpeed initMaxMotorForce).maxTranslationLimit) :=
  ⟨⟨rfl, rfl, rfl, h⟩, ⟨rfl, rfl, rfl, h⟩⟩

/-- C22: each `rpSliderJointInfo` constructor yields the descriptor its documentation
names.  Without limits and motor: both disabled, limits -1 and 1, motor speed and maximum
motor force 0.  With limits and no motor: limits enabled, motor disabled, the given limits,
motor speed and maximum motor force 0.  With limits and motor: both enabled, the given
limits, speed and force.  All three store the bodies, the anchor and the axis unchanged and
the joint type SLIDERJOINT. -/
theorem C22_constructors_build_documented_descriptor (rigidBody1 rigidBody2 : Body)
    (initAnchorPointWorldSpace initSliderAxisWorldSpace : Vector3 K)
    (initMinTranslationLimit initMaxTranslationLimit initMotorSpeed initMaxMotorForce : K) :
    (rpSliderJointInfo.new rigidBody1 rigidBody2 initAnchorPointWorldSpace
        initSliderAxisWorldSpace : rpSliderJointInfo Body K) =
      { body1 := rigidBody1, body2 := rigidBody2, type := JointType.SLIDERJOINT,
        anchorPointWorldSpace := initAnchorPointWorldSpace,
        sliderAxisWorldSpace := initSliderAxisWorldSpace,
        isLimitEnabled := false, isMotorEnabled := false,
        minTranslationLimit := -1, maxTranslationLimit := 1,
        motorSpeed := 0, maxMotorForce := 0 } ∧
    (rpSliderJointInfo.newWithLimits rigidBody1 rigidBody2 initAnchorPointWorldSpace
        initSliderAxisWorldSpace initMinTranslationLimit initMaxTranslationLimit :
        rpSliderJointInfo Body K) =
      { body1 := rigidBody1, body2 := rigidBody2, type := JointType.SLIDERJOINT,
        anchorPointWorldSpace := initAnchorPointWorldSpace,
        sliderAxisWorldSpace := initSliderAxisWorldSpace,
        isLimitEnabled := true, isMotorEnabled := false,
        minTranslationLimit := initMinTranslationLimit,
        maxTranslationLimit := initMaxTranslationLimit,
        motorSpeed := 0, maxMotorForce := 0 } ∧
    (rpSliderJointInfo.newWithLimitsAndMotor rigidBody1 rigidBody2
        initAnchorPointWorldSpace initSliderAxisWorldSpace initMinTranslationLimit
        initMaxTranslationLimit initMotorSpeed initMaxMotorForce :
        rpSliderJointInfo Body K) =
      { body1 := rigidBody1, body2 := rigidBody2, type := JointType.SLIDERJOINT,
        anchorPointWorldSpace := initAnchorPointWorldSpace,
        sliderAxisWorldSpace := initSliderAxisWorldSpace,
        isLimitEnabled := true, isMotorEnabled := true,
        minTranslationLimit := initMinTranslationLimit,
        maxTranslationLimit := initMaxTranslationLimit,
        motorSpeed := initMotorSpeed, maxMotorForce := initMaxMotorForce } :=
  ⟨rfl, rfl, rfl⟩

/-- C23: for every joint state and every non-zero time step dt, `getMotorForce(dt)` is the
accumulated motor impulse divided by dt, so `getMotorForce(dt) * dt = mImpulseMotor`; the
other accessors return the stored members.  All of them are const member functions: they
are functions of the joint state and return no new state. -/
theorem C23_getMotorForce_is_impulse_over_dt (j : rpSliderJoint K) (dt : K) (hdt : dt ≠ 0) :
    j.getMotorForce dt = j.mImpulseMotor / dt ∧
    j.getMotorForce dt * dt = j.mImpulseMotor ∧
    j.isLimitEnabled = j.mIsLimitEnabled ∧
    j.isMotorEnabled = j.mIsMotorEnabled ∧
    j.getMinTranslationLimit = j.mLowerLimit ∧
    j.getMaxTranslationLimit = j.mUpperLimit ∧
    j.getMotorSpeed = j.mMotorSpeed ∧
    j.getMaxMotorForce = j.mMaxMotorForce := by
  refine ⟨rfl, ?_, rfl, rfl, rfl, rfl, rfl, rfl⟩
  unfold rpSliderJoint.getMotorForce
  exact div_mul_cancel₀ _ hdt

end SliderJointFacts

/-! ## Sample evaluations: slider joint -/

section SliderJointSamples

/-- C21 (amended) at a sample input: limits 2 and 1. -/
theorem C21_inverted_limits_are_stored_witness :
    (rpSliderJointInfo.newWithLimits (0 : Nat) 1 (⟨0, 0, 0⟩ : Vector3 ℚ) ⟨1, 0, 0⟩
      2 1).minTranslationLimit >
    (rpSliderJointInfo.newWithLimits (0 : Nat) 1 (⟨0, 0, 0⟩ : Vector3 ℚ) ⟨1, 0, 0⟩
      2 1).maxTranslationLimit :=
  (C21_inverted_limits_are_stored (0 : Nat) 1 (⟨0, 0, 0⟩ : Vector3 ℚ) ⟨1, 0, 0⟩ 2 1 0 0
    (by norm_num)).1.2.2.2

/-- C21 as stated fails: built with minTranslationLimit = 2 and maxTranslationLimit = 1,
both constructors with limits return a descriptor with limits enabled that holds 2 as
minimum and 1 as maximum; nothing is rejected or reported. -/
theorem C21_descriptor_with_min_above_max :
    (rpSliderJointInfo.newWithLimits (0 : Nat) 1 (⟨0, 0, 0⟩ : Vector3 ℚ) ⟨1, 0, 0⟩ 2 1) =
      { body1 := 0, body2 := 1, type := JointType.SLIDERJOINT,
        anchorPointWorldSpace := ⟨0, 0, 0⟩, sliderAxisWorldSpace := ⟨1, 0, 0⟩,
        isLimitEnabled := true, isMotorEnabled := false,
        minTranslationLimit := 2, maxTranslationLimit := 1,
        motorSpeed := 0, maxMotorForce := 0 } ∧
    (rpSliderJointInfo.newWithLimitsAndMotor (0 : Nat) 1 (⟨0, 0, 0⟩ : Vector3 ℚ) ⟨1, 0, 0⟩
        2 1 3 4) =
      { body1 := 0, body2 := 1, type := JointType.SLIDERJOINT,
        anchorPointWorldSpace := ⟨0, 0, 0⟩, sliderAxisWorldSpace := ⟨1, 0, 0⟩,
        isLimitEnabled := true, isMotorEnabled := true,
        minTranslationLimit := 2, maxTranslationLimit := 1,
        motorSpeed := 3, maxMotorForce := 4 } ∧
    (2 : ℚ) > 1 :=
  ⟨rfl, rfl, by norm_num⟩

/-- C23 at a sample input: accumulated motor impulse 3 and time step 1/60. -/
theorem C23_getMotorForce_is_impulse_over_dt_witness :
    (⟨0, 0, 3, true, true, -1, 1, false, false, 2, 10⟩ : rpSliderJoint ℚ).getMotorForce
        (1 / 60) * (1 / 60) = 3 :=
  (C23_getMotorForce_is_impulse_over_dt
    (⟨0, 0, 3, true, true, -1, 1, false, false, 2, 10⟩ : rpSliderJoint ℚ) (1 / 60)
    (by norm_num)).2.1

end SliderJointSamples

/-! ## `LineLineIntersect`: outputs, orthogonality, parallel lines -/

section LineLineOutputs

variable {K : Type} [LinearOrderedField K]

/-- The result of `LineLineIntersect` when it returns true, with the values of `mua` and
`mub` the code computes. -/
theorem LineLineIntersect_eq_of_true (p1 p2 p3 p4 pa pb : Vector3 K)
    (h : (LineLineIntersect p1 p2 p3 p4 pa pb).1 = true) :
    LineLineIntersect p1 p2 p3 p4 pa pb =
      (true, p3 + Vector3.scalarMul (lineMub p1 p2 p3 p4) (p4 - p3),
        p1 + Vector3.scalarMul (lineMua p1 p2 p3 p4) (p2 - p1)) := by
  unfold LineLineIntersect at h ⊢
  simp only at h ⊢
  split_ifs at h ⊢
  rfl

theorem dot_sub_swap (a b c : Vector3 K) :
    Vector3.dot (a - b) c = -Vector3.dot (b - a) c := by
  simp only [Vector3.dot, Vector3.sub_x, Vector3.sub_y, Vector3.sub_z]
  ring

/-- C28: whenever `LineLineIntersect(p1, p2, p3, p4)` returns true, the vector joining its
two output points is orthogonal to both direction vectors p2 - p1 and p4 - p3, and the two
outputs are mutually closest points of the two lines: no point of the first line and point
of the second are closer to each other (exact arithmetic). -/
theorem C28_outputs_joined_by_common_perpendicular (p1 p2 p3 p4 pa pb : Vector3 K)
    (h : (LineLineIntersect p1 p2 p3 p4 pa pb).1 = true) :
    Vector3.dot ((LineLineIntersect p1 p2 p3 p4 pa pb).2.1 -
      (LineLineIntersect p1 p2 p3 p4 pa pb).2.2) (p2 - p1) = 0 ∧
    Vector3.dot ((LineLineIntersect p1 p2 p3 p4 pa pb).2.1 -
      (LineLineIntersect p1 p2 p3 p4 pa pb).2.2) (p4 - p3) = 0 ∧
    ∀ s t : K,
      Vector3.lengthSquare ((LineLineIntersect p1 p2 p3 p4 pa pb).2.1 -
        (LineLineIntersect p1 p2 p3 p4 pa pb).2.2) ≤
      Vector3.lengthSquare ((p1 + Vector3.scalarMul s (p2 - p1)) -
        (p3 + Vector3.scalarMul t (p4 - p3))) := by
  obtain ⟨mua, mub, hr, h1, h2, -, -⟩ := LineLineIntersect_of_true p1 p2 p3 p4 pa pb h
  rw [hr]
  refine ⟨?_, ?_, ?_⟩
  · show Vector3.dot ((p3 + Vector3.scalarMul mub (p4 - p3)) -
      (p1 + Vector3.scalarMul mua (p2 - p1))) (p2 - p1) = 0
    rw [dot_sub_swap, h1, neg_zero]
  · show Vector3.dot ((p3 + Vector3.scalarMul mub (p4 - p3)) -
      (p1 + Vector3.scalarMul mua (p2 - p1))) (p4 - p3) = 0
    rw [dot_sub_swap, h2, neg_zero]
  · intro s t
    show Vector3.lengthSquare ((p3 + Vector3.scalarMul mub (p4 - p3)) -
      (p1 + Vector3.scalarMul mua (p2 - p1))) ≤ _
    rw [lengthSquare_sub_comm]
    simp only [Vector3.dot, Vector3.add_x, Vector3.add_y, Vector3.add_z,
      Vector3.scalarMul, Vector3.sub_x, Vector3.sub_y, Vector3.sub_z] at h1 h2
    have key := lengthSquare_le_of_orthogonal
      (p1.x + mua * (p2.x - p1.x) - (p3.x + mub * (p4.x - p3.x)))
      (p1.y + mua * (p2.y - p1.y) - (p3.y + mub * (p4.y - p3.y)))
      (p1.z + mua * (p2.z - p1.z) - (p3.z + mub * (p4.z - p3.z)))
      (p2.x - p1.x) (p2.y - p1.y) (p2.z - p1.z) (p4.x - p3.x) (p4.y - p3.y) (p4.z - p3.z)
      (s - mua) (t - mub) h1 h2
    simp only [Vector3.lengthSquare, Vector3.add_x, Vector3.add_y, Vector3.add_z,
      Vector3.scalarMul, Vector3.sub_x, Vector3.sub_y, Vector3.sub_z]
    have ex : p1.x + s * (p2.x - p1.x) - (p3.x + t * (p4.x - p3.x)) =
        p1.x + mua * (p2.x - p1.x) - (p3.x + mub * (p4.x - p3.x)) +
          (s - mua) * (p2.x - p1.x) - (t - mub) * (p4.x - p3.x) := by ring
    have ey : p1.y + s * (p2.y - p1.y) - (p3.y + t * (p4.y - p3.y)) =
        p1.y + mua * (p2.y - p1.y) - (p3.y + mub * (p4.y - p3.y)) +
          (s - mua) * (p2.y - p1.y) - (t - mub) * (p4.y - p3.y) := by ring
    have ez : p1.z + s * (p2.z - p1.z) - (p3.z + t * (p4.z - p3.z)) =
        p1.z + mua * (p2.z - p1.z) - (p3.z + mub * (p4.z - p3.z)) +
          (s - mua) * (p2.z - p1.z) - (t - mub) * (p4.z - p3.z) := by ring
    rw [ex, ey, ez]
    exact key

/-- Whether `LineLineIntersect` returns true does not depend on the initial values of the
two output parameters. -/
theorem LineLineIntersect_fst_indep (p1 p2 p3 p4 pa pb qa qb : Vector3 K) :
    (LineLineIntersect p1 p2 p3 p4 pa pb).1 = (LineLineIntersect p1 p2 p3 p4 qa qb).1 := by
  unfold LineLineIntersect
  simp only
  split_ifs <;> rfl

/-- C29: whenever `LineLineIntersect(p1, p2, p3, p4, pa, pb)` returns true, the outputs
come back exchanged: `*pa` is the point p3 + mub (p4 - p3) of the second line and `*pb` the
point p1 + mua (p2 - p1) of the first line; so the first point of the edge-edge contact
built from A's edge [p1, p2] and B's edge [p3, p4] lies on the line of B's edge and the
second on the line of A's edge. -/
theorem C29_outputs_are_swapped (ext : Externals K) (g : rpContactGeneration K)
    (p1 p2 p3 p4 pa pb : Vector3 K)
    (h : (LineLineIntersect p1 p2 p3 p4 pa pb).1 = true) :
    (LineLineIntersect p1 p2 p3 p4 pa pb).2.1 =
      p3 + Vector3.scalarMul (lineMub p1 p2 p3 p4) (p4 - p3) ∧
    (LineLineIntersect p1 p2 p3 p4 pa pb).2.2 =
      p1 + Vector3.scalarMul (lineMua p1 p2 p3 p4) (p2 - p1) ∧
    ((ConvertSupportPointsToContacts ext g [p1, p2] [p3, p4]).1.mInfoContacts
        0).localPoint1 = p3 + Vector3.scalarMul (lineMub p1 p2 p3 p4) (p4 - p3) ∧
    ((ConvertSupportPointsToContacts ext g [p1, p2] [p3, p4]).1.mInfoContacts
        0).localPoint2 = p1 + Vector3.scalarMul (lineMua p1 p2 p3 p4) (p2 - p1) := by
  have h0 : (LineLineIntersect p1 p2 p3 p4 Vector3.zero Vector3.zero).1 = true := by
    rw [← h]
    exact LineLineIntersect_fst_indep p1 p2 p3 p4 _ _ _ _
  rw [Convert_two_two_contact,
    LineLineIntersect_eq_of_true p1 p2 p3 p4 Vector3.zero Vector3.zero h0,
    LineLineIntersect_eq_of_true p1 p2 p3 p4 pa pb h]
  exact ⟨rfl, rfl, rfl, rfl⟩

/-- For parallel direction vectors the denominator of `LineLineIntersect` is zero. -/
theorem denom_eq_zero_of_parallel (ux uy uz vx vy vz k : K)
    (ex : ux = k * vx) (ey : uy = k * vy) (ez : uz = k * vz) :
    (ux * ux + uy * uy + uz * uz) * (vx * vx + vy * vy + vz * vz) -
      (vx * ux + vy * uy + vz * uz) * (vx * ux + vy * uy + vz * uz) = 0 := by
  rw [ex, ey, ez]
  ring

/-- C30: for every pair of segments with parallel direction vectors (p2 - p1 a scalar
multiple of p4 - p3), denom = |p21|^2 |p43|^2 - (p43.p21)^2 is exactly 0, hence below EPS,
and `LineLineIntersect` returns false, leaving its two outputs untouched. -/
theorem C30_parallel_lines_are_rejected (p1 p2 p3 p4 pa pb : Vector3 K) (k : K)
    (hpar : p2 - p1 = Vector3.scalarMul k (p4 - p3)) :
    Vector3.dot (p2 - p1) (p2 - p1) * Vector3.dot (p4 - p3) (p4 - p3) -
      Vector3.dot (p4 - p3) (p2 - p1) * Vector3.dot (p4 - p3) (p2 - p1) = 0 ∧
    LineLineIntersect p1 p2 p3 p4 pa pb = (false, pa, pb) := by
  have hx : (p2 - p1).x = k * (p4 - p3).x := by rw [hpar]; rfl
  have hy : (p2 - p1).y = k * (p4 - p3).y := by rw [hpar]; rfl
  have hz : (p2 - p1).z = k * (p4 - p3).z := by rw [hpar]; rfl
  have hden := denom_eq_zero_of_parallel (p2 - p1).x (p2 - p1).y (p2 - p1).z
    (p4 - p3).x (p4 - p3).y (p4 - p3).z k hx hy hz
  refine ⟨hden, ?_⟩
  apply LineLineIntersect_of_false
  unfold LineLineIntersect
  simp only
  split_ifs with g1 g2 g3
  · rfl
  · rfl
  · rfl
  · exfalso
    apply g3
    rw [hden, abs_zero]
    exact EPS_pos

end LineLineOutputs

/-! ## Sample evaluations: `LineLineIntersect` outputs -/

section LineLineOutputSamples

/-- C28 at a sample input: the skew lines through (0,0,0), (1,0,0) and through (3,-1,1),
(3,1,1). -/
theorem C28_outputs_joined_by_common_perpendicular_witness :
    (LineLineIntersect (⟨0, 0, 0⟩ : Vector3 ℝ) ⟨1, 0, 0⟩ ⟨3, -1, 1⟩ ⟨3, 1, 1⟩
        Vector3.zero Vector3.zero).1 = true ∧
    Vector3.dot ((LineLineIntersect (⟨0, 0, 0⟩ : Vector3 ℝ) ⟨1, 0, 0⟩ ⟨3, -1, 1⟩ ⟨3, 1, 1⟩
        Vector3.zero Vector3.zero).2.1 -
      (LineLineIntersect (⟨0, 0, 0⟩ : Vector3 ℝ) ⟨1, 0, 0⟩ ⟨3, -1, 1⟩ ⟨3, 1, 1⟩
        Vector3.zero Vector3.zero).2.2) (⟨1, 0, 0⟩ - ⟨0, 0, 0⟩) = 0 ∧
    Vector3.dot ((LineLineIntersect (⟨0, 0, 0⟩ : Vector3 ℝ) ⟨1, 0, 0⟩ ⟨3, -1, 1⟩ ⟨3, 1, 1⟩
        Vector3.zero Vector3.zero).2.1 -
      (LineLineIntersect (⟨0, 0, 0⟩ : Vector3 ℝ) ⟨1, 0, 0⟩ ⟨3, -1, 1⟩ ⟨3, 1, 1⟩
        Vector3.zero Vector3.zero).2.2) (⟨3, 1, 1⟩ - ⟨3, -1, 1⟩) = 0 :=
  ⟨by rw [sample_LineLineIntersect_skew],
   (C28_outputs_joined_by_common_perpendicular ⟨0, 0, 0⟩ ⟨1, 0, 0⟩ ⟨3, -1, 1⟩ ⟨3, 1, 1⟩
      Vector3.zero Vector3.zero (by rw [sample_LineLineIntersect_skew])).1,
   (C28_outputs_joined_by_common_perpendicular ⟨0, 0, 0⟩ ⟨1, 0, 0⟩ ⟨3, -1, 1⟩ ⟨3, 1, 1⟩
      Vector3.zero Vector3.zero (by rw [sample_LineLineIntersect_skew])).2.1⟩

/-- C29 at a sample input: A's edge [(0,0,0),(1,0,0)] and B's edge [(3,-1,1),(3,1,1)];
the first output and first contact point is (3,0,1), on B's line, and the second is
(3,0,0), on A's line. -/
theorem C29_outputs_are_swapped_witness :
    (LineLineIntersect (⟨0, 0, 0⟩ : Vector3 ℝ) ⟨1, 0, 0⟩ ⟨3, -1, 1⟩ ⟨3, 1, 1⟩
        Vector3.zero Vector3.zero).1 = true ∧
    (LineLineIntersect (⟨0, 0, 0⟩ : Vector3 ℝ) ⟨1, 0, 0⟩ ⟨3, -1, 1⟩ ⟨3, 1, 1⟩
        Vector3.zero Vector3.zero).2.1 = ⟨3, 0, 1⟩ ∧
    ((ConvertSupportPointsToContacts (sampleExternals Real.sqrt Real.arccos)
        (sampleGenerator [] []) [⟨0, 0, 0⟩, ⟨1, 0, 0⟩] [⟨3, -1, 1⟩, ⟨3, 1, 1⟩]).1.mInfoContacts
        0).localPoint1 =
      ⟨3, -1, 1⟩ + Vector3.scalarMul
        (lineMub (⟨0, 0, 0⟩ : Vector3 ℝ) ⟨1, 0, 0⟩ ⟨3, -1, 1⟩ ⟨3, 1, 1⟩)
        (⟨3, 1, 1⟩ - ⟨3, -1, 1⟩) ∧
    ((ConvertSupportPointsToContacts (sampleExternals Real.sqrt Real.arccos)
        (sampleGenerator [] []) [⟨0, 0, 0⟩, ⟨1, 0, 0⟩] [⟨3, -1, 1⟩, ⟨3, 1, 1⟩]).1.mInfoContacts
        0).localPoint2 =
      ⟨0, 0, 0⟩ + Vector3.scalarMul
        (lineMua (⟨0, 0, 0⟩ : Vector3 ℝ) ⟨1, 0, 0⟩ ⟨3, -1, 1⟩ ⟨3, 1, 1⟩)
        (⟨1, 0, 0⟩ - ⟨0, 0, 0⟩) :=
  ⟨by rw [sample_LineLineIntersect_skew],
   by rw [sample_LineLineIntersect_skew],
   (C29_outputs_are_swapped (sampleExternals Real.sqrt Real.arccos) (sampleGenerator [] [])
      ⟨0, 0, 0⟩ ⟨1, 0, 0⟩ ⟨3, -1, 1⟩ ⟨3, 1, 1⟩ Vector3.zero Vector3.zero
      (by rw [sample_LineLineIntersect_skew])).2.2⟩

/-- C30 at a sample input: the parallel segments [(0,0,0),(1,0,0)] and
[(0,1,0),(2,1,0)]. -/
theorem C30_parallel_lines_are_rejected_witness :
    ((⟨1, 0, 0⟩ : Vector3 ℝ) - ⟨0, 0, 0⟩ = Vector3.scalarMul (1 / 2) (⟨2, 1, 0⟩ - ⟨0, 1, 0⟩)) ∧
    LineLineIntersect (⟨0, 0, 0⟩ : Vector3 ℝ) ⟨1, 0, 0⟩ ⟨0, 1, 0⟩ ⟨2, 1, 0⟩
      Vector3.zero Vector3.zero = (false, Vector3.zero, Vector3.zero) :=
  ⟨by norm_num [Vector3.ext_iff3, Vector3.scalarMul],
   (C30_parallel_lines_are_rejected ⟨0, 0, 0⟩ ⟨1, 0, 0⟩ ⟨0, 1, 0⟩ ⟨2, 1, 0⟩
    Vector3.zero Vector3.zero (1 / 2)
    (by norm_num [Vector3.ext_iff3, Vector3.scalarMul])).2⟩

end LineLineOutputSamples

/-! ## `LineLineIntersect`: the divisors -/

section LineLineDivisors

variable {K : Type} [LinearOrderedField K]

/-- `LineLineIntersect` returns true exactly when its three gates are passed. -/
theorem LineLineIntersect_true_iff (p1 p2 p3 p4 pa pb : Vector3 K) :
    (LineLineIntersect p1 p2 p3 p4 pa pb).1 = true ↔
      ¬ (|(p4 - p3).x| < EPS ∧ |(p4 - p3).y| < EPS ∧ |(p4 - p3).z| < EPS) ∧
      ¬ (|(p2 - p1).x| < EPS ∧ |(p2 - p1).y| < EPS ∧ |(p2 - p1).z| < EPS) ∧
      ¬ |Vector3.dot (p2 - p1) (p2 - p1) * Vector3.dot (p4 - p3) (p4 - p3) -
          Vector3.dot (p4 - p3) (p2 - p1) * Vector3.dot (p4 - p3) (p2 - p1)| < EPS := by
  unfold LineLineIntersect Vector3.dot
  simp only
  split_ifs with g1 g2 g3
  · exact ⟨fun h => h.elim, fun h => absurd g1 h.1⟩
  · exact ⟨fun h => h.elim, fun h => absurd g2 h.2.1⟩
  · exact ⟨fun h => h.elim, fun h => absurd g3 h.2.2⟩
  · exact ⟨fun _ => ⟨g1, g2, g3⟩, fun _ => rfl⟩

/-- A vector that passes the component gate has squared length at least EPS squared. -/
theorem lengthSquare_ge_of_gate (v : Vector3 K)
    (h : ¬ (|v.x| < EPS ∧ |v.y| < EPS ∧ |v.z| < EPS)) :
    EPS * EPS ≤ Vector3.dot v v := by
  have hx := mul_self_nonneg v.x
  have hy := mul_self_nonneg v.y
  have hz := mul_self_nonneg v.z
  have hsq : ∀ a : K, ¬ |a| < EPS → EPS * EPS ≤ a * a := by
    intro a ha
    have h1 : EPS ≤ |a| := le_of_not_gt ha
    have h2 := mul_self_le_mul_self EPS_pos.le h1
    rwa [abs_mul_abs_self] at h2
  unfold Vector3.dot
  by_cases h1 : |v.x| < EPS
  · by_cases h2 : |v.y| < EPS
    · have h3 : ¬ |v.z| < EPS := fun h3 => h ⟨h1, h2, h3⟩
      have := hsq _ h3
      linarith
    · have := hsq _ h2
      linarith
  · have := hsq _ h1
    linarith

theorem checkedDiv_of_ne_zero (a b : K) (h : b ≠ 0) : checkedDiv a b = some (a / b) := by
  unfold checkedDiv
  rw [if_neg h]

theorem checkedDiv_zero (a : K) : checkedDiv a 0 = none := by
  unfold checkedDiv
  rw [if_pos rfl]

/-- The checked `LineLineIntersect` never fails: it returns what the function returns. -/
theorem Checked_LineLineIntersect_eq (p1 p2 p3 p4 pa pb : Vector3 K) :
    Checked.LineLineIntersect p1 p2 p3 p4 pa pb =
      some (LineLineIntersect p1 p2 p3 p4 pa pb) := by
  unfold Checked.LineLineIntersect LineLineIntersect
  simp only
  split_ifs with g1 g2 g3
  · rfl
  · rfl
  · rfl
  · have h43 : Vector3.dot (p4 - p3) (p4 - p3) ≠ 0 :=
      (lt_of_lt_of_le (mul_pos EPS_pos EPS_pos) (lengthSquare_ge_of_gate (p4 - p3) g1)).ne'
    rw [checkedDiv_of_ne_zero _ _ (ne_zero_of_gate _ g3)]
    simp only [Option.bind_eq_bind, Option.some_bind]
    unfold Vector3.dot at h43
    rw [checkedDiv_of_ne_zero _ _ h43]
    rfl

/-- C31: `LineLineIntersect` never divides by zero.  The function with both divisions
checked never fails and returns what `LineLineIntersect` returns, on every input.  On
every input that reaches the two divisions (neither direction vector has all its
components below EPS in magnitude, and |denom| >= EPS) the function returns true, the
division `numer / denom` has a non-zero divisor and gives mua, the division
`(d1343 + d4321 * mua) / d4343` has a non-zero divisor and gives mub, with
|denom| >= EPS > 0 and d4343 >= EPS^2 > 0. -/
theorem C31_divisors_are_nonzero (p1 p2 p3 p4 pa pb : Vector3 K) :
    Checked.LineLineIntersect p1 p2 p3 p4 pa pb =
      some (LineLineIntersect p1 p2 p3 p4 pa pb) ∧
    (¬ (|(p4 - p3).x| < EPS ∧ |(p4 - p3).y| < EPS ∧ |(p4 - p3).z| < EPS) →
      ¬ (|(p2 - p1).x| < EPS ∧ |(p2 - p1).y| < EPS ∧ |(p2 - p1).z| < EPS) →
      ¬ |Vector3.dot (p2 - p1) (p2 - p1) * Vector3.dot (p4 - p3) (p4 - p3) -
          Vector3.dot (p4 - p3) (p2 - p1) * Vector3.dot (p4 - p3) (p2 - p1)| < EPS →
      (LineLineIntersect p1 p2 p3 p4 pa pb).1 = true ∧
      checkedDiv
          (Vector3.dot (p1 - p3) (p4 - p3) * Vector3.dot (p4 - p3) (p2 - p1) -
            Vector3.dot (p1 - p3) (p2 - p1) * Vector3.dot (p4 - p3) (p4 - p3))
          (Vector3.dot (p2 - p1) (p2 - p1) * Vector3.dot (p4 - p3) (p4 - p3) -
            Vector3.dot (p4 - p3) (p2 - p1) * Vector3.dot (p4 - p3) (p2 - p1)) =
        some (lineMua p1 p2 p3 p4) ∧
      checkedDiv
          (Vector3.dot (p1 - p3) (p4 - p3) +
            Vector3.dot (p4 - p3) (p2 - p1) * lineMua p1 p2 p3 p4)
          (Vector3.dot (p4 - p3) (p4 - p3)) =
        some (lineMub p1 p2 p3 p4) ∧
      Vector3.dot (p2 - p1) (p2 - p1) * Vector3.dot (p4 - p3) (p4 - p3) -
        Vector3.dot (p4 - p3) (p2 - p1) * Vector3.dot (p4 - p3) (p2 - p1) ≠ 0 ∧
      Vector3.dot (p4 - p3) (p4 - p3) ≠ 0 ∧
      EPS ≤ |Vector3.dot (p2 - p1) (p2 - p1) * Vector3.dot (p4 - p3) (p4 - p3) -
        Vector3.dot (p4 - p3) (p2 - p1) * Vector3.dot (p4 - p3) (p2 - p1)| ∧
      EPS * EPS ≤ Vector3.dot (p4 - p3) (p4 - p3)) := by
  refine ⟨Checked_LineLineIntersect_eq p1 p2 p3 p4 pa pb, ?_⟩
  intro h43 h21 hden
  have h1 := lengthSquare_ge_of_gate (p4 - p3) h43
  have hpos : (0 : K) < EPS * EPS := mul_pos EPS_pos EPS_pos
  have hd : Vector3.dot (p4 - p3) (p4 - p3) ≠ 0 := (lt_of_lt_of_le hpos h1).ne'
  exact ⟨(LineLineIntersect_true_iff p1 p2 p3 p4 pa pb).mpr ⟨h43, h21, hden⟩,
    checkedDiv_of_ne_zero _ _ (ne_zero_of_gate _ hden),
    checkedDiv_of_ne_zero _ _ hd,
    ne_zero_of_gate _ hden, hd, le_of_not_gt hden, h1⟩

end LineLineDivisors

/-! ## The cases with a single support vertex -/

section SingleVertex

variable {K : Type} [LinearOrderedField K]

end SingleVertex

/-! ## The polygon path: the second contact point -/

section PolygonPlane

variable {K : Type} [LinearOrderedField K]

end PolygonPlane

/-! ## Sample evaluations: divisors, single vertex, polygon plane -/

section DivisorAndPlaneSamples

/-- C31 at a sample input: the skew lines through (0,0,0), (1,0,0) and through (3,-1,1),
(3,1,1), with denom = 4 and d4343 = 4: the checked function returns true with the points
(3,0,1) and (3,0,0). -/
theorem C31_divisors_are_nonzero_witness :
    Checked.LineLineIntersect (⟨0, 0, 0⟩ : Vector3 ℝ) ⟨1, 0, 0⟩ ⟨3, -1, 1⟩ ⟨3, 1, 1⟩
        Vector3.zero Vector3.zero = some (true, ⟨3, 0, 1⟩, ⟨3, 0, 0⟩) ∧
    checkedDiv
        (Vector3.dot ((⟨0, 0, 0⟩ : Vector3 ℝ) - ⟨3, -1, 1⟩) (⟨3, 1, 1⟩ - ⟨3, -1, 1⟩) *
            Vector3.dot ((⟨3, 1, 1⟩ : Vector3 ℝ) - ⟨3, -1, 1⟩) (⟨1, 0, 0⟩ - ⟨0, 0, 0⟩) -
          Vector3.dot ((⟨0, 0, 0⟩ : Vector3 ℝ) - ⟨3, -1, 1⟩) (⟨1, 0, 0⟩ - ⟨0, 0, 0⟩) *
            Vector3.dot ((⟨3, 1, 1⟩ : Vector3 ℝ) - ⟨3, -1, 1⟩) (⟨3, 1, 1⟩ - ⟨3, -1, 1⟩))
        (Vector3.dot ((⟨1, 0, 0⟩ : Vector3 ℝ) - ⟨0, 0, 0⟩) (⟨1, 0, 0⟩ - ⟨0, 0, 0⟩) *
            Vector3.dot ((⟨3, 1, 1⟩ : Vector3 ℝ) - ⟨3, -1, 1⟩) (⟨3, 1, 1⟩ - ⟨3, -1, 1⟩) -
          Vector3.dot ((⟨3, 1, 1⟩ : Vector3 ℝ) - ⟨3, -1, 1⟩) (⟨1, 0, 0⟩ - ⟨0, 0, 0⟩) *
            Vector3.dot ((⟨3, 1, 1⟩ : Vector3 ℝ) - ⟨3, -1, 1⟩) (⟨1, 0, 0⟩ - ⟨0, 0, 0⟩)) =
      some (lineMua (⟨0, 0, 0⟩ : Vector3 ℝ) ⟨1, 0, 0⟩ ⟨3, -1, 1⟩ ⟨3, 1, 1⟩) := by
  have h := C31_divisors_are_nonzero (⟨0, 0, 0⟩ : Vector3 ℝ) ⟨1, 0, 0⟩ ⟨3, -1, 1⟩ ⟨3, 1, 1⟩
    Vector3.zero Vector3.zero
  refine ⟨?_, (h.2
    (by norm_num [EPS, Vector3.sub_x, Vector3.sub_y, Vector3.sub_z])
    (by norm_num [EPS, Vector3.sub_x, Vector3.sub_y, Vector3.sub_z])
    (by norm_num [EPS, Vector3.dot, Vector3.sub_x, Vector3.sub_y, Vector3.sub_z])).2.1⟩
  rw [h.1, sample_LineLineIntersect_skew]

end DivisorAndPlaneSamples

/-! ## Array reads stay in bounds -/

section ReadBounds

variable {K : Type} [LinearOrderedField K]

theorem readVertex_of_lt (verts : List (Vector3 K)) (i : Nat) (h : i < verts.length) :
    readVertex verts i = some (vertexAt verts i) := by
  unfold readVertex vertexAt
  rw [List.getD_eq_getElem?_getD, List.getElem?_eq_getElem h]
  rfl

theorem readVertex_of_ge (verts : List (Vector3 K)) (i : Nat) (h : verts.length ≤ i) :
    readVertex verts i = none := by
  unfold readVertex
  exact List.getElem?_eq_none h

/-- With at least three vertices in the reference polygon the checked call succeeds and
agrees with the unchecked one. -/
theorem Checked_CollidePolygonContacts_of_three (ext : Externals K)
    (g : rpContactGeneration K) (Poly Clipper : List (Vector3 K)) (h : 3 ≤ Poly.length) :
    Checked.CollidePolygonContacts ext g Poly Clipper =
      some (CollidePolygonContacts ext g Poly Clipper) := by
  unfold Checked.CollidePolygonContacts CollidePolygonContacts
  rw [readVertex_of_lt Poly 0 (by omega), readVertex_of_lt Poly 1 (by omega),
    readVertex_of_lt Poly 2 (by omega)]
  simp only [Option.bind_eq_bind, Option.some_bind, Option.pure_def]
  split <;> rfl

/-- With fewer than three vertices in the reference polygon, and a clipper that reports a
clipping, the checked call fails: it reads past the end of the array. -/
theorem Checked_CollidePolygonContacts_of_short (ext : Externals K)
    (g : rpContactGeneration K) (Poly Clipper : List (Vector3 K)) (h : Poly.length < 3)
    (hclip : (ext.rpQuickClippingPolygons Poly Clipper).isComputeClippingToPoly = true) :
    Checked.CollidePolygonContacts ext g Poly Clipper = none := by
  unfold Checked.CollidePolygonContacts
  simp only [hclip, if_true]
  rw [readVertex_of_ge Poly 2 (by omega)]
  cases readVertex Poly 0 <;> cases readVertex Poly 1 <;> rfl

theorem Checked_Convert_eq (ext : Externals K) (g : rpContactGeneration K)
    (SupportVertA SupportVertB : List (Vector3 K)) :
    Checked.ConvertSupportPointsToContacts ext g SupportVertA SupportVertB =
      some (ConvertSupportPointsToContacts ext g SupportVertA SupportVertB) := by
  unfold Checked.ConvertSupportPointsToContacts ConvertSupportPointsToContacts
  simp only
  by_cases h0 : SupportVertA.length = 0 ∨ SupportVertB.length = 0
  · rw [if_pos h0, if_pos h0]; rfl
  rw [if_neg h0, if_neg h0]
  have hA0 : 0 < SupportVertA.length := by omega
  have hB0 : 0 < SupportVertB.length := by omega
  by_cases hA1 : SupportVertA.length = 1
  · by_cases hB1 : SupportVertB.length = 1
    · simp [hA1, hB1, readVertex_of_lt]
    · by_cases hB2 : SupportVertB.length = 2
      · simp [hA1, hB2, readVertex_of_lt]
      · have hB3 : 2 < SupportVertB.length := by omega
        have hB31 : 1 < SupportVertB.length := by omega
        simp [hA1, hB1, hB2, readVertex_of_lt, hB0, hB3, hB31]
  · by_cases hA2 : SupportVertA.length = 2
    · by_cases hB1 : SupportVertB.length = 1
      · simp [hA2, hB1, readVertex_of_lt]
      · by_cases hB2 : SupportVertB.length = 2
        · simp [hA2, hB2, readVertex_of_lt]
        · have hB3 : 3 ≤ SupportVertB.length := by omega
          simp [hA2, hB1, hB2, Checked_CollidePolygonContacts_of_three ext _ _ _ hB3]
    · have hA3 : 3 ≤ SupportVertA.length := by omega
      have hA32 : 2 < SupportVertA.length := by omega
      have hA31 : 1 < SupportVertA.length := by omega
      by_cases hB1 : SupportVertB.length = 1
      · simp [hA1, hA2, hA3, hB1, readVertex_of_lt, hA0, hA31, hA32]
      · by_cases hB2 : SupportVertB.length = 2
        · simp [hA1, hA2, hA3, hB2, Checked_CollidePolygonContacts_of_three ext _ _ _ hA3]
        · have hB3 : 3 ≤ SupportVertB.length := by omega
          have hB32 : 2 < SupportVertB.length := by omega
          have hB31 : 1 < SupportVertB.length := by omega
          simp only [hA1, hA2, hB1, hB2, if_false, ge_iff_le, hA3, hB3, if_true,
            readVertex_of_lt _ _ hA0, readVertex_of_lt _ _ hA31, readVertex_of_lt _ _ hA32,
            readVertex_of_lt _ _ hB0, readVertex_of_lt _ _ hB31, readVertex_of_lt _ _ hB32,
            Option.bind_eq_bind, Option.some_bind, Option.pure_def,
            Checked_CollidePolygonContacts_of_three ext _ _ _ hA3,
            Checked_CollidePolygonContacts_of_three ext _ _ _ hB3]
          split <;> rfl

/-- C33: every read of a support-vertex array made by `ConvertSupportPointsToContacts`, and
by the calls of `CollidePolygonContacts` it makes, is in bounds, whatever the clipper and
the plane-normal function do: the version with checked reads never fails and returns what
the function returns.  `CollidePolygonContacts` reads `Poly[0]`, `Poly[1]`, `Poly[2]`
only; the reads are in bounds when the reference polygon has at least three vertices, and
with fewer vertices and a clipper that reports a clipping they are not: so in the cases
2/>=3, >=3/2 and >=3/>=3 the reference polygon is always a side with at least three
vertices. -/
theorem C33_vertex_reads_are_in_bounds (ext : Externals K) (g : rpContactGeneration K)
    (SupportVertA SupportVertB Poly Clipper : List (Vector3 K)) :
    Checked.ConvertSupportPointsToContacts ext g SupportVertA SupportVertB =
      some (ConvertSupportPointsToContacts ext g SupportVertA SupportVertB) ∧
    (3 ≤ Poly.length →
      Checked.CollidePolygonContacts ext g Poly Clipper =
        some (CollidePolygonContacts ext g Poly Clipper)) ∧
    (Poly.length < 3 →
      (ext.rpQuickClippingPolygons Poly Clipper).isComputeClippingToPoly = true →
      Checked.CollidePolygonContacts ext g Poly Clipper = none) :=
  ⟨Checked_Convert_eq ext g SupportVertA SupportVertB,
    Checked_CollidePolygonContacts_of_three ext g Poly Clipper,
    Checked_CollidePolygonContacts_of_short ext g Poly Clipper⟩

end ReadBounds

end real_physics


namespace utility_engine

/-! ## `Matrix3::getInverse` -/

namespace Matrix3

variable {K : Type} [LinearOrderedField K]

theorem ext_iff9 {K : Type} (a b : Matrix3 K) :
    a = b ↔ a.m00 = b.m00 ∧ a.m01 = b.m01 ∧ a.m02 = b.m02 ∧
      a.m10 = b.m10 ∧ a.m11 = b.m11 ∧ a.m12 = b.m12 ∧
      a.m20 = b.m20 ∧ a.m21 = b.m21 ∧ a.m22 = b.m22 := by
  cases a; cases b; simp

theorem floatEpsilon_pos : (0 : K) < floatEpsilon := by
  unfold floatEpsilon
  positivity

/-- The matrix returned by `getInverse` when its assertion passes. -/
theorem getInverse_of_gt (a : Matrix3 K) (h : getDeterminant a > floatEpsilon) :
    getInverse a = some (mulFloat
      ⟨(a.m11 * a.m22 - a.m21 * a.m12), -(a.m01 * a.m22 - a.m21 * a.m02),
        (a.m01 * a.m12 - a.m02 * a.m11),
       -(a.m10 * a.m22 - a.m20 * a.m12), (a.m00 * a.m22 - a.m20 * a.m02),
        -(a.m00 * a.m12 - a.m10 * a.m02),
       (a.m10 * a.m21 - a.m20 * a.m11), -(a.m00 * a.m21 - a.m20 * a.m01),
        (a.m00 * a.m11 - a.m01 * a.m10)⟩ (1 / getDeterminant a)) := by
  unfold getInverse
  simp only [h, if_true]

theorem getInverse_eq_none_iff (a : Matrix3 K) :
    getInverse a = none ↔ ¬ getDeterminant a > floatEpsilon := by
  unfold getInverse
  simp only
  split <;> simp_all

/-- The adjugate scaled by 1/det is a two-sided inverse when det is not zero. -/
theorem mul_adjugate (a : Matrix3 K) (h : getDeterminant a ≠ 0) :
    mul a (mulFloat
      ⟨(a.m11 * a.m22 - a.m21 * a.m12), -(a.m01 * a.m22 - a.m21 * a.m02),
        (a.m01 * a.m12 - a.m02 * a.m11),
       -(a.m10 * a.m22 - a.m20 * a.m12), (a.m00 * a.m22 - a.m20 * a.m02),
        -(a.m00 * a.m12 - a.m10 * a.m02),
       (a.m10 * a.m21 - a.m20 * a.m11), -(a.m00 * a.m21 - a.m20 * a.m01),
        (a.m00 * a.m11 - a.m01 * a.m10)⟩ (1 / getDeterminant a)) = setToIdentity ∧
    mul (mulFloat
      ⟨(a.m11 * a.m22 - a.m21 * a.m12), -(a.m01 * a.m22 - a.m21 * a.m02),
        (a.m01 * a.m12 - a.m02 * a.m11),
       -(a.m10 * a.m22 - a.m20 * a.m12), (a.m00 * a.m22 - a.m20 * a.m02),
        -(a.m00 * a.m12 - a.m10 * a.m02),
       (a.m10 * a.m21 - a.m20 * a.m11), -(a.m00 * a.m21 - a.m20 * a.m01),
        (a.m00 * a.m11 - a.m01 * a.m10)⟩ (1 / getDeterminant a)) a = setToIdentity := by
  have hinv : getDeterminant a * (1 / getDeterminant a) = 1 := mul_one_div_cancel h
  generalize 1 / getDeterminant a = inv at hinv
  unfold getDeterminant at hinv
  constructor
  · rw [ext_iff9]
    simp only [mul, mulFloat, setToIdentity]
    refine ⟨?_, ?_, ?_, ?_, ?_, ?_, ?_, ?_, ?_⟩ <;>
      first | ring1 | linear_combination hinv
  · rw [ext_iff9]
    simp only [mul, mulFloat, setToIdentity]
    refine ⟨?_, ?_, ?_, ?_, ?_, ?_, ?_, ?_, ?_⟩ <;>
      first | ring1 | linear_combination hinv

theorem mulVector_mul (a b : Matrix3 K) (v : Vector3 K) :
    mulVector (mul a b) v = mulVector a (mulVector b v) := by
  simp only [mulVector, mul, Vector3.mk.injEq]
  refine ⟨?_, ?_, ?_⟩ <;> ring

theorem mulVector_setToIdentity (v : Vector3 K) : mulVector setToIdentity v = v := by
  cases v
  simp [mulVector, setToIdentity]

/-- C19: for every Matrix3 M accepted by `getInverse` (its assertion
determinant > epsilon passes), `getInverse` returns a matrix Minv such that, in exact
arithmetic, M * Minv and Minv * M are both the identity matrix, and so
Minv * (M * v) = v for every vector v. -/
theorem C19_getInverse_is_two_sided_inverse (M : Matrix3 K)
    (hdet : getDeterminant M > floatEpsilon) :
    ∃ Minv : Matrix3 K, getInverse M = some Minv ∧
      mul M Minv = setToIdentity ∧ mul Minv M = setToIdentity ∧
      ∀ v : Vector3 K, mulVector Minv (mulVector M v) = v := by
  have hne : getDeterminant M ≠ 0 := (lt_trans floatEpsilon_pos hdet).ne'
  obtain ⟨h1, h2⟩ := mul_adjugate M hne
  refine ⟨_, getInverse_of_gt M hdet, h1, h2, ?_⟩
  intro v
  rw [← mulVector_mul, h2, mulVector_setToIdentity]

end Matrix3

/-! ## Sample evaluations: `Matrix3::getInverse` -/

section MatrixSamples

/-- C19 at a sample input: the matrix with rows (2,1,0), (0,1,0), (0,0,1), of
determinant 2. -/
theorem C19_getInverse_is_two_sided_inverse_witness :
    ∃ Minv : Matrix3 ℚ, Matrix3.getInverse ⟨2, 1, 0, 0, 1, 0, 0, 0, 1⟩ = some Minv ∧
      Matrix3.mul ⟨2, 1, 0, 0, 1, 0, 0, 0, 1⟩ Minv = Matrix3.setToIdentity ∧
      Matrix3.mul Minv ⟨2, 1, 0, 0, 1, 0, 0, 0, 1⟩ = Matrix3.setToIdentity ∧
      ∀ v : Vector3 ℚ,
        Matrix3.mulVector Minv (Matrix3.mulVector ⟨2, 1, 0, 0, 1, 0, 0, 0, 1⟩ v) = v :=
  Matrix3.C19_getInverse_is_two_sided_inverse ⟨2, 1, 0, 0, 1, 0, 0, 0, 1⟩
    (by norm_num [Matrix3.getDeterminant, Matrix3.floatEpsilon])

/-- C20 fails on the code: the reflection with rows (-1,0,0), (0,1,0), (0,0,1) has
determinant -1, not zero, and is its own inverse, yet the assertion
determinant > epsilon of `getInverse` fails for it; so it does for the matrix with rows
(1/16777216,0,0), (0,1,0), (0,0,1), whose determinant 2^-24 is positive. -/
theorem C20_negative_determinant_is_rejected :
    Matrix3.getDeterminant (⟨-1, 0, 0, 0, 1, 0, 0, 0, 1⟩ : Matrix3 ℚ) = -1 ∧
    Matrix3.mul (⟨-1, 0, 0, 0, 1, 0, 0, 0, 1⟩ : Matrix3 ℚ) ⟨-1, 0, 0, 0, 1, 0, 0, 0, 1⟩ =
      Matrix3.setToIdentity ∧
    Matrix3.getInverse (⟨-1, 0, 0, 0, 1, 0, 0, 0, 1⟩ : Matrix3 ℚ) = none ∧
    Matrix3.getDeterminant (⟨1 / 16777216, 0, 0, 0, 1, 0, 0, 0, 1⟩ : Matrix3 ℚ) =
      1 / 16777216 ∧
    Matrix3.getInverse (⟨1 / 16777216, 0, 0, 0, 1, 0, 0, 0, 1⟩ : Matrix3 ℚ) = none := by
  refine ⟨?_, ?_, ?_, ?_, ?_⟩
  · norm_num [Matrix3.getDeterminant]
  · norm_num [Matrix3.mul, Matrix3.setToIdentity]
  · rw [Matrix3.getInverse_eq_none_iff]
    norm_num [Matrix3.getDeterminant, Matrix3.floatEpsilon]
  · norm_num [Matrix3.getDeterminant]
  · rw [Matrix3.getInverse_eq_none_iff]
    norm_num [Matrix3.getDeterminant, Matrix3.floatEpsilon]

end MatrixSamples
/-! ## `float` rounding: underflow and overflow -/

namespace Binary32

theorem roundHalfEven_of_le_half (n : ℚ) (h0 : 0 ≤ n) (h1 : n ≤ 1 / 2) :
    roundHalfEven n = 0 := by
  have hf : ⌊n⌋ = 0 := by
    rw [Int.floor_eq_iff]
    constructor
    · simpa using h0
    · norm_num
      linarith
  unfold roundHalfEven
  simp only [hf, Int.cast_zero, sub_zero]
  split_ifs with a b c
  · rfl
  · exact absurd (lt_of_lt_of_le b h1) (lt_irrefl _)
  · rfl
  · exact absurd (by decide : (0 : ℤ) % 2 = 0) c

theorem roundHalfEven_intCast (z : ℤ) : roundHalfEven (z : ℚ) = z := by
  unfold roundHalfEven
  simp

theorem le_roundHalfEven (z : ℤ) (n : ℚ) (h : (z : ℚ) ≤ n) : z ≤ roundHalfEven n := by
  have hf : z ≤ ⌊n⌋ := Int.le_floor.mpr h
  unfold roundHalfEven
  simp only
  split_ifs <;> omega

theorem ulp_pos (q : ℚ) : 0 < ulp q := by
  unfold ulp
  positivity

theorem ofRat_zero : ofRat 0 = finite 0 := by
  unfold ofRat
  simp [roundHalfEven_intCast, maxFinite]
  have := roundHalfEven_intCast 0
  simp at this
  simp [this]
  norm_num

/-- Underflow: an exact result of magnitude at most 2^-150, half the smallest positive
binary32 value, is rounded to zero. -/
theorem ofRat_of_le (q : ℚ) (h0 : 0 ≤ q) (h : q ≤ 1 / 2 ^ 150) : ofRat q = finite 0 := by
  rcases h0.lt_or_eq with hpos | hzero
  · have habs : |q| = q := abs_of_pos hpos
    have hlog : Int.log 2 |q| < -125 := by
      rw [← Int.lt_zpow_iff_log_lt (by norm_num) (by rw [habs]; exact hpos), habs]
      refine lt_of_le_of_lt h ?_
      norm_num
    have hu : ulp q = 1 / 2 ^ 149 := by
      unfold ulp
      rw [max_eq_right (by omega)]
      norm_num
    have hr : roundHalfEven (q / ulp q) = 0 := by
      apply roundHalfEven_of_le_half
      · exact div_nonneg h0 (ulp_pos q).le
      · rw [hu]
        have : q / (1 / 2 ^ 149) = q * 2 ^ 149 := by field_simp
        rw [this]
        calc q * 2 ^ 149 ≤ 1 / 2 ^ 150 * 2 ^ 149 := by
              apply mul_le_mul_of_nonneg_right h (by positivity)
          _ = 1 / 2 := by norm_num
    unfold ofRat
    simp only [hr, Int.cast_zero, zero_mul, abs_zero]
    rw [if_neg]
    unfold maxFinite
    norm_num
  · rw [← hzero]
    exact ofRat_zero

/-- Overflow: an exact result of at least 2^128 becomes +infinity. -/
theorem ofRat_of_ge (q : ℚ) (h : 2 ^ 128 ≤ q) : ofRat q = infinity false := by
  have hpos : 0 < q := lt_of_lt_of_le (by positivity) h
  have habs : |q| = q := abs_of_pos hpos
  have hlog : (128 : ℤ) ≤ Int.log 2 |q| := by
    rw [← Int.zpow_le_iff_le_log (by norm_num) (by rw [habs]; exact hpos), habs]
    refine le_trans ?_ h
    norm_num
  have hle : (2 : ℚ) ^ Int.log 2 |q| ≤ q := by
    have := Int.zpow_log_le_self (b := 2) (r := |q|) (by norm_num)
      (by rw [habs]; exact hpos)
    rw [habs] at this ⊢
    simpa using this
  have hU : ((2 ^ 23 : ℤ) : ℚ) * ulp q = 2 ^ Int.log 2 |q| := by
    unfold ulp
    rw [max_eq_left (by omega), zpow_sub₀ (by norm_num)]
    norm_num
    ring
  have h23 : ((2 ^ 23 : ℤ) : ℚ) ≤ q / ulp q := by
    rw [le_div_iff₀ (ulp_pos q), hU]
    exact hle
  have hr := le_roundHalfEven _ _ h23
  have hr2 : (2 : ℚ) ^ (128 : ℤ) ≤ (roundHalfEven (q / ulp q) : ℚ) * ulp q := by
    have h1 : ((2 ^ 23 : ℤ) : ℚ) ≤ (roundHalfEven (q / ulp q) : ℚ) := by exact_mod_cast hr
    calc (2 : ℚ) ^ (128 : ℤ) ≤ 2 ^ Int.log 2 |q| :=
          zpow_le_zpow_right₀ (by norm_num) hlog
      _ = ((2 ^ 23 : ℤ) : ℚ) * ulp q := hU.symm
      _ ≤ (roundHalfEven (q / ulp q) : ℚ) * ulp q :=
          mul_le_mul_of_nonneg_right h1 (ulp_pos q).le
  unfold ofRat
  simp only
  rw [if_pos]
  · simp [not_lt.mpr hpos.le]
  · rw [abs_of_nonneg (le_trans (by positivity) hr2)]
    refine lt_of_lt_of_le ?_ hr2
    unfold maxFinite
    norm_num

/-- A rational that is an integer multiple of the spacing at its own exponent, within the
finite range, is a binary32 value: rounding leaves it as it is. -/
theorem ofRat_of_representable (q : ℚ) (e z : ℤ) (he : -126 ≤ e)
    (h1 : (2 : ℚ) ^ e ≤ |q|) (h2 : |q| < (2 : ℚ) ^ (e + 1))
    (hz : q = z * (2 : ℚ) ^ (e - 23)) (hmax : |q| ≤ maxFinite) : ofRat q = finite q := by
  have hpos : 0 < |q| := lt_of_lt_of_le (by positivity) h1
  have hlog : Int.log 2 |q| = e := by
    have a : e ≤ Int.log 2 |q| := by
      rw [← Int.zpow_le_iff_le_log (by norm_num) hpos]
      simpa using h1
    have b : Int.log 2 |q| < e + 1 := by
      rw [← Int.lt_zpow_iff_log_lt (by norm_num) hpos]
      simpa using h2
    omega
  have hu : ulp q = (2 : ℚ) ^ (e - 23) := by
    unfold ulp
    rw [hlog, max_eq_left he]
  have hq : q / ulp q = (z : ℚ) := by
    rw [hu, hz]
    field_simp
  have hr : (roundHalfEven (q / ulp q) : ℚ) * ulp q = q := by
    rw [hq, roundHalfEven_intCast, hu, ← hz]
  unfold ofRat
  simp only [hr]
  rw [if_neg (not_lt.mpr hmax)]

theorem sqrt_zero : sqrt (finite 0) = finite 0 := by
  unfold sqrt sqrtRat
  simp

/-- In `float` arithmetic `normalize` fails its assertion whenever both components have
magnitude at most 2^-75: the squares underflow to zero. -/
theorem normalize_of_tiny (x y : ℚ) (hx : |x| ≤ 1 / 2 ^ 75) (hy : |y| ≤ 1 / 2 ^ 75) :
    Vector2.normalize ⟨finite x, finite y⟩ = none := by
  have hsq : ∀ a : ℚ, |a| ≤ 1 / 2 ^ 75 → ofRat (a * a) = finite 0 := by
    intro a ha
    apply ofRat_of_le _ (mul_self_nonneg a)
    have h1 : a * a = |a| * |a| := (abs_mul_abs_self a).symm
    rw [h1]
    calc |a| * |a| ≤ 1 / 2 ^ 75 * (1 / 2 ^ 75) :=
          mul_le_mul ha ha (abs_nonneg a) (by positivity)
      _ = 1 / 2 ^ 150 := by norm_num
  have hl : Vector2.length ⟨finite x, finite y⟩ = finite 0 := by
    unfold Vector2.length Vector2.lengthSquared
    simp only [mul, hsq x hx, hsq y hy, add, add_zero, ofRat_zero, sqrt_zero]
  unfold Vector2.normalize
  simp only [hl, lt, lt_irrefl, decide_False, Bool.false_eq_true, if_false]

/-- In `float` arithmetic `normalize` passes its assertion but leaves the vector (0, 0)
when the square of the first component overflows (second component 0): the length is
infinite. -/
theorem normalize_of_huge (x : ℚ) (hx : 2 ^ 128 ≤ x * x) :
    Vector2.normalize ⟨finite x, finite 0⟩ = some ⟨finite 0, finite 0⟩ := by
  have hl : Vector2.length ⟨finite x, finite 0⟩ = infinity false := by
    unfold Vector2.length Vector2.lengthSquared
    simp only [mul, mul_zero, ofRat_zero]
    rw [ofRat_of_ge _ hx]
    rfl
  unfold Vector2.normalize
  simp only [hl, lt, div]
  rfl

end Binary32

/-! ## `Vector2::clamp01` and `Vector2::normalize` -/

namespace Vector2

variable {K : Type} [LinearOrderedField K]

theorem ext_iff2 {K : Type} (a b : Vector2 K) : a = b ↔ a.x = b.x ∧ a.y = b.y := by
  cases a; cases b; simp

theorem lengthSquared_nonneg (v : Vector2 K) : 0 ≤ lengthSquared v :=
  add_nonneg (mul_self_nonneg _) (mul_self_nonneg _)

theorem lengthSquared_pos {v : Vector2 K} (hv : v ≠ ⟨0, 0⟩) : 0 < lengthSquared v := by
  rcases (lengthSquared_nonneg v).lt_or_eq with h | h
  · exact h
  · exfalso
    apply hv
    have hx : v.x * v.x = 0 := by
      have h1 := mul_self_nonneg v.x
      have h2 := mul_self_nonneg v.y
      unfold lengthSquared at h
      linarith
    have hy : v.y * v.y = 0 := by
      have h1 := mul_self_nonneg v.x
      have h2 := mul_self_nonneg v.y
      unfold lengthSquared at h
      linarith
    rw [ext_iff2]
    exact ⟨mul_self_eq_zero.mp hx, mul_self_eq_zero.mp hy⟩

theorem normalize_zero {sqrt : K → K} (hs : real_physics.IsSqrt sqrt) :
    normalize sqrt (⟨0, 0⟩ : Vector2 K) = none := by
  have h0 : length sqrt (⟨0, 0⟩ : Vector2 K) = 0 := by
    unfold length lengthSquared
    simp only [mul_zero, add_zero]
    exact hs.zero
  unfold normalize
  simp only [h0, gt_iff_lt, lt_irrefl, if_false]

/-- C25 (amended): in exact arithmetic (`sqrt` being a square root), for every non-zero
Vector2 v, `normalize()` passes its assertion and leaves (and returns) a vector of length 1
that is a positive multiple of v, and for the zero vector the assertion `l > 0` fails.  In
the `float` arithmetic of the code the assertion fails for the zero vector and also for
every vector whose two components have magnitude at most 2^-75, zero or not: their squares
underflow to 0, so l = 0. -/
theorem C25_normalize_gives_unit_positive_multiple (sqrt : K → K)
    (hs : real_physics.IsSqrt sqrt) (v : Vector2 K) (hv : v ≠ ⟨0, 0⟩) :
    (∃ u : Vector2 K, normalize sqrt v = some u ∧ length sqrt u = 1 ∧
      ∃ k : K, 0 < k ∧ u = ⟨k * v.x, k * v.y⟩) ∧
    normalize sqrt (⟨0, 0⟩ : Vector2 K) = none ∧
    Binary32.Vector2.normalize ⟨Binary32.finite 0, Binary32.finite 0⟩ = none ∧
    (∀ x y : ℚ, |x| ≤ 1 / 2 ^ 75 → |y| ≤ 1 / 2 ^ 75 →
      Binary32.Vector2.normalize ⟨Binary32.finite x, Binary32.finite y⟩ = none) := by
  refine ⟨?_, normalize_zero hs,
    Binary32.normalize_of_tiny 0 0 (by norm_num) (by norm_num),
    Binary32.normalize_of_tiny⟩
  have hls := lengthSquared_pos hv
  have hl : 0 < length sqrt v := hs.pos hls
  have hll : length sqrt v * length sqrt v = lengthSquared v := hs.mul_self hls.le
  refine ⟨⟨v.x / length sqrt v, v.y / length sqrt v⟩, ?_, ?_, 1 / length sqrt v,
    one_div_pos.mpr hl, ?_⟩
  · unfold normalize
    simp only [gt_iff_lt, hl, if_true]
  · have h1 : lengthSquared (⟨v.x / length sqrt v, v.y / length sqrt v⟩ : Vector2 K) = 1 := by
      show v.x / length sqrt v * (v.x / length sqrt v) +
        v.y / length sqrt v * (v.y / length sqrt v) = 1
      rw [div_mul_div_comm, div_mul_div_comm, ← add_div, hll]
      exact div_self hls.ne'
    show sqrt (lengthSquared (⟨v.x / length sqrt v, v.y / length sqrt v⟩ : Vector2 K)) = 1
    rw [h1]
    exact hs.one
  · rw [ext_iff2]
    exact ⟨by show v.x / length sqrt v = 1 / length sqrt v * v.x; ring,
      by show v.y / length sqrt v = 1 / length sqrt v * v.y; ring⟩

end Vector2

section Vector2Samples

/-- C25 (amended) at a sample input: the vector (3, 4), with the real square root. -/
theorem C25_normalize_gives_unit_positive_multiple_witness :
    ((⟨3, 4⟩ : Vector2 ℝ) ≠ ⟨0, 0⟩) ∧
    ∃ u : Vector2 ℝ, Vector2.normalize Real.sqrt ⟨3, 4⟩ = some u ∧
      Vector2.length Real.sqrt u = 1 ∧ ∃ k : ℝ, 0 < k ∧ u = ⟨k * 3, k * 4⟩ :=
  ⟨by norm_num [Vector2.ext_iff2],
   (Vector2.C25_normalize_gives_unit_positive_multiple Real.sqrt real_physics.Real_isSqrt
      ⟨3, 4⟩ (by norm_num [Vector2.ext_iff2])).1⟩

/-- C25 as stated fails in the `float` arithmetic of the code.  The vector (2^-80, 0) is a
non-zero vector of binary32 values, yet `normalize` fails its assertion `l > 0`: x*x is
2^-160, which underflows to 0, so l = 0.  The vector (1e20f, 0), with
1e20f = 100000002004087734272, passes the assertion but is left as (0, 0), neither of
length 1 nor a positive multiple of the vector: x*x overflows, so l is infinite. -/
theorem C25_float_vector_fails_or_collapses :
    Binary32.ofRat (1 / 2 ^ 80) = Binary32.finite (1 / 2 ^ 80) ∧
    Binary32.finite (1 / 2 ^ 80) ≠ Binary32.finite 0 ∧
    Binary32.Vector2.normalize ⟨Binary32.finite (1 / 2 ^ 80), Binary32.finite 0⟩ = none ∧
    Binary32.ofRat 100000002004087734272 = Binary32.finite 100000002004087734272 ∧
    Binary32.Vector2.normalize ⟨Binary32.finite 100000002004087734272, Binary32.finite 0⟩ =
      some ⟨Binary32.finite 0, Binary32.finite 0⟩ := by
  refine ⟨?_, ?_, ?_, ?_, ?_⟩
  · apply Binary32.ofRat_of_representable _ (-80) (2 ^ 23) (by norm_num)
    · norm_num [abs_of_pos]
    · norm_num [abs_of_pos]
    · norm_num
    · norm_num [abs_of_pos, Binary32.maxFinite]
  · intro h
    have := Binary32.finite.inj h
    norm_num at this
  · exact Binary32.normalize_of_tiny _ _ (by norm_num [abs_of_pos]) (by norm_num)
  · apply Binary32.ofRat_of_representable _ 66 11368684 (by norm_num)
    · norm_num [abs_of_pos]
    · norm_num [abs_of_pos]
    · norm_num
    · norm_num [abs_of_pos, Binary32.maxFinite]
  · exact Binary32.normalize_of_huge _ (by norm_num)

end Vector2Samples

/-! ## `Matrix3::getDeterminant` and `Matrix3::getTranspose` -/

namespace Matrix3

variable {K : Type} [LinearOrderedField K]

/-- The matrix of `getTranspose` is the transpose of the matrix. -/
theorem toMatrix_getTranspose (a : Matrix3 K) :
    toMatrix (getTranspose a) = Matrix.transpose (toMatrix a) := by
  ext i j
  fin_cases i <;> fin_cases j <;> rfl

/-- The matrix of `operator*` is the product of the matrices. -/
theorem toMatrix_mul (a b : Matrix3 K) :
    toMatrix (mul a b) = toMatrix a * toMatrix b := by
  ext i j
  fin_cases i <;> fin_cases j <;>
    simp [toMatrix, mul, Matrix.mul_apply, Fin.sum_univ_three]

/-- C26: for every Matrix3, `getDeterminant()` is the determinant of the 3x3 matrix of its
entries; the determinant of the transpose equals the determinant, and the determinant of a
product is the product of the determinants (exact arithmetic). -/
theorem C26_getDeterminant_is_the_determinant (A B : Matrix3 K) :
    getDeterminant A = Matrix.det (toMatrix A) ∧
    getDeterminant (getTranspose A) = getDeterminant A ∧
    getDeterminant (mul A B) = getDeterminant A * getDeterminant B := by
  refine ⟨?_, ?_, ?_⟩
  · rw [Matrix.det_fin_three]
    simp only [toMatrix, getDeterminant, Matrix.of_apply, Matrix.cons_val_zero,
      Matrix.cons_val_one, Matrix.cons_val_two, Matrix.head_cons, Matrix.tail_cons]
    ring
  · simp only [getDeterminant, getTranspose]
    ring
  · simp only [getDeterminant, mul]
    ring

/-- C27: for all Matrix3 A and B, transposing twice gives A back, and the transpose of a
product is the product of the transposes in reverse order (exact arithmetic). -/
theorem C27_getTranspose_involution_reverses_products (A B : Matrix3 K) :
    getTranspose (getTranspose A) = A ∧
    getTranspose (mul A B) = mul (getTranspose B) (getTranspose A) := by
  refine ⟨rfl, ?_⟩
  rw [ext_iff9]
  simp only [getTranspose, mul]
  refine ⟨?_, ?_, ?_, ?_, ?_, ?_, ?_, ?_, ?_⟩ <;> ring

end Matrix3

/-! ## `Vector2::operator/` -/

namespace Vector2

variable {K : Type} [LinearOrderedField K]

end Vector2

/-! ## `Matrix3`: columns, products and identity -/

namespace Matrix3

variable {K : Type} [LinearOrderedField K]

theorem eq_eq_true_iff (a b : Matrix3 K) : eq a b = true ↔ a = b := by
  rw [ext_iff9]
  unfold eq
  simp only [Bool.and_eq_true, decide_eq_true_eq, and_assoc]

/-- C35: for all vectors a1, a2, a3, the matrix built by the three-vector constructor has
them as its columns: `getColumn(i)` returns a1, a2, a3 for i = 0, 1, 2 (and fails its
assertion for every other index), and the product of the matrix with the vector (x, y, z)
is x a1 + y a2 + z a3, component by component. -/
theorem C35_three_vector_constructor_sets_columns (a1 a2 a3 : Vector3 K) (x y z : K) :
    getColumn (fromVectors a1 a2 a3) 0 = some a1 ∧
    getColumn (fromVectors a1 a2 a3) 1 = some a2 ∧
    getColumn (fromVectors a1 a2 a3) 2 = some a3 ∧
    (∀ i : Int, (i < 0 ∨ 3 ≤ i) → getColumn (fromVectors a1 a2 a3) i = none) ∧
    mulVector (fromVectors a1 a2 a3) ⟨x, y, z⟩ =
      ⟨x * a1.x + y * a2.x + z * a3.x,
       x * a1.y + y * a2.y + z * a3.y,
       x * a1.z + y * a2.z + z * a3.z⟩ := by
  refine ⟨rfl, rfl, rfl, ?_, ?_⟩
  · intro i hi
    unfold getColumn
    rw [if_neg]
    omega
  · simp only [mulVector, fromVectors, Vector3.mk.injEq]
    refine ⟨?_, ?_, ?_⟩ <;> ring

/-- C36: for all Matrix3 A, B and every vector v, (A * B) * v = A * (B * v); the matrix
left by `setToIdentity` is neutral: I * v = v and A * I = A = I * A, and `isIdentity()`
returns true for it (and for no other matrix). -/
theorem C36_products_compose_and_identity_is_neutral (A B : Matrix3 K) (v : Vector3 K) :
    mulVector (mul A B) v = mulVector A (mulVector B v) ∧
    mulVector setToIdentity v = v ∧
    mul A setToIdentity = A ∧
    mul setToIdentity A = A ∧
    isIdentity (setToIdentity : Matrix3 K) = true ∧
    (isIdentity A = true ↔ A = setToIdentity) := by
  refine ⟨mulVector_mul A B v, mulVector_setToIdentity v, ?_, ?_, ?_, ?_⟩
  · rw [ext_iff9]
    simp [mul, setToIdentity]
  · rw [ext_iff9]
    simp [mul, setToIdentity]
  · exact (eq_eq_true_iff _ _).mpr rfl
  · exact eq_eq_true_iff A setToIdentity

end Matrix3

section OperatorSamples

end OperatorSamples
end utility_engine
